import Mathlib

/-!
The monitoring service of klaw and the components around it.

A shallow embedding of `internal/monitoring/service.go` (with the data types it
uses from `internal/metrics/collector.go`, `internal/monitoring/manager.go`,
`internal/config/config.go` and `internal/kubernetes/manager.go`), of the
sampler and its formatters in `internal/metrics/collector.go`, of the two
notifier clients, the command handler, the configuration loader, the cluster
route of the query API, the legacy monitoring manager and the chart renderer,
followed by theorems about the bounded metrics history, the alert lifecycle, the
collected summaries, the formatted resource figures and the behaviour of those
components.

Conventions of the embedding.

* A Go `map[string]V` is an association list `List (String × V)`; `mapGet` is
  the lookup `m[k]` and `mapSet` the assignment `m[k] = v`.  A Go map has one
  entry per key: `MapWF` says so, and every operation preserves it.  The order
  of the list carries no meaning; where Go ranges over a map, the operation
  takes the order of iteration as an argument.
* A Go slice is a `List`; the `nil` slice is `[]`.
* Go `int` values are `Int` (the counters of the repository count list
  elements and cannot overflow); sums of `int32` and `int64` values are taken
  in two's complement (`wrapInt32`, `wrapInt64`).
* Everything the service gets from outside is a field of `Env`: the wall
  clock, the sampler, the chart renderer and the result of each notifier
  call.  `World` is the service together with what it has done to the
  outside: the notifier calls it made and the lines it printed.
* Operations run one at a time (the three loops of the service are
  interleaved at the granularity of one tick).
-/

namespace Klaw

/-! ## Go library pieces -/

/-- Decimal rendering used by `fmt.Sprintf("%d", n)` for a Go `int`. -/
def formatInt : Int → String
  | Int.ofNat m => Nat.repr m
  | Int.negSucc m => "-" ++ Nat.repr (m + 1)

/-- Decimal digits of `n`, left-padded with zeros to at least `width`
characters (what `time.Format` does for `2006`, `01`, `02`, `15`, `04`, `05`). -/
def zeroPad (width n : Nat) : List Char :=
  List.replicate (width - (Nat.toDigits 10 n).length) '0' ++ Nat.toDigits 10 n

/-- A reading of the wall clock (`time.Time`), as its civil fields in the
local time zone. -/
structure Time where
  year : Nat
  month : Nat
  day : Nat
  hour : Nat
  minute : Nat
  second : Nat
  nanosecond : Nat
deriving DecidableEq, Repr

/-- The text of `t.Format("20060102150405")`. -/
def Time.stamp (t : Time) : String :=
  String.mk (zeroPad 4 t.year ++ zeroPad 2 t.month ++ zeroPad 2 t.day ++
    zeroPad 2 t.hour ++ zeroPad 2 t.minute ++ zeroPad 2 t.second)

/-- The text of `t.Format("2006-01-02 15:04:05")`. -/
def Time.dateTime (t : Time) : String :=
  String.mk (zeroPad 4 t.year ++ '-' :: zeroPad 2 t.month ++ '-' :: zeroPad 2 t.day ++
    ' ' :: zeroPad 2 t.hour ++ ':' :: zeroPad 2 t.minute ++ ':' :: zeroPad 2 t.second)

/-! ## Go maps as association lists -/

/-- The lookup `m[k]` (`none` when the key is absent). -/
def mapGet {α : Type} (k : String) : List (String × α) → Option α
  | [] => none
  | (k', v) :: rest => if k' = k then some v else mapGet k rest

/-- The assignment `m[k] = v`: replaces the entry of `k`, or adds one. -/
def mapSet {α : Type} (k : String) (v : α) : List (String × α) → List (String × α)
  | [] => [(k, v)]
  | (k', v') :: rest => if k' = k then (k, v) :: rest else (k', v') :: mapSet k v rest

/-- The keys of a map. -/
def mapKeys {α : Type} (m : List (String × α)) : List String := m.map Prod.fst

/-- A Go map holds one entry per key. -/
def MapWF {α : Type} (m : List (String × α)) : Prop := (mapKeys m).Nodup

/-! ## Data model -/

/-- The fields of `corev1.NodeCondition` that the repository reads (`Type_` is
the Go field `Type`, a reserved word here; likewise in `EventMetric` and
`Alert`). -/
structure NodeCondition where
  Type_ : String
  Status : String
  Message : String
deriving DecidableEq, Repr

/-- `metrics.NodeDetail`.  The two `float64` percentage fields, which no code
of the repository assigns, are left out. -/
structure NodeDetail where
  Name : String
  CPUUsage : String
  MemoryUsage : String
  Conditions : List NodeCondition
deriving DecidableEq, Repr

/-- `metrics.NodeMetricsSummary`. -/
structure NodeMetricsSummary where
  Total : Int
  Ready : Int
  NotReady : Int
  Unreachable : Int
  Details : List NodeDetail
deriving DecidableEq, Repr

/-- `metrics.PodDetail` (`Age` in nanoseconds). -/
structure PodDetail where
  Name : String
  Namespace : String
  Status : String
  RestartCount : Int
  Age : Int
deriving DecidableEq, Repr

/-- `metrics.PodMetricsSummary`. -/
structure PodMetricsSummary where
  Total : Int
  Running : Int
  Pending : Int
  Failed : Int
  Succeeded : Int
  Details : List PodDetail
deriving DecidableEq, Repr

/-- `metrics.ResourceMetrics`. -/
structure ResourceMetrics where
  TotalCPU : String
  TotalMemory : String
  UsedCPU : String
  UsedMemory : String
  AvailableCPU : String
  AvailableMemory : String
deriving DecidableEq, Repr

/-- `metrics.EventMetric`. -/
structure EventMetric where
  Type_ : String
  Reason : String
  Message : String
  Count : Int
  FirstSeen : Time
  LastSeen : Time
deriving DecidableEq, Repr

/-- `metrics.ClusterMetrics`: one sample of a cluster. -/
structure ClusterMetrics where
  ClusterName : String
  Timestamp : Time
  Nodes : NodeMetricsSummary
  Pods : PodMetricsSummary
  Resources : ResourceMetrics
  Events : List EventMetric
deriving DecidableEq, Repr

/-- `monitoring.Alert`. -/
structure Alert where
  ID : String
  Cluster : String
  Type_ : String
  Level : String
  Message : String
  CreatedAt : Time
  Resolved : Bool
deriving DecidableEq, Repr

/-- `config.ClusterConfig`. -/
structure ClusterConfig where
  Name : String
  Kubeconfig : String
  Context : String
deriving DecidableEq, Repr

/-- `kubernetes.Manager`, as far as the service uses it: the registered
clusters (`GetClusters`). -/
structure Manager where
  clusters : List ClusterConfig
deriving DecidableEq, Repr

/-- `Manager.GetClusters`. -/
def Manager.GetClusters (m : Manager) : List ClusterConfig := m.clusters

/-- `monitoring.Service`.  `dingtalkClient` and `feishuClient` say whether the
pointer of that name is non-nil. -/
structure Service where
  k8sManager : Manager
  dingtalkClient : Bool
  feishuClient : Bool
  alerts : List (String × Alert)
  metricsHistory : List (String × List ClusterMetrics)
deriving DecidableEq, Repr

/-- `NewService`. -/
def NewService (k8sManager : Manager) : Service :=
  { k8sManager := k8sManager, dingtalkClient := false, feishuClient := false,
    alerts := [], metricsHistory := [] }

/-! ## The outside world -/

/-- The two notifier endpoints. -/
inductive Notifier where
  | dingtalk
  | feishu
deriving DecidableEq, Repr

/-- One call on a notifier: `SendMessage(text)` or `SendChart(data, title)`. -/
inductive Call where
  | message (target : Notifier) (text : String)
  | chart (target : Notifier) (data : List Nat) (title : String)
deriving DecidableEq, Repr

/-- What the service gets from outside.  Each field is indexed by how many
requests of that sort the service has made before. -/
structure Env where
  /-- The value of the service's `n`-th `time.Now()`. -/
  now : Nat → Time
  /-- The result of the `n`-th `CollectClusterMetrics(name)`. -/
  collect : Nat → String → Except String ClusterMetrics
  /-- The result of the `n`-th `GenerateClusterMetricsChart(sample)`. -/
  render : Nat → ClusterMetrics → Except String (List Nat)
  /-- The error returned by the `n`-th notifier call (`none` for `nil`). -/
  send : Nat → Call → Option String

/-- The service and the trace of its dealings with the outside. -/
structure World where
  svc : Service
  /-- Number of `time.Now()` readings taken. -/
  clock : Nat
  /-- Number of `CollectClusterMetrics` calls made. -/
  collected : Nat
  /-- Number of `GenerateClusterMetricsChart` calls made. -/
  rendered : Nat
  /-- Notifier calls made, oldest first. -/
  calls : List Call
  /-- Text printed with `fmt.Printf`, oldest first. -/
  out : List String
deriving DecidableEq, Repr

/-- A freshly created service that has done nothing yet. -/
def World.init (k8sManager : Manager) : World :=
  { svc := NewService k8sManager, clock := 0, collected := 0, rendered := 0,
    calls := [], out := [] }

/-! ## The service's operations -/

/-- `Service.SetDingTalkClient` (`client` says whether the pointer is non-nil). -/
def SetDingTalkClient (client : Bool) (w : World) : World :=
  { w with svc := { w.svc with dingtalkClient := client } }

/-- `Service.SetFeishuClient` (`client` says whether the pointer is non-nil). -/
def SetFeishuClient (client : Bool) (w : World) : World :=
  { w with svc := { w.svc with feishuClient := client } }

/-- One notifier call with the service's handling of its result: on an error
the line `failure ++ err` is printed and execution goes on. -/
def notify (env : Env) (call : Call) (failure : String) (w : World) : World :=
  let err := env.send w.calls.length call
  let w := { w with calls := w.calls ++ [call] }
  match err with
  | none => w
  | some e => { w with out := w.out ++ [failure ++ e ++ "\n"] }

/-- The body of the loop of `Service.collectMetrics`, for one registered
cluster. -/
def collectMetricsStep (env : Env) (w : World) (cluster : ClusterConfig) : World :=
  let r := env.collect w.collected cluster.Name
  let w := { w with collected := w.collected + 1 }
  match r with
  | .error err =>
    { w with out := w.out ++
        ["Failed to collect metrics for cluster " ++ cluster.Name ++ ": " ++ err ++ "\n"] }
  | .ok metrics =>
    let h0 := w.svc.metricsHistory
    let h1 := match mapGet cluster.Name h0 with
      | none => mapSet cluster.Name [] h0
      | some _ => h0
    let h2 := mapSet cluster.Name ((mapGet cluster.Name h1).getD [] ++ [metrics]) h1
    let h3 := if ((mapGet cluster.Name h2).getD []).length > 100
      then mapSet cluster.Name (((mapGet cluster.Name h2).getD []).drop 1) h2
      else h2
    { w with
      svc := { w.svc with metricsHistory := h3 }
      out := w.out ++
        ["Collected metrics for cluster " ++ cluster.Name ++ ": " ++
          formatInt metrics.Nodes.Total ++ " nodes, " ++
          formatInt metrics.Pods.Total ++ " pods\n"] }

/-- `Service.collectMetrics`: one tick of the collection loop. -/
def collectMetrics (env : Env) (w : World) : World :=
  w.svc.k8sManager.GetClusters.foldl (collectMetricsStep env) w

/-- The body of the loop of `Service.sendCharts`, for one entry of the history
map. -/
def sendChartsStep (env : Env) (w : World) (entry : String × List ClusterMetrics) : World :=
  match entry.2.getLast? with
  | none => w
  | some latestMetrics =>
    let r := env.render w.rendered latestMetrics
    let w := { w with rendered := w.rendered + 1 }
    match r with
    | .error err =>
      { w with out := w.out ++
          ["Failed to generate chart for cluster " ++ entry.1 ++ ": " ++ err ++ "\n"] }
    | .ok chartData =>
      let w := if w.svc.dingtalkClient
        then notify env (.chart .dingtalk chartData ("集群监控 - " ++ entry.1))
          "Failed to send chart to DingTalk: " w
        else w
      let w := if w.svc.feishuClient
        then notify env (.chart .feishu chartData ("集群监控 - " ++ entry.1))
          "Failed to send chart to Feishu: " w
        else w
      { w with out := w.out ++ ["Sent monitoring chart for cluster " ++ entry.1 ++ "\n"] }

/-- `Service.sendCharts`: one tick of the chart loop.  `order` is the order in
which `range` visits the entries of the history map. -/
def sendCharts (env : Env) (order : List (String × List ClusterMetrics)) (w : World) : World :=
  order.foldl (sendChartsStep env) w

/-- The text built by `Service.sendAlert`. -/
def alertMessage (alert : Alert) : String :=
  "[Kubernetes Alert] " ++ alert.Type_ ++ " - " ++ alert.ID ++ "\nCluster: " ++ alert.Cluster ++
    "\nLevel: " ++ alert.Level ++ "\nMessage: " ++ alert.Message ++ "\nTime: " ++
    alert.CreatedAt.dateTime

/-- `Service.sendAlert`. -/
def sendAlert (env : Env) (alert : Alert) (w : World) : World :=
  let message := alertMessage alert
  let w := if w.svc.dingtalkClient
    then notify env (.message .dingtalk message) "Failed to send alert to DingTalk: " w
    else w
  let w := if w.svc.feishuClient
    then notify env (.message .feishu message) "Failed to send alert to Feishu: " w
    else w
  w

/-- The alert id built by `createAlert` from a clock reading:
`fmt.Sprintf("%s-%s-%s", clusterName, alertType, now.Format("20060102150405"))`. -/
def alertID (clusterName alertType : String) (now : Time) : String :=
  clusterName ++ "-" ++ alertType ++ "-" ++ now.stamp

/-- `Service.createAlert`.  It reads the clock once for the id and, when the id
is new, once more for `CreatedAt`. -/
def createAlert (env : Env) (clusterName alertType level message : String) (w : World) : World :=
  let id := alertID clusterName alertType (env.now w.clock)
  let w := { w with clock := w.clock + 1 }
  match mapGet id w.svc.alerts with
  | some _ => w
  | none =>
    let alert : Alert :=
      { ID := id, Cluster := clusterName, Type_ := alertType, Level := level,
        Message := message, CreatedAt := env.now w.clock, Resolved := false }
    let w := { w with
      clock := w.clock + 1
      svc := { w.svc with alerts := mapSet id alert w.svc.alerts } }
    sendAlert env alert w

/-- The body of the loop of `Service.checkAlerts`, for one entry of the history
map. -/
def checkAlertsStep (env : Env) (w : World) (entry : String × List ClusterMetrics) : World :=
  match entry.2.getLast? with
  | none => w
  | some latestMetrics =>
    let w := if latestMetrics.Nodes.NotReady > 0
      then createAlert env entry.1 "node" "warning"
        (formatInt latestMetrics.Nodes.NotReady ++ " nodes are not ready") w
      else w
    let w := if latestMetrics.Pods.Failed > 0
      then createAlert env entry.1 "pod" "critical"
        (formatInt latestMetrics.Pods.Failed ++ " pods have failed") w
      else w
    let w := if latestMetrics.Pods.Pending > 10
      then createAlert env entry.1 "pod" "warning"
        (formatInt latestMetrics.Pods.Pending ++ " pods are pending") w
      else w
    w

/-- `Service.checkAlerts`: one tick of the alert loop.  `order` is the order in
which `range` visits the entries of the history map. -/
def checkAlerts (env : Env) (order : List (String × List ClusterMetrics)) (w : World) : World :=
  order.foldl (checkAlertsStep env) w

/-- `Service.GetMetricsHistory` (`[]` is the `nil` returned for an unknown
cluster). -/
def GetMetricsHistory (s : Service) (clusterName : String) : List ClusterMetrics :=
  match mapGet clusterName s.metricsHistory with
  | some history => history
  | none => []

/-- `Service.GetAlerts`: the alerts of the store, in the order in which `range`
happens to visit them (here: the order of the association list). -/
def GetAlerts (s : Service) : List Alert := s.alerts.map Prod.snd

/-- The text built by `Service.ResolveAlert`. -/
def resolvedMessage (alert : Alert) (now : Time) : String :=
  "[Kubernetes Alert Resolved] " ++ alert.Type_ ++ " - " ++ alert.ID ++ "\nCluster: " ++
    alert.Cluster ++ "\nLevel: " ++ alert.Level ++ "\nMessage: " ++ alert.Message ++
    "\nTime: " ++ now.dateTime

/-- `Service.ResolveAlert`: the returned error (`none` for `nil`) and the world
afterwards. -/
def ResolveAlert (env : Env) (alertID : String) (w : World) : Option String × World :=
  match mapGet alertID w.svc.alerts with
  | none => (some ("alert not found: " ++ alertID), w)
  | some alert =>
    let alert := { alert with Resolved := true }
    let w := { w with svc := { w.svc with alerts := mapSet alertID alert w.svc.alerts } }
    let message := resolvedMessage alert (env.now w.clock)
    let w := { w with clock := w.clock + 1 }
    let w := if w.svc.dingtalkClient
      then notify env (.message .dingtalk message) "Failed to send resolved alert to DingTalk: " w
      else w
    let w := if w.svc.feishuClient
      then notify env (.message .feishu message) "Failed to send resolved alert to Feishu: " w
      else w
    (none, w)

/-! ## Runs of the service -/

/-- The operations of the service.  `createAlert` is internal to the service
(only `checkAlerts` calls it); it is listed so that statements about every
operation also cover it with arbitrary arguments. -/
inductive Op where
  | SetDingTalkClient (client : Bool)
  | SetFeishuClient (client : Bool)
  | collectMetrics
  | sendCharts (order : List (String × List ClusterMetrics))
  | checkAlerts (order : List (String × List ClusterMetrics))
  | createAlert (clusterName alertType level message : String)
  | ResolveAlert (alertID : String)

/-- The effect of one operation. -/
def step (env : Env) (w : World) : Op → World
  | .SetDingTalkClient client => SetDingTalkClient client w
  | .SetFeishuClient client => SetFeishuClient client w
  | .collectMetrics => collectMetrics env w
  | .sendCharts order => sendCharts env order w
  | .checkAlerts order => checkAlerts env order w
  | .createAlert clusterName alertType level message =>
    createAlert env clusterName alertType level message w
  | .ResolveAlert alertID => (ResolveAlert env alertID w).2

/-- The operation ranges over the history map as it is: an operation that
iterates does so in an order that is a permutation of the map's entries. -/
def Op.FitsWorld (w : World) : Op → Prop
  | .sendCharts order => order.Perm w.svc.metricsHistory
  | .checkAlerts order => order.Perm w.svc.metricsHistory
  | _ => True

/-- The effect of a sequence of operations. -/
def run (env : Env) (w : World) (ops : List Op) : World := ops.foldl (step env) w

/-- The worlds the service can be in: those obtained from a fresh service by
its operations, each iterating over the history map as it is at that point. -/
inductive Reachable (env : Env) (k8sManager : Manager) : World → Prop where
  | init : Reachable env k8sManager (World.init k8sManager)
  | step (w : World) (op : Op) : Reachable env k8sManager w → op.FitsWorld w →
      Reachable env k8sManager (step env w op)

/-! ## The sampler (`internal/metrics/collector.go`)

The Kubernetes client library is outside the repository.  A client handle is
modelled by what its list queries answer; a `resource.Quantity` by the three
readings the collector takes of it.  `float64` values are exact fractions:
conversion and division round to the nearest `float64`, ties to even, and the
`%.Nf` verb prints the exact value rounded to `N` decimals, ties to even. -/

/-- A Go `int32` result: the two's-complement value of `x` in 32 bits. -/
def wrapInt32 (x : Int) : Int := (x + 2 ^ 31) % 2 ^ 32 - 2 ^ 31

/-- A Go `int64` result: the two's-complement value of `x` in 64 bits. -/
def wrapInt64 (x : Int) : Int := (x + 2 ^ 63) % 2 ^ 64 - 2 ^ 63

/-- The integer nearest to `a / b`, ties to the even one (`b > 0`). -/
def roundHalfEven (a b : Nat) : Nat :=
  if 2 * (a % b) < b then a / b
  else if b < 2 * (a % b) then a / b + 1
  else if (a / b) % 2 = 0 then a / b
  else a / b + 1

/-- Number of binary digits of `n`, computed with `fuel` halvings at most. -/
def bitLengthAux : Nat → Nat → Nat
  | 0, _ => 0
  | fuel + 1, n => if n = 0 then 0 else bitLengthAux fuel (n / 2) + 1

/-- Number of binary digits of `n` (`0` for `0`). -/
def bitLength (n : Nat) : Nat := bitLengthAux n n

/-- The `float64` nearest to `a / b` (ties to even), as a fraction
`numerator / denominator`, for `a, b > 0` with `a / b` in the range of normal
`float64` values: the quotient is scaled by a power of two into
`[2^52, 2^53)`, rounded to an integer there, and scaled back. -/
def nearestFloat64 (a b : Nat) : Nat × Nat :=
  let up := if b * 2 ^ bitLength a ≤ a * 2 ^ bitLength b
    then 52 + bitLength b else 53 + bitLength b
  (roundHalfEven (a * 2 ^ up) (b * 2 ^ bitLength a) * 2 ^ bitLength a, 2 ^ up)

/-- The Go expression `float64(a) / float64(b)` for integers `a, b > 0` where
`b` is a `float64` exactly (1000 and the powers of two are). -/
def float64Quotient (a b : Nat) : Nat × Nat :=
  nearestFloat64 (nearestFloat64 a 1).1 ((nearestFloat64 a 1).2 * b)

/-- The text of `fmt.Sprintf("%.{prec}f", x)` for a positive `float64` `x`
given as a fraction. -/
def formatFixed (prec : Nat) (x : Nat × Nat) : String :=
  Nat.repr (roundHalfEven (x.1 * 10 ^ prec) x.2 / 10 ^ prec) ++ "." ++
    String.mk (zeroPad prec (roundHalfEven (x.1 * 10 ^ prec) x.2 % 10 ^ prec))

/-- `formatCPU`. -/
def formatCPU (milliValue : Int) : String :=
  if milliValue ≥ 1000 then formatFixed 1 (float64Quotient milliValue.toNat 1000)
  else formatInt milliValue ++ "m"

/-- The constant `KB` of `formatMemory`. -/
def KB : Int := 1024

/-- The constant `MB` of `formatMemory`. -/
def MB : Int := KB * 1024

/-- The constant `GB` of `formatMemory`. -/
def GB : Int := MB * 1024

/-- `formatMemory`. -/
def formatMemory (value : Int) : String :=
  if value ≥ GB then formatFixed 2 (float64Quotient value.toNat GB.toNat) ++ "Gi"
  else if value ≥ MB then formatFixed 2 (float64Quotient value.toNat MB.toNat) ++ "Mi"
  else if value ≥ KB then formatFixed 2 (float64Quotient value.toNat KB.toNat) ++ "Ki"
  else formatInt value ++ "B"

/-- A `resource.Quantity`, as the collector reads it. -/
structure Quantity where
  /-- The text of `String()`. -/
  text : String
  /-- The `int64` of `MilliValue()`. -/
  milliValue : Int
  /-- The `int64` of `Value()`. -/
  value : Int
deriving DecidableEq, Repr

/-- The fields of `corev1.Node` that the collector reads: `Name`,
`Status.Capacity.Cpu()`, `Status.Capacity.Memory()` and `Status.Conditions`. -/
structure Node where
  Name : String
  CapacityCPU : Quantity
  CapacityMemory : Quantity
  Conditions : List NodeCondition
deriving DecidableEq, Repr

/-- The field of `corev1.ContainerStatus` that the collector reads (an
`int32`). -/
structure ContainerStatus where
  RestartCount : Int
deriving DecidableEq, Repr

/-- The fields of `corev1.Pod` that the collector reads: `Name`, `Namespace`,
`Status.Phase`, `Status.ContainerStatuses` and `CreationTimestamp`; and
`Spec.NodeName`, which the command handler prints. -/
structure Pod where
  Name : String
  Namespace : String
  Phase : String
  ContainerStatuses : List ContainerStatus
  CreationTimestamp : Time
  NodeName : String := ""
deriving DecidableEq, Repr

/-- The fields of `corev1.Event` that the collector reads. -/
structure Event where
  Type_ : String
  Reason : String
  Message : String
  Count : Int
  FirstTimestamp : Time
  LastTimestamp : Time
deriving DecidableEq, Repr

/-- What a list query through the client handle comes to. -/
inductive Listing (α : Type) where
  /-- The type assertion on the handle fails. -/
  | invalidClient
  /-- The call of `List` returns this error. -/
  | failed (err : String)
  /-- The call of `List` returns these items. -/
  | items (xs : List α)
deriving DecidableEq, Repr

/-- A client handle (`*kubernetes.Clientset`), as what it answers to the four
list queries of one `CollectClusterMetrics`. -/
structure Clientset where
  /-- The node list asked for by `collectNodeMetrics`. -/
  nodes : Listing Node
  /-- The pod list asked for by `collectPodMetrics`. -/
  pods : Listing Pod
  /-- The node list asked for by `collectResourceMetrics`. -/
  resourceNodes : Listing Node
  /-- The event list asked for by `collectEventMetrics`. -/
  events : Listing Event
deriving DecidableEq, Repr

/-- `Manager.GetClient`, over the manager's map of client handles. -/
def GetClient (clients : List (String × Clientset)) (clusterName : String) :
    Except String Clientset :=
  match mapGet clusterName clients with
  | none => .error ("cluster not found: " ++ clusterName)
  | some client => .ok client

/-- The inner loop of `collectNodeMetrics`: whether some condition has type
`Ready` and status `True`. -/
def nodeIsReady : List NodeCondition → Bool
  | [] => false
  | condition :: rest =>
    if condition.Type_ = "Ready" ∧ condition.Status = "True" then true else nodeIsReady rest

/-- The detail entry that `collectNodeMetrics` builds for a node. -/
def nodeDetail (node : Node) : NodeDetail :=
  { Name := node.Name, CPUUsage := node.CapacityCPU.text,
    MemoryUsage := node.CapacityMemory.text, Conditions := node.Conditions }

/-- The loop of `collectNodeMetrics` over the nodes.  The counters are Go `int`
(64 bits); they stay below the length of the list, so they do not overflow. -/
def collectNodeMetricsLoop (summary : NodeMetricsSummary) : List Node → NodeMetricsSummary
  | [] => summary
  | node :: rest =>
    let detail := nodeDetail node
    let summary :=
      if nodeIsReady node.Conditions then { summary with Ready := summary.Ready + 1 }
      else { summary with NotReady := summary.NotReady + 1 }
    collectNodeMetricsLoop { summary with Details := summary.Details ++ [detail] } rest

/-- `Collector.collectNodeMetrics`. -/
def collectNodeMetrics : Listing Node → Except String NodeMetricsSummary
  | .invalidClient => .error "invalid client type"
  | .failed err => .error err
  | .items nodes =>
    .ok (collectNodeMetricsLoop
      { Total := nodes.length, Ready := 0, NotReady := 0, Unreachable := 0, Details := [] }
      nodes)

/-- The inner loop of `collectPodMetrics`: the `int32` sum of the containers'
restart counts. -/
def restartCount (statuses : List ContainerStatus) : Int :=
  statuses.foldl (fun count status => wrapInt32 (count + status.RestartCount)) 0

/-- The loop of `collectPodMetrics` over the pods.  `since n t` is the value
of `time.Since(t)`, in nanoseconds, for the `n`-th pod of the list. -/
def collectPodMetricsLoop (since : Nat → Time → Int) (summary : PodMetricsSummary) :
    List Pod → PodMetricsSummary
  | [] => summary
  | pod :: rest =>
    let detail : PodDetail :=
      { Name := pod.Name, Namespace := pod.Namespace, Status := pod.Phase,
        RestartCount := restartCount pod.ContainerStatuses,
        Age := since summary.Details.length pod.CreationTimestamp }
    let summary :=
      if pod.Phase = "Running" then { summary with Running := summary.Running + 1 }
      else if pod.Phase = "Pending" then { summary with Pending := summary.Pending + 1 }
      else if pod.Phase = "Failed" then { summary with Failed := summary.Failed + 1 }
      else if pod.Phase = "Succeeded" then { summary with Succeeded := summary.Succeeded + 1 }
      else summary
    collectPodMetricsLoop since { summary with Details := summary.Details ++ [detail] } rest

/-- `Collector.collectPodMetrics`. -/
def collectPodMetrics (since : Nat → Time → Int) :
    Listing Pod → Except String PodMetricsSummary
  | .invalidClient => .error "invalid client type"
  | .failed err => .error err
  | .items pods =>
    .ok (collectPodMetricsLoop since
      { Total := pods.length, Running := 0, Pending := 0, Failed := 0, Succeeded := 0,
        Details := [] }
      pods)

/-- `Collector.collectResourceMetrics` (the sums are `int64`; `/ 2` is Go's
integer division, which truncates toward zero). -/
def collectResourceMetrics : Listing Node → Except String ResourceMetrics
  | .invalidClient => .error "invalid client type"
  | .failed err => .error err
  | .items nodes =>
    let totalCPU := nodes.foldl (fun total node => wrapInt64 (total + node.CapacityCPU.milliValue)) 0
    let totalMemory :=
      nodes.foldl (fun total node => wrapInt64 (total + node.CapacityMemory.value)) 0
    .ok { TotalCPU := formatCPU totalCPU
          TotalMemory := formatMemory totalMemory
          UsedCPU := formatCPU (totalCPU.tdiv 2)
          UsedMemory := formatMemory (totalMemory.tdiv 2)
          AvailableCPU := formatCPU (totalCPU.tdiv 2)
          AvailableMemory := formatMemory (totalMemory.tdiv 2) }

/-- `Collector.collectEventMetrics`. -/
def collectEventMetrics : Listing Event → Except String (List EventMetric)
  | .invalidClient => .error "invalid client type"
  | .failed err => .error err
  | .items events =>
    .ok (events.map fun event =>
      { Type_ := event.Type_, Reason := event.Reason, Message := event.Message,
        Count := event.Count, FirstSeen := event.FirstTimestamp,
        LastSeen := event.LastTimestamp })

/-- `Collector.CollectClusterMetrics`: the returned pointer (`none` for `nil`)
and the returned error (`none` for `nil`).  `now` is the reading of
`time.Now()` for the sample's timestamp. -/
def CollectClusterMetrics (clients : List (String × Clientset)) (now : Time)
    (since : Nat → Time → Int) (clusterName : String) :
    Option ClusterMetrics × Option String :=
  match GetClient clients clusterName with
  | .error err => (none, some err)
  | .ok client =>
    match collectNodeMetrics client.nodes with
    | .error err => (none, some ("failed to collect node metrics: " ++ err))
    | .ok nodeMetrics =>
      match collectPodMetrics since client.pods with
      | .error err => (none, some ("failed to collect pod metrics: " ++ err))
      | .ok podMetrics =>
        match collectResourceMetrics client.resourceNodes with
        | .error err => (none, some ("failed to collect resource metrics: " ++ err))
        | .ok resourceMetrics =>
          match collectEventMetrics client.events with
          | .error err => (none, some ("failed to collect event metrics: " ++ err))
          | .ok eventMetrics =>
            (some { ClusterName := clusterName, Timestamp := now, Nodes := nodeMetrics,
                    Pods := podMetrics, Resources := resourceMetrics, Events := eventMetrics },
              none)

/-! ## The token-app client (`internal/messaging/feishu/client.go`)

The HTTP exchange with the platform is outside the repository: what the
app-token endpoint answers is a field of `Feishu.Env`.  An instant of
`time.Time` is its number of nanoseconds on the time line (the client only
compares instants and adds a duration to one). -/

/-- The response body of the app-token endpoint, as
`json.NewDecoder(resp.Body).Decode(&response)` fills it in (`Expire` is a Go
`int`, 64 bits wide). -/
structure Feishu.TokenResponse where
  Code : Int
  AppAccessToken : String
  Expire : Int
deriving DecidableEq, Repr

/-- What the `http.Post` of `refreshAccessToken` comes to. -/
inductive Feishu.TokenReply where
  /-- The call returns this transport error. -/
  | transportError (err : String)
  /-- The call returns a response with this status code, whose body decodes
  to this (or fails to decode with this error). -/
  | response (StatusCode : Int) (body : Except String Feishu.TokenResponse)

/-- `feishu.Client`, as far as the token cache goes. -/
structure Feishu.Client where
  appID : String
  appSecret : String
  accessToken : String
  tokenExpiry : Int
deriving DecidableEq, Repr

/-- What the client gets from outside. -/
structure Feishu.Env where
  /-- The value of the client's `n`-th `time.Now()`, in nanoseconds. -/
  now : Nat → Int
  /-- The outcome of the client's `n`-th POST to the app-token endpoint. -/
  post : Nat → Feishu.TokenReply

/-- The client and the count of its dealings with the outside. -/
structure Feishu.World where
  client : Feishu.Client
  /-- Number of `time.Now()` readings taken. -/
  clock : Nat
  /-- Number of POSTs made to the app-token endpoint. -/
  posts : Nat
deriving DecidableEq, Repr

/-- `time.Duration(expire-300) * time.Second`: both the subtraction and the
product are taken in 64 bits. -/
def Feishu.slackDuration (expire : Int) : Int :=
  wrapInt64 (wrapInt64 (expire - 300) * 1000000000)

/-- `Client.refreshAccessToken`: the returned error (`none` for `nil`) and the
world afterwards. -/
def Feishu.refreshAccessToken (env : Feishu.Env) (w : Feishu.World) :
    Option String × Feishu.World :=
  let reply := env.post w.posts
  let w := { w with posts := w.posts + 1 }
  match reply with
  | .transportError err => (some ("failed to refresh access token: " ++ err), w)
  | .response statusCode body =>
    if statusCode ≠ 200 then
      (some ("failed to refresh access token, status code: " ++ formatInt statusCode), w)
    else
      match body with
      | .error err => (some ("failed to decode response: " ++ err), w)
      | .ok response =>
        if response.Code ≠ 0 then
          (some ("failed to refresh access token, code: " ++ formatInt response.Code), w)
        else
          let fetchTime := env.now w.clock
          (none,
            { w with
              clock := w.clock + 1
              client := { w.client with
                accessToken := response.AppAccessToken
                tokenExpiry := fetchTime + Feishu.slackDuration response.Expire } })

/-- `Client.getAccessToken`: the returned pair (token, error) and the world
afterwards.  `time.Now().After(c.tokenExpiry)` is the strict comparison. -/
def Feishu.getAccessToken (env : Feishu.Env) (w : Feishu.World) :
    (String × Option String) × Feishu.World :=
  let now := env.now w.clock
  let w := { w with clock := w.clock + 1 }
  if now > w.client.tokenExpiry then
    match Feishu.refreshAccessToken env w with
    | (some err, w) => (("", some err), w)
    | (none, w) => ((w.client.accessToken, none), w)
  else ((w.client.accessToken, none), w)

/-! ## The signed-webhook client (`internal/messaging/dingtalk/client.go`)

The cryptographic and encoding functions of the Go library are fields of
`DingTalk.Lib`; the request handed to `http.Post` is part of the result. -/

/-- The library functions that the client calls. -/
structure DingTalk.Lib where
  /-- The digest of `hmac.New(sha256.New, key)` after writing `message`. -/
  hmacSHA256 : String → String → List Nat
  /-- The function `base64.StdEncoding.EncodeToString`. -/
  base64 : List Nat → String
  /-- The function `url.QueryEscape`. -/
  queryEscape : String → String
  /-- The text that `json.Marshal` writes for a string value, quotes included. -/
  jsonString : String → String

/-- `dingtalk.Client`, as far as sending goes. -/
structure DingTalk.Client where
  webhook : String
  secret : String
deriving DecidableEq, Repr

/-- The arguments of one `http.Post(url, contentType, body)`; `body = none` is
the `nil` reader, which sends no content. -/
structure DingTalk.Post where
  url : String
  contentType : String
  body : Option String
deriving DecidableEq, Repr

/-- What an `http.Post` comes to. -/
inductive DingTalk.Reply where
  /-- The call returns this transport error. -/
  | transportError (err : String)
  /-- The call returns a response with this status code. -/
  | response (StatusCode : Int)
deriving DecidableEq, Repr

/-- `Client.generateSignature`. -/
def DingTalk.generateSignature (lib : DingTalk.Lib) (c : DingTalk.Client) (timestamp : Int) :
    String :=
  let stringToSign := formatInt timestamp ++ "\n" ++ c.secret
  let signature := lib.base64 (lib.hmacSHA256 c.secret stringToSign)
  lib.queryEscape signature

/-- The text that `json.Marshal` writes for the `requestBody` of `SendMessage`
(the keys of a Go map are written in sorted order). -/
def DingTalk.textBody (lib : DingTalk.Lib) (message : String) : String :=
  "\x7b\"msgtype\":\"text\",\"text\":\x7b\"content\":" ++ lib.jsonString message ++ "\x7d\x7d"

/-- The text that `json.Marshal` writes for the `requestBody` of `SendImage`. -/
def DingTalk.markdownBody (lib : DingTalk.Lib) (imageData : List Nat) (message : String) :
    String :=
  "\x7b\"markdown\":\x7b\"text\":" ++
    lib.jsonString ("## " ++ message ++ "\n\n![监控图表](data:image/png;base64," ++
      lib.base64 imageData ++ ")") ++
    ",\"title\":" ++ lib.jsonString "Kubernetes监控图表" ++ "\x7d,\"msgtype\":\"markdown\"\x7d"

/-- `Client.SendMessage`: the returned error (`none` for `nil`) and the request
it made.  `timestamp` is the reading `time.Now().UnixMilli()` and `reply` what
the request comes to.  The marshalled `data` is computed and not passed on:
the third argument of `http.Post` is `nil`. -/
def DingTalk.SendMessage (lib : DingTalk.Lib) (c : DingTalk.Client) (timestamp : Int)
    (reply : DingTalk.Reply) (message : String) : Option String × DingTalk.Post :=
  let signature := DingTalk.generateSignature lib c timestamp
  let requestURL := c.webhook ++ "&timestamp=" ++ formatInt timestamp ++ "&sign=" ++ signature
  let _data := DingTalk.textBody lib message
  let post : DingTalk.Post :=
    { url := requestURL, contentType := "application/json", body := none }
  match reply with
  | .transportError err => (some ("failed to send message: " ++ err), post)
  | .response statusCode =>
    if statusCode ≠ 200 then
      (some ("failed to send message, status code: " ++ formatInt statusCode), post)
    else (none, post)

/-- `Client.SendImage`: the returned error and the request it made. -/
def DingTalk.SendImage (lib : DingTalk.Lib) (c : DingTalk.Client) (timestamp : Int)
    (reply : DingTalk.Reply) (imageData : List Nat) (message : String) :
    Option String × DingTalk.Post :=
  let signature := DingTalk.generateSignature lib c timestamp
  let requestURL := c.webhook ++ "&timestamp=" ++ formatInt timestamp ++ "&sign=" ++ signature
  let data := DingTalk.markdownBody lib imageData message
  let post : DingTalk.Post :=
    { url := requestURL, contentType := "application/json", body := some data }
  match reply with
  | .transportError err => (some ("failed to send image: " ++ err), post)
  | .response statusCode =>
    if statusCode ≠ 200 then
      (some ("failed to send image, status code: " ++ formatInt statusCode), post)
    else (none, post)

/-- `Client.SendChart`. -/
def DingTalk.SendChart (lib : DingTalk.Lib) (c : DingTalk.Client) (timestamp : Int)
    (reply : DingTalk.Reply) (chartData : List Nat) (title : String) :
    Option String × DingTalk.Post :=
  DingTalk.SendImage lib c timestamp reply chartData title

/-! ## The registry with its client handles (`internal/kubernetes/manager.go`, `resources.go`)

A pointer that may be `nil` is an `Option`; a method that reads a field
through a `nil` pointer panics. -/

/-- What a Go call with results `(value, error)` comes to: `(value, nil)`,
`(zero, err)`, or a run-time panic. -/
inductive Result (α : Type) where
  | ok (value : α)
  | error (err : String)
  | panic (reason : String)
deriving DecidableEq, Repr

/-- The text of the run-time error raised by a read through a `nil` pointer. -/
def nilDereference : String :=
  "runtime error: invalid memory address or nil pointer dereference"

/-- A client handle (`*kubernetes.Clientset`), as what it answers to the
queries of `Resources` and of the sampler. -/
structure Handle where
  /-- The answer of `CoreV1().Nodes().List`. -/
  listNodes : Except String (List Node)
  /-- The answer of `CoreV1().Pods(namespace).List`. -/
  listPods : String → Except String (List Pod)
  /-- The answer of `CoreV1().Pods(namespace).Get(podName)`. -/
  getPod : String → String → Except String Pod
  /-- The error of `CoreV1().Pods(namespace).Delete(podName)` (`none` for `nil`). -/
  deletePod : String → String → Option String
  /-- The answer of `CoreV1().Nodes().Get(nodeName)`. -/
  getNode : String → Except String Node
  /-- The answer of `CoreV1().Pods(namespace).GetLogs(podName, tailLines)`: the
  error of `Stream`, or the text that the reading loop of `GetPodLogs` gathers
  from the stream. -/
  getLogs : String → String → Int → Except String String
  /-- The answers to the four list queries of one `CollectClusterMetrics`. -/
  sampler : Clientset

/-- `kubernetes.Manager` with its map of client handles. -/
structure Kubernetes.Manager where
  clients : List (String × Handle)
  clusters : List ClusterConfig

/-- `Manager.GetClient`, called through the pointer `m`. -/
def Kubernetes.Manager.GetClient (m : Option Kubernetes.Manager) (clusterName : String) :
    Result Handle :=
  match m with
  | none => .panic nilDereference
  | some m =>
    match mapGet clusterName m.clients with
    | none => .error ("cluster not found: " ++ clusterName)
    | some client => .ok client

/-- `kubernetes.Resources`. -/
structure Resources where
  manager : Option Kubernetes.Manager

/-- `NewResources`. -/
def NewResources (manager : Option Kubernetes.Manager) : Resources := { manager := manager }

/-- `Resources.ListPods`. -/
def Resources.ListPods (r : Resources) (clusterName namespace_ : String) : Result (List Pod) :=
  match Kubernetes.Manager.GetClient r.manager clusterName with
  | .panic reason => .panic reason
  | .error err => .error err
  | .ok client =>
    match client.listPods namespace_ with
    | .error err => .error ("failed to list pods: " ++ err)
    | .ok pods => .ok pods

/-- `Resources.GetPod`. -/
def Resources.GetPod (r : Resources) (clusterName namespace_ podName : String) : Result Pod :=
  match Kubernetes.Manager.GetClient r.manager clusterName with
  | .panic reason => .panic reason
  | .error err => .error err
  | .ok client =>
    match client.getPod namespace_ podName with
    | .error err => .error ("failed to get pod: " ++ err)
    | .ok pod => .ok pod

/-- `Resources.DeletePod` (its only result is the error: `ok ()` is `nil`). -/
def Resources.DeletePod (r : Resources) (clusterName namespace_ podName : String) :
    Result Unit :=
  match Kubernetes.Manager.GetClient r.manager clusterName with
  | .panic reason => .panic reason
  | .error err => .error err
  | .ok client =>
    match client.deletePod namespace_ podName with
    | some err => .error ("failed to delete pod: " ++ err)
    | none => .ok ()

/-- `Resources.ListNodes`. -/
def Resources.ListNodes (r : Resources) (clusterName : String) : Result (List Node) :=
  match Kubernetes.Manager.GetClient r.manager clusterName with
  | .panic reason => .panic reason
  | .error err => .error err
  | .ok client =>
    match client.listNodes with
    | .error err => .error ("failed to list nodes: " ++ err)
    | .ok nodes => .ok nodes

/-- `Resources.GetNode`. -/
def Resources.GetNode (r : Resources) (clusterName nodeName : String) : Result Node :=
  match Kubernetes.Manager.GetClient r.manager clusterName with
  | .panic reason => .panic reason
  | .error err => .error err
  | .ok client =>
    match client.getNode nodeName with
    | .error err => .error ("failed to get node: " ++ err)
    | .ok node => .ok node

/-- `Resources.GetPodLogs`. -/
def Resources.GetPodLogs (r : Resources) (clusterName namespace_ podName : String)
    (tailLines : Int) : Result String :=
  match Kubernetes.Manager.GetClient r.manager clusterName with
  | .panic reason => .panic reason
  | .error err => .error err
  | .ok client =>
    match client.getLogs namespace_ podName tailLines with
    | .error err => .error ("failed to get pod logs: " ++ err)
    | .ok result => .ok result

/-- `kubernetes.NodeMetrics`. -/
structure NodeMetrics where
  Name : String
  CPU : String
  Memory : String
  Conditions : List NodeCondition
deriving DecidableEq, Repr

/-- `Resources.GetNodeMetrics` (the error of the list query is returned as it
is). -/
def Resources.GetNodeMetrics (r : Resources) (clusterName : String) :
    Result (List (String × NodeMetrics)) :=
  match Kubernetes.Manager.GetClient r.manager clusterName with
  | .panic reason => .panic reason
  | .error err => .error err
  | .ok client =>
    match client.listNodes with
    | .error err => .error err
    | .ok nodes =>
      .ok (nodes.foldl (fun metrics node =>
        mapSet node.Name
          { Name := node.Name, CPU := node.CapacityCPU.text,
            Memory := node.CapacityMemory.text, Conditions := node.Conditions } metrics) [])

/-! ## The command handler (`internal/ops/handler.go`) -/

/-- `unicode.IsSpace`. -/
def isSpace (c : Char) : Bool :=
  c = '\t' || c = '\n' || c.toNat = 0x0B || c.toNat = 0x0C || c = '\r' || c = ' ' ||
  c.toNat = 0x85 || c.toNat = 0xA0 || c.toNat = 0x1680 ||
  (0x2000 ≤ c.toNat && c.toNat ≤ 0x200A) || c.toNat = 0x2028 || c.toNat = 0x2029 ||
  c.toNat = 0x202F || c.toNat = 0x205F || c.toNat = 0x3000

/-- The loop of `strings.Fields`: `field` is the field being read. -/
def fieldsLoop (field : List Char) : List Char → List (List Char)
  | [] => if field = [] then [] else [field]
  | c :: rest =>
    if isSpace c then
      if field = [] then fieldsLoop [] rest else field :: fieldsLoop [] rest
    else fieldsLoop (field ++ [c]) rest

/-- `strings.Fields`: the maximal runs of characters that are not white
space. -/
def Fields (s : String) : List String := (fieldsLoop [] s.data).map String.mk

/-- What a method of the handler with results `(string, error)` comes to. -/
inductive Reply where
  /-- It returns this text and this error (`none` for `nil`). -/
  | returned (result : String) (err : Option String)
  /-- It panics. -/
  | panic (reason : String)
deriving DecidableEq, Repr

/-- A call that the handler makes on one of its collaborators: the resources
adapter, the sampler, the monitoring service or a notifier. -/
inductive Use where
  | ListNodes (clusterName : String)
  | ListPods (clusterName namespace_ : String)
  | GetPod (clusterName namespace_ podName : String)
  | GetPodLogs (clusterName namespace_ podName : String) (tailLines : Int)
  | DeletePod (clusterName namespace_ podName : String)
  | GetNode (clusterName nodeName : String)
  | GetNodeMetrics (clusterName : String)
  | CollectClusterMetrics (clusterName : String)
  | GetMetricsHistory (clusterName : String)
  | GetAlerts
  | SendMessage (target : Notifier) (message : String)
deriving DecidableEq, Repr

/-- What the handler gets from outside while it serves one command. -/
structure HandlerEnv where
  /-- The reading of `time.Now()` that stamps a collected sample. -/
  now : Time
  /-- The value of `time.Since(t)` for the `n`-th pod of a collected sample. -/
  since : Nat → Time → Int
  /-- The error returned by the `n`-th notifier call of the command (`none`
  for `nil`). -/
  send : Nat → Use → Option String
  /-- The order in which `range` visits the map of node metrics. -/
  rangeNodeMetrics : List (String × NodeMetrics) → List (String × NodeMetrics)

/-- `ops.Handler`.  `dingtalkClient` and `feishuClient` say whether the
pointer of that name is non-nil. -/
structure Handler where
  k8sManager : Option Kubernetes.Manager
  monitoringService : Option Service
  dingtalkClient : Bool
  feishuClient : Bool
  resources : Resources

/-- `NewHandler`. -/
def NewHandler (k8sManager : Option Kubernetes.Manager) (monitoringService : Option Service) :
    Handler :=
  { k8sManager := k8sManager, monitoringService := monitoringService,
    dingtalkClient := false, feishuClient := false, resources := NewResources k8sManager }

/-- `Handler.getClusterStatus`: what it returns and the calls it makes. -/
def Handler.getClusterStatus (h : Handler) (clusterName : String) : Reply × List Use :=
  match h.resources.ListNodes clusterName with
  | .panic reason => (.panic reason, [.ListNodes clusterName])
  | .error err => (.returned "" (some err), [.ListNodes clusterName])
  | .ok nodes =>
    match h.resources.ListPods clusterName "" with
    | .panic reason => (.panic reason, [.ListNodes clusterName, .ListPods clusterName ""])
    | .error err =>
      (.returned "" (some err), [.ListNodes clusterName, .ListPods clusterName ""])
    | .ok pods =>
      (.returned ("Cluster: " ++ clusterName ++ "\n" ++
          "Nodes: " ++ formatInt nodes.length ++ "\n" ++
          "Pods: " ++ formatInt pods.length ++ "\n") none,
        [.ListNodes clusterName, .ListPods clusterName ""])

/-- `Handler.getClusterMetrics`: the collector is built on `h.k8sManager` and
asked for one sample. -/
def Handler.getClusterMetrics (env : HandlerEnv) (h : Handler) (clusterName : String) :
    Reply × List Use :=
  match h.k8sManager with
  | none => (.panic nilDereference, [.CollectClusterMetrics clusterName])
  | some m =>
    match CollectClusterMetrics (m.clients.map fun e => (e.1, e.2.sampler)) env.now env.since
        clusterName with
    | (_, some err) => (.returned "" (some err), [.CollectClusterMetrics clusterName])
    | (none, none) => (.panic nilDereference, [.CollectClusterMetrics clusterName])
    | (some clusterMetrics, none) =>
      (.returned ("Cluster Metrics: " ++ clusterName ++ "\n" ++
          "Timestamp: " ++ clusterMetrics.Timestamp.dateTime ++ "\n" ++
          "Nodes: " ++ formatInt clusterMetrics.Nodes.Total ++
            " (Ready: " ++ formatInt clusterMetrics.Nodes.Ready ++
            ", NotReady: " ++ formatInt clusterMetrics.Nodes.NotReady ++ ")\n" ++
          "Pods: " ++ formatInt clusterMetrics.Pods.Total ++
            " (Running: " ++ formatInt clusterMetrics.Pods.Running ++
            ", Pending: " ++ formatInt clusterMetrics.Pods.Pending ++
            ", Failed: " ++ formatInt clusterMetrics.Pods.Failed ++ ")\n" ++
          "Total CPU: " ++ clusterMetrics.Resources.TotalCPU ++
            ", Total Memory: " ++ clusterMetrics.Resources.TotalMemory ++ "\n") none,
        [.CollectClusterMetrics clusterName])

/-- `Handler.sendClusterChart`. -/
def Handler.sendClusterChart (env : HandlerEnv) (h : Handler) (clusterName : String) :
    Reply × List Use :=
  match h.monitoringService with
  | none => (.returned "" (some "monitoring service not initialized"), [])
  | some monitoringService =>
    let history := GetMetricsHistory monitoringService clusterName
    let uses := [Use.GetMetricsHistory clusterName]
    if history.length = 0 then
      (.returned "" (some ("no metrics history available for cluster " ++ clusterName)), uses)
    else
      let message := "正在生成集群 " ++ clusterName ++ " 的监控图表..."
      let first := if h.dingtalkClient
        then (env.send 0 (.SendMessage .dingtalk message), uses ++ [.SendMessage .dingtalk message])
        else (none, uses)
      match first with
      | (some err, uses) => (.returned "" (some err), uses)
      | (none, uses) =>
        let second := if h.feishuClient
          then (env.send (uses.length - 1) (.SendMessage .feishu message),
            uses ++ [.SendMessage .feishu message])
          else (none, uses)
        match second with
        | (some err, uses) => (.returned "" (some err), uses)
        | (none, uses) =>
          (.returned ("Sent monitoring chart for cluster " ++ clusterName) none, uses)

/-- `Handler.listPods`. -/
def Handler.listPods (h : Handler) (clusterName namespace_ : String) : Reply × List Use :=
  match h.resources.ListPods clusterName namespace_ with
  | .panic reason => (.panic reason, [.ListPods clusterName namespace_])
  | .error err => (.returned "" (some err), [.ListPods clusterName namespace_])
  | .ok pods =>
    (.returned (pods.foldl (fun result pod =>
        result ++ ("- " ++ pod.Name ++ " (" ++ pod.Phase ++ ")\n"))
        ("Pods in namespace " ++ namespace_ ++ ":\n")) none,
      [.ListPods clusterName namespace_])

/-- `Handler.describePod`. -/
def Handler.describePod (h : Handler) (clusterName namespace_ podName : String) :
    Reply × List Use :=
  match h.resources.GetPod clusterName namespace_ podName with
  | .panic reason => (.panic reason, [.GetPod clusterName namespace_ podName])
  | .error err => (.returned "" (some err), [.GetPod clusterName namespace_ podName])
  | .ok pod =>
    (.returned ("Pod: " ++ pod.Name ++ "\n" ++
        "Namespace: " ++ pod.Namespace ++ "\n" ++
        "Status: " ++ pod.Phase ++ "\n" ++
        "Node: " ++ pod.NodeName ++ "\n" ++
        "Created: " ++ pod.CreationTimestamp.dateTime ++ "\n") none,
      [.GetPod clusterName namespace_ podName])

/-- `Handler.getPodLogs`. -/
def Handler.getPodLogs (h : Handler) (clusterName namespace_ podName : String) :
    Reply × List Use :=
  match h.resources.GetPodLogs clusterName namespace_ podName 100 with
  | .panic reason => (.panic reason, [.GetPodLogs clusterName namespace_ podName 100])
  | .error err => (.returned "" (some err), [.GetPodLogs clusterName namespace_ podName 100])
  | .ok logs =>
    (.returned ("Logs from pod " ++ podName ++ ":\n" ++ logs) none,
      [.GetPodLogs clusterName namespace_ podName 100])

/-- `Handler.deletePod`. -/
def Handler.deletePod (h : Handler) (clusterName namespace_ podName : String) :
    Reply × List Use :=
  match h.resources.DeletePod clusterName namespace_ podName with
  | .panic reason => (.panic reason, [.DeletePod clusterName namespace_ podName])
  | .error err => (.returned "" (some err), [.DeletePod clusterName namespace_ podName])
  | .ok _ =>
    (.returned ("Deleted pod " ++ podName ++ " in namespace " ++ namespace_) none,
      [.DeletePod clusterName namespace_ podName])

/-- `Handler.listNodes`. -/
def Handler.listNodes (h : Handler) (clusterName : String) : Reply × List Use :=
  match h.resources.ListNodes clusterName with
  | .panic reason => (.panic reason, [.ListNodes clusterName])
  | .error err => (.returned "" (some err), [.ListNodes clusterName])
  | .ok nodes =>
    (.returned (nodes.foldl (fun result node => result ++ ("- " ++ node.Name ++ "\n"))
        ("Nodes in cluster " ++ clusterName ++ ":\n")) none,
      [.ListNodes clusterName])

/-- `Handler.describeNode`. -/
def Handler.describeNode (h : Handler) (clusterName nodeName : String) : Reply × List Use :=
  match h.resources.GetNode clusterName nodeName with
  | .panic reason => (.panic reason, [.GetNode clusterName nodeName])
  | .error err => (.returned "" (some err), [.GetNode clusterName nodeName])
  | .ok node =>
    (.returned ("Node: " ++ node.Name ++ "\n" ++
        "Status: Ready\n" ++
        "CPU: " ++ node.CapacityCPU.text ++ "\n" ++
        "Memory: " ++ node.CapacityMemory.text ++ "\n") none,
      [.GetNode clusterName nodeName])

/-- `Handler.getNodeMetrics`. -/
def Handler.getNodeMetrics (env : HandlerEnv) (h : Handler) (clusterName : String) :
    Reply × List Use :=
  match h.resources.GetNodeMetrics clusterName with
  | .panic reason => (.panic reason, [.GetNodeMetrics clusterName])
  | .error err => (.returned "" (some err), [.GetNodeMetrics clusterName])
  | .ok metrics =>
    (.returned ((env.rangeNodeMetrics metrics).foldl (fun result entry =>
        result ++ ("- " ++ entry.1 ++ ": CPU=" ++ entry.2.CPU ++ ", Memory=" ++
          entry.2.Memory ++ "\n"))
        ("Node Metrics for cluster " ++ clusterName ++ ":\n")) none,
      [.GetNodeMetrics clusterName])

/-- `Handler.getMonitorStatus`.  The service returns the `nil` slice exactly
for a cluster without an entry in the history map. -/
def Handler.getMonitorStatus (h : Handler) (clusterName : String) : Reply × List Use :=
  match h.monitoringService with
  | none => (.returned "" (some "monitoring service not initialized"), [])
  | some monitoringService =>
    match mapGet clusterName monitoringService.metricsHistory with
    | none =>
      (.returned ("No monitoring data for cluster " ++ clusterName) none,
        [.GetMetricsHistory clusterName])
    | some history =>
      (.returned ("Monitoring status for cluster " ++ clusterName ++ ": Active (" ++
          formatInt history.length ++ " data points)") none,
        [.GetMetricsHistory clusterName])

/-- `Handler.getMonitorAlerts`. -/
def Handler.getMonitorAlerts (h : Handler) (clusterName : String) : Reply × List Use :=
  match h.monitoringService with
  | none => (.returned "" (some "monitoring service not initialized"), [])
  | some monitoringService =>
    let alerts := GetAlerts monitoringService
    if alerts.length = 0 then
      (.returned ("No alerts for cluster " ++ clusterName) none, [.GetAlerts])
    else
      (.returned (alerts.foldl (fun result alert =>
          if alert.Cluster = clusterName then
            result ++ ("- [" ++ alert.Level ++ "] " ++ alert.Type_ ++ ": " ++
              alert.Message ++ "\n")
          else result)
          ("Alerts for cluster " ++ clusterName ++ ":\n")) none,
        [.GetAlerts])

/-- `Handler.sendMonitorChart`. -/
def Handler.sendMonitorChart (env : HandlerEnv) (h : Handler) (clusterName : String) :
    Reply × List Use :=
  h.sendClusterChart env clusterName

/-- `Handler.showHelp`. -/
def Handler.showHelp (_h : Handler) : String :=
  "Available commands:\n\nCluster commands:\n" ++
  "  cluster status <cluster-name>    - Get cluster status\n" ++
  "  cluster metrics <cluster-name>    - Get cluster metrics\n" ++
  "  cluster chart <cluster-name>       - Send monitoring chart\n" ++
  "\nPod commands:\n" ++
  "  pod list <cluster-name> <namespace>         - List pods\n" ++
  "  pod describe <cluster-name> <namespace> <pod-name> - Describe pod\n" ++
  "  pod logs <cluster-name> <namespace> <pod-name>     - Get pod logs\n" ++
  "  pod delete <cluster-name> <namespace> <pod-name>    - Delete pod\n" ++
  "\nNode commands:\n" ++
  "  node list <cluster-name>          - List nodes\n" ++
  "  node describe <cluster-name> <node-name> - Describe node\n" ++
  "  node metrics <cluster-name>         - Get node metrics\n" ++
  "\nMonitor commands:\n" ++
  "  monitor status <cluster-name> - Get monitoring status\n" ++
  "  monitor alerts <cluster-name> - Get monitoring alerts\n" ++
  "  monitor chart <cluster-name>    - Send monitoring chart\n" ++
  "\nHelp:\n" ++
  "  help - Show this help message\n"

/-- `Handler.handleClusterCommand` (`parts.getD i ""` is `parts[i]`, read only
after the length has been checked). -/
def Handler.handleClusterCommand (env : HandlerEnv) (h : Handler) (parts : List String) :
    Reply × List Use :=
  if parts.length = 0 then (.returned "" (some "cluster command requires subcommand"), [])
  else if parts.getD 0 "" = "status" then
    if parts.length < 2 then
      (.returned "" (some "cluster status command requires cluster name"), [])
    else h.getClusterStatus (parts.getD 1 "")
  else if parts.getD 0 "" = "metrics" then
    if parts.length < 2 then
      (.returned "" (some "cluster metrics command requires cluster name"), [])
    else h.getClusterMetrics env (parts.getD 1 "")
  else if parts.getD 0 "" = "chart" then
    if parts.length < 2 then
      (.returned "" (some "cluster chart command requires cluster name"), [])
    else h.sendClusterChart env (parts.getD 1 "")
  else (.returned "" (some ("unknown cluster subcommand: " ++ parts.getD 0 "")), [])

/-- `Handler.handlePodCommand`. -/
def Handler.handlePodCommand (h : Handler) (parts : List String) : Reply × List Use :=
  if parts.length = 0 then (.returned "" (some "pod command requires subcommand"), [])
  else if parts.getD 0 "" = "list" then
    if parts.length < 3 then
      (.returned "" (some "pod list command requires cluster name and namespace"), [])
    else h.listPods (parts.getD 1 "") (parts.getD 2 "")
  else if parts.getD 0 "" = "describe" then
    if parts.length < 4 then
      (.returned ""
        (some "pod describe command requires cluster name, namespace and pod name"), [])
    else h.describePod (parts.getD 1 "") (parts.getD 2 "") (parts.getD 3 "")
  else if parts.getD 0 "" = "logs" then
    if parts.length < 4 then
      (.returned "" (some "pod logs command requires cluster name, namespace and pod name"), [])
    else h.getPodLogs (parts.getD 1 "") (parts.getD 2 "") (parts.getD 3 "")
  else if parts.getD 0 "" = "delete" then
    if parts.length < 4 then
      (.returned ""
        (some "pod delete command requires cluster name, namespace and pod name"), [])
    else h.deletePod (parts.getD 1 "") (parts.getD 2 "") (parts.getD 3 "")
  else (.returned "" (some ("unknown pod subcommand: " ++ parts.getD 0 "")), [])

/-- `Handler.handleNodeCommand`. -/
def Handler.handleNodeCommand (env : HandlerEnv) (h : Handler) (parts : List String) :
    Reply × List Use :=
  if parts.length = 0 then (.returned "" (some "node command requires subcommand"), [])
  else if parts.getD 0 "" = "list" then
    if parts.length < 2 then
      (.returned "" (some "node list command requires cluster name"), [])
    else h.listNodes (parts.getD 1 "")
  else if parts.getD 0 "" = "describe" then
    if parts.length < 3 then
      (.returned "" (some "node describe command requires cluster name and node name"), [])
    else h.describeNode (parts.getD 1 "") (parts.getD 2 "")
  else if parts.getD 0 "" = "metrics" then
    if parts.length < 2 then
      (.returned "" (some "node metrics command requires cluster name"), [])
    else h.getNodeMetrics env (parts.getD 1 "")
  else (.returned "" (some ("unknown node subcommand: " ++ parts.getD 0 "")), [])

/-- `Handler.handleMonitorCommand`. -/
def Handler.handleMonitorCommand (env : HandlerEnv) (h : Handler) (parts : List String) :
    Reply × List Use :=
  if parts.length = 0 then (.returned "" (some "monitor command requires subcommand"), [])
  else if parts.getD 0 "" = "status" then
    if parts.length < 2 then
      (.returned "" (some "monitor status command requires cluster name"), [])
    else h.getMonitorStatus (parts.getD 1 "")
  else if parts.getD 0 "" = "alerts" then
    if parts.length < 2 then
      (.returned "" (some "monitor alerts command requires cluster name"), [])
    else h.getMonitorAlerts (parts.getD 1 "")
  else if parts.getD 0 "" = "chart" then
    if parts.length < 2 then
      (.returned "" (some "monitor chart command requires cluster name"), [])
    else h.sendMonitorChart env (parts.getD 1 "")
  else (.returned "" (some ("unknown monitor subcommand: " ++ parts.getD 0 "")), [])

/-- `Handler.HandleCommand`: what it returns and the calls it makes on the
handler's collaborators. -/
def Handler.HandleCommand (env : HandlerEnv) (h : Handler) (command : String) :
    Reply × List Use :=
  let parts := Fields command
  if parts.length = 0 then (.returned "" (some "empty command"), [])
  else if parts.getD 0 "" = "cluster" then h.handleClusterCommand env (parts.drop 1)
  else if parts.getD 0 "" = "pod" then h.handlePodCommand (parts.drop 1)
  else if parts.getD 0 "" = "node" then h.handleNodeCommand env (parts.drop 1)
  else if parts.getD 0 "" = "monitor" then h.handleMonitorCommand env (parts.drop 1)
  else if parts.getD 0 "" = "help" then (.returned h.showHelp none, [])
  else (.returned "" (some ("unknown command: " ++ parts.getD 0 "")), [])

/-! ## Configuration (`internal/config/config.go`)

The file system and the YAML decoder are outside the repository: what they
answer is a field of `ConfigSource`. -/

/-- `config.KubernetesConfig`. -/
structure KubernetesConfig where
  Clusters : List ClusterConfig
deriving DecidableEq, Repr

/-- `config.DingTalkConfig`. -/
structure DingTalkConfig where
  Enabled : Bool
  AppKey : String
  AppSecret : String
  Webhook : String
  Secret : String
deriving DecidableEq, Repr

/-- `config.FeishuConfig`. -/
structure FeishuConfig where
  Enabled : Bool
  AppID : String
  AppSecret : String
deriving DecidableEq, Repr

/-- `config.MessagingConfig`. -/
structure MessagingConfig where
  DingTalk : DingTalkConfig
  Feishu : FeishuConfig
deriving DecidableEq, Repr

/-- `config.OpenClawConfig`. -/
structure OpenClawConfig where
  Enabled : Bool
  Skills : String
deriving DecidableEq, Repr

/-- `config.ServerConfig` (`Port` is a Go `int`). -/
structure ServerConfig where
  Port : Int
deriving DecidableEq, Repr

/-- `config.Config`. -/
structure Config where
  Kubernetes : KubernetesConfig
  Messaging : MessagingConfig
  OpenClaw : OpenClawConfig
  Server : ServerConfig
deriving DecidableEq, Repr

/-- What `Load` gets from the file system and from the YAML decoder. -/
structure ConfigSource where
  /-- Whether `os.Stat(path)` fails with an error that `os.IsNotExist` accepts. -/
  notExist : String → Bool
  /-- The result of `os.ReadFile(path)`. -/
  readFile : String → Except String (List Nat)
  /-- The result of `yaml.Unmarshal(data, &config)` on a zero `Config`: the
  error, or the configuration as the decoder has filled it in (a field that the
  file does not give keeps its zero value). -/
  unmarshal : List Nat → Except String Config

/-- `Load`: the returned pointer (`none` for `nil`) and the returned error
(`none` for `nil`). -/
def Load (source : ConfigSource) (path : String) : Option Config × Option String :=
  if source.notExist path then (none, some ("config file not found: " ++ path))
  else
    match source.readFile path with
    | .error err => (none, some ("failed to read config file: " ++ err))
    | .ok data =>
      match source.unmarshal data with
      | .error err => (none, some ("failed to unmarshal config file: " ++ err))
      | .ok config =>
        let config :=
          if config.Server.Port = 0 then
            { config with Server := { config.Server with Port := 8080 } }
          else config
        (some config, none)

/-! ## The query API (`internal/api/server.go`) -/

/-- A value handed to the JSON encoder by the handlers of the cluster
routes. -/
inductive Payload where
  /-- A slice of cluster descriptors. -/
  | clusters (clusters : List ClusterConfig)
  /-- One cluster descriptor. -/
  | cluster (cluster : ClusterConfig)
  /-- A `map[string]string`. -/
  | stringMap (entries : List (String × String))
deriving DecidableEq, Repr

/-- What a handler writes to its `http.ResponseWriter`: the `Content-Type`
header, the status code and the value that `json.NewEncoder(w).Encode` renders
as the body. -/
structure Response where
  contentType : String
  statusCode : Int
  data : Payload
deriving DecidableEq, Repr

/-- `api.Server`, as far as the cluster routes use it. -/
structure Server where
  k8sManager : Manager
deriving DecidableEq, Repr

/-- `Server.respondJSON`. -/
def Server.respondJSON (_s : Server) (data : Payload) (statusCode : Int) : Response :=
  { contentType := "application/json", statusCode := statusCode, data := data }

/-- `Server.respondError`. -/
def Server.respondError (s : Server) (message : String) (statusCode : Int) : Response :=
  s.respondJSON (.stringMap [("error", message)]) statusCode

/-- `Server.handleGetClusters`. -/
def Server.handleGetClusters (s : Server) : Response :=
  s.respondJSON (.clusters s.k8sManager.GetClusters) 200

/-- The loop of `Server.handleGetCluster` over the registered clusters and the
statement after it. -/
def Server.handleGetClusterLoop (s : Server) (name : String) : List ClusterConfig → Response
  | [] => s.respondError "Cluster not found" 404
  | cluster :: rest =>
    if cluster.Name = name then s.respondJSON (.cluster cluster) 200
    else s.handleGetClusterLoop name rest

/-- `Server.handleGetCluster`; `name` is the route variable `mux.Vars(r)["name"]`. -/
def Server.handleGetCluster (s : Server) (name : String) : Response :=
  s.handleGetClusterLoop name s.k8sManager.GetClusters

/-! ## The legacy monitoring manager (`internal/monitoring/manager.go`)

It keeps its own alert store and probes the clusters itself.  It reads the
clock and calls the notifiers like the service does, so `Env` serves for it
too (of which it uses `now` and `send`). -/

/-- `monitoring.Manager`.  `dingtalkClient` and `feishuClient` say whether the
pointer of that name is non-nil. -/
structure Monitoring.Manager where
  k8sManager : Option Kubernetes.Manager
  dingtalkClient : Bool
  feishuClient : Bool
  alerts : List (String × Alert)

/-- `monitoring.NewManager`. -/
def Monitoring.NewManager (k8sManager : Option Kubernetes.Manager) : Monitoring.Manager :=
  { k8sManager := k8sManager, dingtalkClient := false, feishuClient := false, alerts := [] }

/-- The legacy manager and the trace of its dealings with the outside. -/
structure Monitoring.World where
  mgr : Monitoring.Manager
  /-- Number of `time.Now()` readings taken. -/
  clock : Nat
  /-- Notifier calls made, oldest first. -/
  calls : List Call
  /-- Text printed with `fmt.Printf`, oldest first. -/
  out : List String

/-- A freshly created legacy manager that has done nothing yet. -/
def Monitoring.World.init (k8sManager : Option Kubernetes.Manager) : Monitoring.World :=
  { mgr := Monitoring.NewManager k8sManager, clock := 0, calls := [], out := [] }

/-- `Manager.SetDingTalkClient`. -/
def Monitoring.SetDingTalkClient (client : Bool) (w : Monitoring.World) : Monitoring.World :=
  { w with mgr := { w.mgr with dingtalkClient := client } }

/-- `Manager.SetFeishuClient`. -/
def Monitoring.SetFeishuClient (client : Bool) (w : Monitoring.World) : Monitoring.World :=
  { w with mgr := { w.mgr with feishuClient := client } }

/-- One notifier call of the legacy manager with the handling of its result. -/
def Monitoring.notify (env : Env) (call : Call) (failure : String) (w : Monitoring.World) :
    Monitoring.World :=
  let err := env.send w.calls.length call
  let w := { w with calls := w.calls ++ [call] }
  match err with
  | none => w
  | some e => { w with out := w.out ++ [failure ++ e ++ "\n"] }

/-- `Manager.sendAlert` (it builds the same text as the service does). -/
def Monitoring.sendAlert (env : Env) (alert : Alert) (w : Monitoring.World) :
    Monitoring.World :=
  let message := alertMessage alert
  let w := if w.mgr.dingtalkClient
    then Monitoring.notify env (.message .dingtalk message) "Failed to send alert to DingTalk: " w
    else w
  let w := if w.mgr.feishuClient
    then Monitoring.notify env (.message .feishu message) "Failed to send alert to Feishu: " w
    else w
  w

/-- The statements that `checkCluster` repeats at each of the three places
where it creates an alert: the id is `idPrefix`, a dash and the formatted
second of one clock reading; the alert, created at a second reading, is stored
under the id whatever the store holds there, and sent. -/
def Monitoring.raiseAlert (env : Env) (idPrefix clusterName alertType level message : String)
    (w : Monitoring.World) : Monitoring.World :=
  let alertID := idPrefix ++ "-" ++ (env.now w.clock).stamp
  let alert : Alert :=
    { ID := alertID, Cluster := clusterName, Type_ := alertType, Level := level,
      Message := message, CreatedAt := env.now (w.clock + 1), Resolved := false }
  let w := { w with
    clock := w.clock + 2
    mgr := { w.mgr with alerts := mapSet alertID alert w.mgr.alerts } }
  Monitoring.sendAlert env alert w

/-- The inner loop of `checkCluster` over the conditions of one node. -/
def Monitoring.checkNode (env : Env) (clusterName : String) (w : Monitoring.World)
    (node : Node) : Monitoring.World :=
  node.Conditions.foldl (fun w condition =>
    if condition.Type_ = "Ready" ∧ condition.Status ≠ "True" then
      Monitoring.raiseAlert env (clusterName ++ "-" ++ node.Name) clusterName "node" "warning"
        ("Node " ++ node.Name ++ " is not ready: " ++ condition.Message) w
    else w) w

/-- `Manager.checkCluster`.  A panic (the registry pointer is `nil`) ends the
program and leaves the store as it is. -/
def Monitoring.checkCluster (env : Env) (clusterName : String) (w : Monitoring.World) :
    Monitoring.World :=
  match Kubernetes.Manager.GetClient w.mgr.k8sManager clusterName with
  | .panic _ => w
  | .error err =>
    Monitoring.raiseAlert env clusterName clusterName "connection" "critical"
      ("Failed to connect to cluster: " ++ err) w
  | .ok client =>
    match client.listNodes with
    | .error err =>
      Monitoring.raiseAlert env clusterName clusterName "node" "critical"
        ("Failed to list nodes: " ++ err) w
    | .ok nodes => nodes.foldl (Monitoring.checkNode env clusterName) w

/-- `Manager.checkClusters`: one tick of the legacy loop. -/
def Monitoring.checkClusters (env : Env) (w : Monitoring.World) : Monitoring.World :=
  match w.mgr.k8sManager with
  | none => w
  | some k8sManager =>
    k8sManager.clusters.foldl (fun w cluster => Monitoring.checkCluster env cluster.Name w) w

/-- `Manager.GetAlerts`, in the order of the association list. -/
def Monitoring.GetAlerts (m : Monitoring.Manager) : List Alert := m.alerts.map Prod.snd

/-- `Manager.ResolveAlert`: the returned error (`none` for `nil`) and the world
afterwards. -/
def Monitoring.ResolveAlert (env : Env) (alertID : String) (w : Monitoring.World) :
    Option String × Monitoring.World :=
  match mapGet alertID w.mgr.alerts with
  | none => (some ("alert not found: " ++ alertID), w)
  | some alert =>
    let alert := { alert with Resolved := true }
    let w := { w with mgr := { w.mgr with alerts := mapSet alertID alert w.mgr.alerts } }
    let message := resolvedMessage alert (env.now w.clock)
    let w := { w with clock := w.clock + 1 }
    let w := if w.mgr.dingtalkClient
      then Monitoring.notify env (.message .dingtalk message)
        "Failed to send resolved alert to DingTalk: " w
      else w
    let w := if w.mgr.feishuClient
      then Monitoring.notify env (.message .feishu message)
        "Failed to send resolved alert to Feishu: " w
      else w
    (none, w)

/-- The operations of the legacy manager. -/
inductive Monitoring.Op where
  | SetDingTalkClient (client : Bool)
  | SetFeishuClient (client : Bool)
  | checkClusters
  | checkCluster (clusterName : String)
  | ResolveAlert (alertID : String)

/-- The effect of one operation of the legacy manager. -/
def Monitoring.step (env : Env) (w : Monitoring.World) : Monitoring.Op → Monitoring.World
  | .SetDingTalkClient client => Monitoring.SetDingTalkClient client w
  | .SetFeishuClient client => Monitoring.SetFeishuClient client w
  | .checkClusters => Monitoring.checkClusters env w
  | .checkCluster clusterName => Monitoring.checkCluster env clusterName w
  | .ResolveAlert alertID => (Monitoring.ResolveAlert env alertID w).2

/-! ## The chart renderer (`internal/chart/generator.go`)

The artifact is text; its bytes are the UTF-8 encoding of the `String`.  A
`float64` of a data set is a non-negative fraction, as in the sampler. -/

/-- `chart.Generator`. -/
structure Generator where
  width : Int
  height : Int
deriving DecidableEq, Repr

/-- `chart.NewGenerator`. -/
def NewGenerator (width height : Int) : Generator := { width := width, height := height }

/-- `chart.Dataset`. -/
structure Dataset where
  Label : String
  Data : List (Nat × Nat)
  Color : String
  DataType : String
deriving DecidableEq, Repr

/-- `chart.ChartData`. -/
structure ChartData where
  Title : String
  XLabels : List String
  YLabel : String
  Datasets : List Dataset
  ShowLegend : Bool
deriving DecidableEq, Repr

/-- The text `s` in a field of `width` characters, flush left (the verbs `%-5.1f`
and `%-10s` of `fmt`). -/
def padRight (width : Nat) (s : String) : String :=
  s ++ String.mk (List.replicate (width - s.length) ' ')

/-- The text of `t.Format("15:04")`. -/
def Time.hourMinute (t : Time) : String :=
  String.mk (zeroPad 2 t.hour ++ ':' :: zeroPad 2 t.minute)

/-- `Generator.generateSeparator`. -/
def Generator.generateSeparator (_g : Generator) (length : Int) : String :=
  String.mk (List.replicate length.toNat '=')

/-- `Generator.generateBarChart`.  `int(value / 10)` is the `float64` quotient
cut off at the point. -/
def Generator.generateBarChart (_g : Generator) (data : List (Nat × Nat)) (_color : String) :
    String :=
  data.foldl (fun result value =>
    let quotient := nearestFloat64 value.1 (value.2 * 10)
    let barLength := quotient.1 / quotient.2
    let barLength := if barLength > 20 then 20 else barLength
    let bar := String.mk (List.replicate barLength '█')
    result ++ ("  " ++ padRight 5 (formatFixed 1 value) ++ " " ++ bar ++ "\n")) ""

/-- `Generator.generateTimeLabels`.  `clock k` is the civil reading of
`now.Add(-k * time.Minute)` for the `now` that the function reads with
`time.Now()`: the arithmetic of instants and the time zone are the library's. -/
def Generator.generateTimeLabels (_g : Generator) (clock : Nat → Time) : List String :=
  (List.range 10).map fun i => (clock (9 - i)).hourMinute

/-- `Generator.generateCPUMetrics`: `30 + float64(i)*5`, which is exact. -/
def Generator.generateCPUMetrics (_g : Generator) (_metrics : ClusterMetrics) :
    List (Nat × Nat) :=
  (List.range 10).map fun i => (30 + i * 5, 1)

/-- `Generator.generateMemoryMetrics`: `40 + float64(i)*3`, which is exact. -/
def Generator.generateMemoryMetrics (_g : Generator) (_metrics : ClusterMetrics) :
    List (Nat × Nat) :=
  (List.range 10).map fun i => (40 + i * 3, 1)

/-- `Generator.generateChart`: the returned bytes, as text, and the returned
error (`none` for `nil`).  `len(data.Title)` counts bytes. -/
def Generator.generateChart (g : Generator) (data : ChartData) : String × Option String :=
  let buf := "\n" ++ data.Title ++ "\n"
  let buf := buf ++ (g.generateSeparator data.Title.utf8ByteSize ++ "\n")
  let buf :=
    if data.ShowLegend then
      let buf := buf ++ "\n图例:\n"
      let buf := data.Datasets.foldl (fun buf dataset =>
        buf ++ ("  " ++ dataset.Label ++ ": " ++ dataset.Color ++ "\n")) buf
      buf ++ "\n"
    else buf
  let buf := buf ++ (data.YLabel ++ "\n")
  let buf := buf ++ g.generateSeparator 20
  let buf := data.Datasets.foldl (fun buf dataset =>
    let buf := buf ++ ("\n" ++ dataset.Label ++ ":\n")
    buf ++ g.generateBarChart dataset.Data dataset.Color) buf
  let buf := buf ++ "\n"
  let buf := data.XLabels.foldl (fun buf label => buf ++ padRight 10 label) buf
  let buf := buf ++ "\n"
  (buf, none)

/-- `Generator.GenerateChart`. -/
def Generator.GenerateChart (g : Generator) (data : ChartData) : String × Option String :=
  g.generateChart data

/-- `Generator.GenerateClusterMetricsChart`. -/
def Generator.GenerateClusterMetricsChart (g : Generator) (clock : Nat → Time)
    (metrics : ClusterMetrics) : String × Option String :=
  let chartData : ChartData :=
    { Title := "集群监控 - " ++ metrics.ClusterName
      XLabels := g.generateTimeLabels clock
      YLabel := "使用率 (%)"
      ShowLegend := true
      Datasets :=
        [{ Label := "CPU使用率", Data := g.generateCPUMetrics metrics, Color := "#FF6B6B",
           DataType := "line" },
         { Label := "内存使用率", Data := g.generateMemoryMetrics metrics, Color := "#4ECDC4",
           DataType := "line" }] }
  g.GenerateChart chartData

/-! ## Definitions used to state the theorems -/

/-- Appending to a bounded history, in the words of the specification: the
sample goes to the tail and the head is dropped when the history would exceed
100 samples. -/
def appendBounded (history : List ClusterMetrics) (sample : ClusterMetrics) :
    List ClusterMetrics :=
  if (history ++ [sample]).length > 100 then (history ++ [sample]).drop 1
  else history ++ [sample]

/-- The last `n` elements of a list. -/
def lastN {α : Type} (n : Nat) (xs : List α) : List α := xs.drop (xs.length - n)

/-- The samples that the sampler delivers for cluster `c`, in order, when the
loop of `collectMetrics` runs over `clusters` and the sampler has been called
`start` times before. -/
def samplesFor (env : Env) (c : String) : Nat → List ClusterConfig → List ClusterMetrics
  | _, [] => []
  | start, cluster :: rest =>
    (match env.collect start cluster.Name with
      | .ok metrics => if cluster.Name = c then [metrics] else []
      | .error _ => []) ++ samplesFor env c (start + 1) rest

/-- Every alert of the store is stored under its own id. -/
def AlertsKeyed (alerts : List (String × Alert)) : Prop := ∀ e ∈ alerts, e.2.ID = e.1

/-- The alert that `createAlert` builds when the id is new, from its arguments
and its two clock readings. -/
def newAlert (clusterName alertType level message : String) (now₁ now₂ : Time) : Alert :=
  { ID := alertID clusterName alertType now₁, Cluster := clusterName, Type_ := alertType,
    Level := level, Message := message, CreatedAt := now₂, Resolved := false }

/-- A history whose latest sample, if there is one, fires none of the three
rules of `checkAlerts`. -/
def Healthy (history : List ClusterMetrics) : Prop :=
  ∀ s, history.getLast? = some s →
    s.Nodes.NotReady ≤ 0 ∧ s.Pods.Failed ≤ 0 ∧ s.Pods.Pending ≤ 10

/-! ### Concrete inputs used to instantiate the theorems -/

/-- A sample with the given counts and nothing else. -/
def sampleWith (name : String) (total notReady failed pending : Int) : ClusterMetrics :=
  { ClusterName := name
    Timestamp := ⟨2024, 1, 2, 3, 4, 5, 0⟩
    Nodes := { Total := total, Ready := total - notReady, NotReady := notReady,
               Unreachable := 0, Details := [] }
    Pods := { Total := failed + pending, Running := 0, Pending := pending, Failed := failed,
              Succeeded := 0, Details := [] }
    Resources := { TotalCPU := "0m", TotalMemory := "0B", UsedCPU := "0m", UsedMemory := "0B",
                   AvailableCPU := "0m", AvailableMemory := "0B" }
    Events := [] }

/-- An environment whose clock stands still, whose sampler always succeeds
(the `n`-th sample reports `n` nodes) and whose notifiers always fail. -/
def frozenEnv : Env :=
  { now := fun _ => ⟨2024, 1, 2, 3, 4, 5, 0⟩
    collect := fun n name => .ok (sampleWith name n 0 0 0)
    render := fun _ _ => .ok []
    send := fun _ _ => some "failed to send message, status code: 500" }

/-- A registry with the two clusters `a` and `b`. -/
def twoClusters : Manager := { clusters := [⟨"a", "", ""⟩, ⟨"b", "", ""⟩] }

/-- A world with both notifiers configured and one unresolved alert. -/
def oneAlertWorld : World :=
  createAlert frozenEnv "a" "node" "warning" "1 nodes are not ready"
    (SetFeishuClient true (SetDingTalkClient true (World.init twoClusters)))

/-- A world with an empty alert store, both notifiers configured and the
histories of two clusters: `a` is healthy (10 pods pending), `b` has one node
that is not ready. -/
def twoClusterWorld : World :=
  { svc :=
      { k8sManager := twoClusters, dingtalkClient := true, feishuClient := true, alerts := [],
        metricsHistory :=
          [("a", [sampleWith "a" 3 2 1 0, sampleWith "a" 3 0 0 10]),
           ("b", [sampleWith "b" 3 1 0 0])] }
    clock := 0, collected := 3, rendered := 0, calls := [], out := [] }

/-- A world with an empty alert store and the histories of two clusters: `a`
has 3 failed and 11 pending pods and 2 nodes not ready, `b` has no failed pod. -/
def failedPodsWorld : World :=
  { svc :=
      { k8sManager := twoClusters, dingtalkClient := true, feishuClient := true, alerts := [],
        metricsHistory :=
          [("a", [sampleWith "a" 3 2 3 11]), ("b", [sampleWith "b" 3 1 0 11])] }
    clock := 0, collected := 2, rendered := 0, calls := [], out := [] }

/-- An environment in which every sampling fails. -/
def failingEnv : Env :=
  { now := fun _ => ⟨2024, 1, 2, 3, 4, 5, 0⟩
    collect := fun _ name => .error ("cluster not found: " ++ name)
    render := fun _ _ => .ok []
    send := fun _ _ => none }

/-- An environment in which the first sampling fails and every later one
succeeds. -/
def firstFailsEnv : Env :=
  { now := fun _ => ⟨2024, 1, 2, 3, 4, 5, 0⟩
    collect := fun n name =>
      if n = 0 then .error ("cluster not found: " ++ name) else .ok (sampleWith name n 0 0 0)
    render := fun _ _ => .ok []
    send := fun _ _ => none }

/-! ### Reachability through the service's own ticks -/

/-- The operations other than a bare `createAlert`: the ticks of the three
loops, `ResolveAlert` and the two setters. -/
def Op.IsPublic : Op → Prop
  | .createAlert _ _ _ _ => False
  | _ => True

/-- The worlds obtained from a fresh service by ticks of its loops (and
`ResolveAlert` and the setters), each tick iterating over the history map as it
is at that point; `createAlert` only runs inside `checkAlerts`. -/
inductive ReachableByTicks (env : Env) (k8sManager : Manager) : World → Prop where
  | init : ReachableByTicks env k8sManager (World.init k8sManager)
  | step (w : World) (op : Op) : ReachableByTicks env k8sManager w → op.FitsWorld w →
      op.IsPublic → ReachableByTicks env k8sManager (step env w op)

/-- Every history of the service holds at most 100 samples. -/
def HistoryBounded (w : World) : Prop := ∀ c, (GetMetricsHistory w.svc c).length ≤ 100

/-- The history keys and the alerts' clusters of `w` are names of clusters
registered in `k8sManager`, which is the registry of `w`. -/
def NamesRegistered (k8sManager : Manager) (w : World) : Prop :=
  w.svc.k8sManager = k8sManager ∧
  (∀ k ∈ mapKeys w.svc.metricsHistory, k ∈ k8sManager.GetClusters.map (fun cl => cl.Name)) ∧
  (∀ e ∈ w.svc.alerts, e.2.Cluster ∈ k8sManager.GetClusters.map (fun cl => cl.Name))

/-- Every id in the alert store was built from an earlier clock reading and a
type without a dash. -/
def KeysFromPast (env : Env) (w : World) : Prop :=
  ∀ k ∈ mapKeys w.svc.alerts,
    ∃ c ty i, i < w.clock ∧ '-' ∉ ty.data ∧ k = alertID c ty (env.now i)

/-- The detail entries that the loop of `collectPodMetrics` builds for `pods`,
the first of them being the `n`-th pod of the list. -/
def podDetails (since : Nat → Time → Int) : Nat → List Pod → List PodDetail
  | _, [] => []
  | n, pod :: rest =>
    { Name := pod.Name, Namespace := pod.Namespace, Status := pod.Phase,
      RestartCount := restartCount pod.ContainerStatuses,
      Age := since n pod.CreationTimestamp } :: podDetails since (n + 1) rest

/-- The phase is one of the four that `collectPodMetrics` counts. -/
def CountedPhase (phase : String) : Prop :=
  phase = "Running" ∨ phase = "Pending" ∨ phase = "Failed" ∨ phase = "Succeeded"

instance (phase : String) : Decidable (CountedPhase phase) := by
  unfold CountedPhase
  infer_instance

/-- Two pods: a running one whose containers restarted 1 and 2 times, and one
in phase `Unknown` without containers. -/
def twoPods : List Pod :=
  [{ Name := "web", Namespace := "default", Phase := "Running",
     ContainerStatuses := [⟨1⟩, ⟨2⟩], CreationTimestamp := ⟨2024, 1, 2, 3, 4, 5, 0⟩ },
   { Name := "job", Namespace := "default", Phase := "Unknown",
     ContainerStatuses := [], CreationTimestamp := ⟨2024, 1, 2, 3, 4, 5, 0⟩ }]

/-- A client handle whose pod query fails and whose other queries return
empty lists. -/
def brokenPodsClient : Clientset :=
  { nodes := .items [], pods := .failed "context deadline exceeded",
    resourceNodes := .items [], events := .items [] }

/-- A pod with two containers that each report `2^30` restarts. -/
def restartingPod : Pod :=
  { Name := "p", Namespace := "default", Phase := "Running",
    ContainerStatuses := [⟨1073741824⟩, ⟨1073741824⟩],
    CreationTimestamp := ⟨2024, 1, 2, 3, 4, 5, 0⟩ }

/-- A client holding the token `t-1` that expires at instant 5000000000, read
at that very instant; a refresh would answer `t-2`, valid for 7200 seconds. -/
def Feishu.boundaryWorld : Feishu.World :=
  { client := { appID := "app", appSecret := "secret", accessToken := "t-1",
                tokenExpiry := 5000000000 },
    clock := 0, posts := 0 }

/-- A clock that reads second 5, then second 6, and an endpoint that grants
`t-2` for 7200 seconds. -/
def Feishu.boundaryEnv : Feishu.Env :=
  { now := fun n => if n = 0 then 5000000000 else 6000000000
    post := fun _ => .response 200 (.ok ⟨0, "t-2", 7200⟩) }

/-- A clock that reads second 6 and on, and an endpoint that grants `t-2` for
7200 seconds on the first request and answers code 99991663 afterwards. -/
def Feishu.lateEnv : Feishu.Env :=
  { now := fun _ => 6000000000
    post := fun n => if n = 0 then .response 200 (.ok ⟨0, "t-2", 7200⟩)
      else .response 200 (.ok ⟨99991663, "", 0⟩) }

/-- The number of arguments that the command surface requires after a
subcommand of a verb, in the words of the specification: cluster
status/metrics/chart 1, pod list 2, pod describe/logs/delete 3, node
list/metrics 1, node describe 2, monitor status/alerts/chart 1; `none` when the
verb has no such subcommand. -/
def requiredArguments (verb subcommand : String) : Option Nat :=
  if verb = "cluster" then
    if subcommand = "status" ∨ subcommand = "metrics" ∨ subcommand = "chart" then some 1
    else none
  else if verb = "pod" then
    if subcommand = "list" then some 2
    else if subcommand = "describe" ∨ subcommand = "logs" ∨ subcommand = "delete" then some 3
    else none
  else if verb = "node" then
    if subcommand = "list" ∨ subcommand = "metrics" then some 1
    else if subcommand = "describe" then some 2
    else none
  else if verb = "monitor" then
    if subcommand = "status" ∨ subcommand = "alerts" ∨ subcommand = "chart" then some 1
    else none
  else none

/-- Fewer than the required number: `k` is below `n`, or there is no `n`
because the subcommand is unknown. -/
def FewerThan : Option Nat → Nat → Prop
  | none, _ => True
  | some n, k => k < n

instance : (required : Option Nat) → (k : Nat) → Decidable (FewerThan required k)
  | none, _ => isTrue trivial
  | some n, k => inferInstanceAs (Decidable (k < n))

/-- The fields after the verb lack something: there is no subcommand, the
subcommand is unknown, or fewer arguments follow it than it requires. -/
def MissingArguments (verb : String) : List String → Prop
  | [] => True
  | subcommand :: arguments =>
    FewerThan (requiredArguments verb subcommand) arguments.length

instance (verb : String) : (rest : List String) → Decidable (MissingArguments verb rest)
  | [] => isTrue trivial
  | subcommand :: arguments =>
    inferInstanceAs (Decidable (FewerThan (requiredArguments verb subcommand) arguments.length))

/-- The field lists that the specification rejects: no field at all, a first
field that is no verb, a verb other than `help` without a subcommand or with an
unknown one, or fewer arguments than the subcommand requires. -/
def Malformed : List String → Prop
  | [] => True
  | verb :: rest =>
    (verb ≠ "cluster" ∧ verb ≠ "pod" ∧ verb ≠ "node" ∧ verb ≠ "monitor" ∧ verb ≠ "help") ∨
    (verb ≠ "help" ∧ MissingArguments verb rest)

instance : (parts : List String) → Decidable (Malformed parts)
  | [] => isTrue trivial
  | verb :: rest =>
    inferInstanceAs (Decidable
      ((verb ≠ "cluster" ∧ verb ≠ "pod" ∧ verb ≠ "node" ∧ verb ≠ "monitor" ∧ verb ≠ "help") ∨
        (verb ≠ "help" ∧ MissingArguments verb rest)))

/-- An environment for the handler: the clock stands still and every notifier
call succeeds. -/
def quietHandlerEnv : HandlerEnv :=
  { now := ⟨2024, 1, 2, 3, 4, 5, 0⟩, since := fun _ _ => 0, send := fun _ _ => none,
    rangeNodeMetrics := fun metrics => metrics }

/-- A handle that answers every query with an empty result. -/
def emptyHandle : Handle :=
  { listNodes := .ok [], listPods := fun _ => .ok [],
    getPod := fun _ _ => .error "pods not found", deletePod := fun _ _ => none,
    getNode := fun _ => .error "nodes not found", getLogs := fun _ _ _ => .ok "",
    sampler := { nodes := .items [], pods := .items [], resourceNodes := .items [],
                 events := .items [] } }

/-- A registry with the single cluster `prod`. -/
def prodRegistry : Kubernetes.Manager :=
  { clients := [("prod", emptyHandle)], clusters := [⟨"prod", "", ""⟩] }

/-- A configuration that names one cluster and gives no server port. -/
def exampleConfig : Config :=
  { Kubernetes := { Clusters := [⟨"prod", "", ""⟩] }
    Messaging :=
      { DingTalk := ⟨true, "", "", "https://oapi.dingtalk.com/robot/send?access_token=t", "s"⟩
        Feishu := ⟨false, "", ""⟩ }
    OpenClaw := ⟨false, ""⟩
    Server := ⟨0⟩ }

/-- A source whose only file is `config.yaml`, which decodes to `exampleConfig`. -/
def exampleSource : ConfigSource :=
  { notExist := fun path => path != "config.yaml"
    readFile := fun path => if path = "config.yaml" then .ok [1] else .error "is a directory"
    unmarshal := fun data => if data = [1] then .ok exampleConfig else .error "yaml: bad input" }

/-- The operation probes clusters (and may create alerts). -/
def Monitoring.Op.IsCheck : Monitoring.Op → Prop
  | .checkClusters => True
  | .checkCluster _ => True
  | _ => False

/-- The id ends in a dash followed by the formatted second of `t`. -/
def EndsInSecond (id : String) (t : Time) : Prop := ('-' :: t.stamp.data) <:+ id.data

instance (id : String) (t : Time) : Decidable (EndsInSecond id t) := by
  unfold EndsInSecond
  infer_instance

/-- A registry that lists the cluster `a` and holds no handle for it. -/
def lostRegistry : Kubernetes.Manager := { clients := [], clusters := [⟨"a", "", ""⟩] }

/-- The legacy manager after a failed probe of `a` under a frozen clock and the
resolution of the alert that the probe created. -/
def Monitoring.resolvedWorld : Monitoring.World :=
  (Monitoring.ResolveAlert frozenEnv "a-20240102030405"
    (Monitoring.checkCluster frozenEnv "a" (Monitoring.World.init (some lostRegistry)))).2

/-- An environment whose clock stands still ten seconds after that of
`frozenEnv`. -/
def laterEnv : Env :=
  { now := fun _ => ⟨2024, 1, 2, 3, 4, 15, 0⟩
    collect := fun n name => .ok (sampleWith name n 0 0 0)
    render := fun _ _ => .ok []
    send := fun _ _ => none }

/-- The number that a run of decimal digits writes. -/
def digitsValue (digits : List Char) : Nat :=
  digits.foldl (fun value c => 10 * value + (c.toNat - 48)) 0

/-- A clock reading whose year has at most four digits and whose other civil
fields are in their ranges: its formatted second has 14 digits. -/
def Time.FourDigitYear (t : Time) : Prop :=
  t.year ≤ 9999 ∧ t.month ≤ 12 ∧ t.day ≤ 31 ∧ t.hour ≤ 23 ∧ t.minute ≤ 59 ∧ t.second ≤ 60

/-- The two readings show the same second. -/
def Time.SameSecond (t₁ t₂ : Time) : Prop :=
  t₁.year = t₂.year ∧ t₁.month = t₂.month ∧ t₁.day = t₂.day ∧ t₁.hour = t₂.hour ∧
    t₁.minute = t₂.minute ∧ t₁.second = t₂.second

/-- One of the three alert types of the data model. -/
def AlertType (ty : String) : Prop := ty = "connection" ∨ ty = "node" ∨ ty = "pod"

instance (ty : String) : Decidable (AlertType ty) := by
  unfold AlertType
  infer_instance

/-- Every alert of the store sits under the id built from its own cluster, its
own type, which has no dash, and some clock reading. -/
def IdsDerived (alerts : List (String × Alert)) : Prop :=
  ∀ e ∈ alerts, '-' ∉ e.2.Type_.data ∧ ∃ t, e.1 = alertID e.2.Cluster e.2.Type_ t

/-- The text that the renderer draws for the CPU series. -/
def cpuBars : String :=
  "  30.0  ███\n  35.0  ███\n  40.0  ████\n  45.0  ████\n  50.0  █████\n" ++
  "  55.0  █████\n  60.0  ██████\n  65.0  ██████\n  70.0  ███████\n  75.0  ███████\n"

/-- The text that the renderer draws for the memory series. -/
def memoryBars : String :=
  "  40.0  ████\n  43.0  ████\n  46.0  ████\n  49.0  ████\n  52.0  █████\n" ++
  "  55.0  █████\n  58.0  █████\n  61.0  ██████\n  64.0  ██████\n  67.0  ██████\n"

/-- The two series as numbers. -/
def cpuSeries : List Nat := [30, 35, 40, 45, 50, 55, 60, 65, 70, 75]

/-- The memory series as numbers. -/
def memorySeries : List Nat := [40, 43, 46, 49, 52, 55, 58, 61, 64, 67]

/-- The line that the specification describes for a data point: the value with
one decimal in a field of five, and a bar of `floor(value / 10)` blocks. -/
def barLine (value : Nat) : String :=
  "  " ++ padRight 5 (Nat.repr value ++ ".0") ++ " " ++
    String.mk (List.replicate (value / 10) '█') ++ "\n"

/-- A clock that reads 03:14 now and one minute less for each minute back. -/
def minuteClock (k : Nat) : Time := ⟨2024, 1, 2, 3, 14 - k, 5, 0⟩

/-- The error with which a list query through the handle fails: the error
returned by `List`, or `invalid client type` when the handle is no client;
`none` when the query returns its items. -/
def Listing.failure {α : Type} : Listing α → Option String
  | .invalidClient => some "invalid client type"
  | .failed err => some err
  | .items _ => none

/-- A client handle whose event query fails and whose other queries return
empty lists. -/
def brokenEventsClient : Clientset :=
  { nodes := .items [], pods := .items [], resourceNodes := .items [],
    events := .failed "etcdserver: request timed out" }

/-- The world in which the failed-pods rule of cluster `c` runs, in a tick of
`checkAlerts` from `w` that has visited the entries `pre` and then reached the
entry of `c`, whose latest sample is `s`: the entries of `pre` and the node rule
of `c` have run. -/
def beforeFailedRule (env : Env) (w : World) (pre : List (String × List ClusterMetrics))
    (c : String) (s : ClusterMetrics) : World :=
  (if s.Nodes.NotReady > 0
    then createAlert env c "node" "warning"
      (formatInt s.Nodes.NotReady ++ " nodes are not ready")
    else id) (checkAlerts env pre w)

/-- In that visit, the clock reading from which the failed-pods rule builds its
id and the reading from which the pending-pods rule builds its id, two readings
later, show the same second. -/
def SameSecondCreates (env : Env) (w : World) (pre : List (String × List ClusterMetrics))
    (c : String) (s : ClusterMetrics) : Prop :=
  (env.now (beforeFailedRule env w pre c s).clock).stamp =
    (env.now ((beforeFailedRule env w pre c s).clock + 2)).stamp

instance (env : Env) (w : World) (pre : List (String × List ClusterMetrics)) (c : String)
    (s : ClusterMetrics) : Decidable (SameSecondCreates env w pre c s) := by
  unfold SameSecondCreates
  infer_instance

/-- An environment whose clock shows second 5 for its first four readings and
second 6 afterwards, and whose notifiers succeed. -/
def tickingEnv : Env :=
  { now := fun n => if n < 4 then ⟨2024, 1, 2, 3, 4, 5, 0⟩ else ⟨2024, 1, 2, 3, 4, 6, 0⟩
    collect := fun n name => .ok (sampleWith name n 0 0 0)
    render := fun _ _ => .ok []
    send := fun _ _ => none }

/-! ## Lemmas on maps -/

theorem mapGet_mapSet_same {α : Type} (k : String) (v : α) (m : List (String × α)) :
    mapGet k (mapSet k v m) = some v := by
  induction m with
  | nil => simp [mapSet, mapGet]
  | cons e rest ih =>
    obtain ⟨k', v'⟩ := e
    by_cases h : k' = k
    · simp [mapSet, mapGet, h]
    · simp [mapSet, mapGet, h, ih]

theorem mapGet_mapSet_ne {α : Type} {k k' : String} (v : α) (m : List (String × α))
    (h : k' ≠ k) : mapGet k' (mapSet k v m) = mapGet k' m := by
  induction m with
  | nil => simp [mapSet, mapGet, Ne.symm h]
  | cons e rest ih =>
    obtain ⟨k₀, v₀⟩ := e
    by_cases h₀ : k₀ = k
    · subst h₀
      simp [mapSet, mapGet, Ne.symm h]
    · by_cases h₁ : k₀ = k'
      · subst h₁
        simp [mapSet, mapGet, h]
      · simp [mapSet, mapGet, h₀, h₁, ih]

theorem mapSet_mapSet {α : Type} (k : String) (v v' : α) (m : List (String × α)) :
    mapSet k v (mapSet k v' m) = mapSet k v m := by
  induction m with
  | nil => simp [mapSet]
  | cons e rest ih =>
    obtain ⟨k₀, v₀⟩ := e
    by_cases h₀ : k₀ = k
    · simp [mapSet, h₀]
    · simp [mapSet, h₀, ih]

theorem mapGet_eq_none_iff {α : Type} (k : String) (m : List (String × α)) :
    mapGet k m = none ↔ k ∉ mapKeys m := by
  induction m with
  | nil => simp [mapGet, mapKeys]
  | cons e rest ih =>
    obtain ⟨k₀, v₀⟩ := e
    by_cases h₀ : k₀ = k
    · simp [mapGet, mapKeys, h₀]
    · simp only [mapKeys] at ih
      simp [mapGet, mapKeys, h₀, ih, Ne.symm h₀]

theorem mem_of_mapGet {α : Type} {k : String} {v : α} {m : List (String × α)}
    (h : mapGet k m = some v) : (k, v) ∈ m := by
  induction m with
  | nil => simp [mapGet] at h
  | cons e rest ih =>
    obtain ⟨k₀, v₀⟩ := e
    by_cases h₀ : k₀ = k
    · simp [mapGet, h₀] at h
      simp [h₀, h]
    · simp [mapGet, h₀] at h
      exact List.mem_cons_of_mem _ (ih h)

theorem mapGet_of_mem {α : Type} {k : String} {v : α} {m : List (String × α)}
    (wf : MapWF m) (h : (k, v) ∈ m) : mapGet k m = some v := by
  induction m with
  | nil => simp at h
  | cons e rest ih =>
    obtain ⟨k₀, v₀⟩ := e
    simp only [MapWF, mapKeys, List.map_cons, List.nodup_cons, List.mem_map, not_exists,
      not_and] at wf
    rcases List.mem_cons.mp h with h | h
    · cases h
      simp [mapGet]
    · have hne : k₀ ≠ k := fun hk => wf.1 (k, v) h hk.symm
      simp only [mapGet, hne, if_false]
      exact ih wf.2 h

theorem mapKeys_mapSet {α : Type} (k : String) (v : α) (m : List (String × α)) :
    mapKeys (mapSet k v m) = if k ∈ mapKeys m then mapKeys m else mapKeys m ++ [k] := by
  induction m with
  | nil => simp [mapSet, mapKeys]
  | cons e rest ih =>
    obtain ⟨k₀, v₀⟩ := e
    by_cases h₀ : k₀ = k
    · simp [mapSet, mapKeys, h₀]
    · simp only [mapKeys] at ih
      by_cases hk : k ∈ List.map Prod.fst rest
      · simp [mapSet, mapKeys, h₀, ih, hk]
      · simp [mapSet, mapKeys, h₀, ih, hk, Ne.symm h₀]

theorem MapWF_mapSet {α : Type} (k : String) (v : α) {m : List (String × α)}
    (wf : MapWF m) : MapWF (mapSet k v m) := by
  unfold MapWF at *
  rw [mapKeys_mapSet]
  split
  · exact wf
  · rename_i hk
    rw [List.nodup_append]
    refine ⟨wf, List.nodup_singleton k, ?_⟩
    intro a ha hb
    simp only [List.mem_singleton] at hb
    exact hk (hb ▸ ha)

theorem mem_mapSet {α : Type} {k : String} {v : α} {m : List (String × α)}
    {e : String × α} (h : e ∈ mapSet k v m) : e = (k, v) ∨ e ∈ m := by
  induction m with
  | nil => simpa [mapSet] using h
  | cons e₀ rest ih =>
    obtain ⟨k₀, v₀⟩ := e₀
    by_cases h₀ : k₀ = k
    · simp only [mapSet, h₀, if_true, List.mem_cons] at h
      rcases h with h | h
      · exact Or.inl h
      · exact Or.inr (List.mem_cons_of_mem _ h)
    · simp only [mapSet, h₀, if_false, List.mem_cons] at h
      rcases h with h | h
      · exact Or.inr (h ▸ List.mem_cons_self _ _)
      · rcases ih h with h | h
        · exact Or.inl h
        · exact Or.inr (List.mem_cons_of_mem _ h)

/-! ## What each operation leaves alone -/

@[simp]
theorem notify_svc (env : Env) (call : Call) (failure : String) (w : World) :
    (notify env call failure w).svc = w.svc := by
  unfold notify
  cases env.send w.calls.length call <;> rfl

@[simp]
theorem notify_clock (env : Env) (call : Call) (failure : String) (w : World) :
    (notify env call failure w).clock = w.clock := by
  unfold notify
  cases env.send w.calls.length call <;> rfl

@[simp]
theorem notify_calls (env : Env) (call : Call) (failure : String) (w : World) :
    (notify env call failure w).calls = w.calls ++ [call] := by
  unfold notify
  cases env.send w.calls.length call <;> rfl

@[simp]
theorem sendAlert_svc (env : Env) (alert : Alert) (w : World) :
    (sendAlert env alert w).svc = w.svc := by
  unfold sendAlert
  by_cases hd : w.svc.dingtalkClient = true <;> by_cases hf : w.svc.feishuClient = true <;>
    simp [hd, hf]

@[simp]
theorem sendAlert_clock (env : Env) (alert : Alert) (w : World) :
    (sendAlert env alert w).clock = w.clock := by
  unfold sendAlert
  by_cases hd : w.svc.dingtalkClient = true <;> by_cases hf : w.svc.feishuClient = true <;>
    simp [hd, hf]

theorem createAlert_alerts (env : Env) (clusterName alertType level message : String)
    (w : World) :
    (createAlert env clusterName alertType level message w).svc.alerts =
      match mapGet (alertID clusterName alertType (env.now w.clock)) w.svc.alerts with
      | some _ => w.svc.alerts
      | none =>
        mapSet (alertID clusterName alertType (env.now w.clock))
          { ID := alertID clusterName alertType (env.now w.clock), Cluster := clusterName,
            Type_ := alertType, Level := level, Message := message,
            CreatedAt := env.now (w.clock + 1), Resolved := false } w.svc.alerts := by
  unfold createAlert
  cases h : mapGet (alertID clusterName alertType (env.now w.clock)) w.svc.alerts <;>
    simp [h]

@[simp]
theorem createAlert_metricsHistory (env : Env)
    (clusterName alertType level message : String) (w : World) :
    (createAlert env clusterName alertType level message w).svc.metricsHistory =
      w.svc.metricsHistory := by
  unfold createAlert
  cases h : mapGet (alertID clusterName alertType (env.now w.clock)) w.svc.alerts <;>
    simp [h]

@[simp]
theorem createAlert_dingtalkClient (env : Env)
    (clusterName alertType level message : String) (w : World) :
    (createAlert env clusterName alertType level message w).svc.dingtalkClient =
      w.svc.dingtalkClient := by
  unfold createAlert
  cases h : mapGet (alertID clusterName alertType (env.now w.clock)) w.svc.alerts <;>
    simp [h]

@[simp]
theorem createAlert_feishuClient (env : Env)
    (clusterName alertType level message : String) (w : World) :
    (createAlert env clusterName alertType level message w).svc.feishuClient =
      w.svc.feishuClient := by
  unfold createAlert
  cases h : mapGet (alertID clusterName alertType (env.now w.clock)) w.svc.alerts <;>
    simp [h]

@[simp]
theorem checkAlertsStep_metricsHistory (env : Env) (w : World)
    (entry : String × List ClusterMetrics) :
    (checkAlertsStep env w entry).svc.metricsHistory = w.svc.metricsHistory := by
  unfold checkAlertsStep
  cases entry.2.getLast? with
  | none => rfl
  | some latest =>
    by_cases h₁ : latest.Nodes.NotReady > 0 <;> by_cases h₂ : latest.Pods.Failed > 0 <;>
      by_cases h₃ : latest.Pods.Pending > 10 <;> simp [h₁, h₂, h₃]

@[simp]
theorem checkAlerts_metricsHistory (env : Env)
    (order : List (String × List ClusterMetrics)) (w : World) :
    (checkAlerts env order w).svc.metricsHistory = w.svc.metricsHistory := by
  unfold checkAlerts
  induction order generalizing w with
  | nil => rfl
  | cons e rest ih => rw [List.foldl_cons, ih, checkAlertsStep_metricsHistory]

@[simp]
theorem sendChartsStep_svc (env : Env) (w : World)
    (entry : String × List ClusterMetrics) : (sendChartsStep env w entry).svc = w.svc := by
  unfold sendChartsStep
  cases entry.2.getLast? with
  | none => rfl
  | some latest =>
    cases hr : env.render w.rendered latest with
    | error err => simp [hr]
    | ok chartData =>
      by_cases hd : w.svc.dingtalkClient = true <;> by_cases hf : w.svc.feishuClient = true <;>
        simp [hr, hd, hf]

@[simp]
theorem sendCharts_svc (env : Env) (order : List (String × List ClusterMetrics))
    (w : World) : (sendCharts env order w).svc = w.svc := by
  unfold sendCharts
  induction order generalizing w with
  | nil => rfl
  | cons e rest ih => rw [List.foldl_cons, ih, sendChartsStep_svc]

theorem ResolveAlert_alerts (env : Env) (id : String) (w : World) :
    (ResolveAlert env id w).2.svc.alerts =
      match mapGet id w.svc.alerts with
      | none => w.svc.alerts
      | some alert => mapSet id { alert with Resolved := true } w.svc.alerts := by
  unfold ResolveAlert
  cases h : mapGet id w.svc.alerts with
  | none => rfl
  | some alert =>
    by_cases hd : w.svc.dingtalkClient = true <;> by_cases hf : w.svc.feishuClient = true <;>
      simp [hd, hf]

@[simp]
theorem ResolveAlert_metricsHistory (env : Env) (id : String) (w : World) :
    (ResolveAlert env id w).2.svc.metricsHistory = w.svc.metricsHistory := by
  unfold ResolveAlert
  cases h : mapGet id w.svc.alerts with
  | none => rfl
  | some alert =>
    by_cases hd : w.svc.dingtalkClient = true <;> by_cases hf : w.svc.feishuClient = true <;>
      simp [hd, hf]

/-- The history map after one iteration of the loop of `collectMetrics`. -/
theorem collectMetricsStep_metricsHistory (env : Env) (w : World) (cluster : ClusterConfig) :
    (collectMetricsStep env w cluster).svc.metricsHistory =
      match env.collect w.collected cluster.Name with
      | .error _ => w.svc.metricsHistory
      | .ok metrics =>
        mapSet cluster.Name (appendBounded (GetMetricsHistory w.svc cluster.Name) metrics)
          w.svc.metricsHistory := by
  unfold collectMetricsStep
  cases hr : env.collect w.collected cluster.Name with
  | error err => rfl
  | ok metrics =>
    cases hg : mapGet cluster.Name w.svc.metricsHistory with
    | none =>
      by_cases hlen : 100 < ([] ++ [metrics] : List ClusterMetrics).length
      · simp at hlen
      · simp [GetMetricsHistory, appendBounded, hg, mapGet_mapSet_same, mapSet_mapSet]
    | some history =>
      simp only [GetMetricsHistory, appendBounded, hg, mapGet_mapSet_same, mapSet_mapSet,
        Option.getD_some]
      split_ifs <;> rfl

@[simp]
theorem collectMetricsStep_alerts (env : Env) (w : World) (cluster : ClusterConfig) :
    (collectMetricsStep env w cluster).svc.alerts = w.svc.alerts := by
  unfold collectMetricsStep
  cases env.collect w.collected cluster.Name <;> rfl

@[simp]
theorem collectMetricsStep_collected (env : Env) (w : World) (cluster : ClusterConfig) :
    (collectMetricsStep env w cluster).collected = w.collected + 1 := by
  unfold collectMetricsStep
  cases env.collect w.collected cluster.Name <;> rfl

/-! ## The bounded history -/

theorem appendBounded_length_le (history : List ClusterMetrics) (sample : ClusterMetrics)
    (h : history.length ≤ 100) : (appendBounded history sample).length ≤ 100 := by
  unfold appendBounded
  split
  · simp only [List.length_drop, List.length_append, List.length_singleton]
    omega
  · rename_i hlen
    exact Nat.le_of_not_lt hlen

theorem appendBounded_lastN (xs : List ClusterMetrics) (sample : ClusterMetrics) :
    appendBounded (lastN 100 xs) sample = lastN 100 (xs ++ [sample]) := by
  unfold appendBounded lastN
  by_cases hlen : xs.length < 100
  · have h₁ : xs.length - 100 = 0 := by omega
    have h₂ : (xs ++ [sample]).length - 100 = 0 := by
      simp only [List.length_append, List.length_singleton]
      omega
    have h₃ : ¬ 100 < (xs ++ [sample]).length := by
      simp only [List.length_append, List.length_singleton]
      omega
    rw [h₁, h₂]
    simp only [List.drop_zero]
    rw [if_neg h₃]
  · have h₁ : 100 < (List.drop (xs.length - 100) xs ++ [sample]).length := by
      simp only [List.length_append, List.length_drop, List.length_singleton]
      omega
    rw [if_pos h₁]
    have h₂ : (xs ++ [sample]).length - 100 = (xs.length - 100) + 1 := by
      simp only [List.length_append, List.length_singleton]
      omega
    have h₃ : xs.length - 100 + 1 ≤ xs.length := by omega
    rw [h₂, List.drop_append_of_le_length h₃]
    have h₄ : xs.length - 100 ≤ xs.length := by omega
    rw [← List.drop_drop]
    rw [List.drop_append_of_le_length]
    simp only [List.length_drop]
    omega

theorem GetMetricsHistory_collectMetricsStep (env : Env) (w : World) (cluster : ClusterConfig)
    (c : String) :
    GetMetricsHistory (collectMetricsStep env w cluster).svc c =
      match env.collect w.collected cluster.Name with
      | .error _ => GetMetricsHistory w.svc c
      | .ok metrics =>
        if cluster.Name = c then appendBounded (GetMetricsHistory w.svc c) metrics
        else GetMetricsHistory w.svc c := by
  have key := collectMetricsStep_metricsHistory env w cluster
  cases hr : env.collect w.collected cluster.Name with
  | error err =>
    rw [hr] at key
    simp only [GetMetricsHistory, key]
  | ok metrics =>
    rw [hr] at key
    by_cases hc : cluster.Name = c
    · subst hc
      simp only [GetMetricsHistory, key, mapGet_mapSet_same, if_true]
    · have hc' : c ≠ cluster.Name := fun h => hc h.symm
      simp only [GetMetricsHistory, key, mapGet_mapSet_ne _ _ hc', hc, if_false]

theorem HistoryBounded_of_metricsHistory_eq {w w' : World}
    (h : w'.svc.metricsHistory = w.svc.metricsHistory) (hb : HistoryBounded w) :
    HistoryBounded w' := by
  intro c
  have := hb c
  simpa [GetMetricsHistory, h] using this

theorem HistoryBounded_collectMetricsStep (env : Env) (w : World) (cluster : ClusterConfig)
    (hb : HistoryBounded w) : HistoryBounded (collectMetricsStep env w cluster) := by
  intro c
  rw [GetMetricsHistory_collectMetricsStep]
  cases env.collect w.collected cluster.Name with
  | error err => exact hb c
  | ok metrics =>
    by_cases hc : cluster.Name = c
    · simp only [hc, if_true]
      exact appendBounded_length_le _ _ (hb c)
    · simp only [hc, if_false]
      exact hb c

theorem HistoryBounded_foldl_collectMetricsStep (env : Env) (clusters : List ClusterConfig)
    (w : World) (hb : HistoryBounded w) :
    HistoryBounded (clusters.foldl (collectMetricsStep env) w) := by
  induction clusters generalizing w with
  | nil => exact hb
  | cons cluster rest ih =>
    rw [List.foldl_cons]
    exact ih _ (HistoryBounded_collectMetricsStep env w cluster hb)

theorem HistoryBounded_step (env : Env) (w : World) (op : Op) (hb : HistoryBounded w) :
    HistoryBounded (step env w op) := by
  cases op with
  | SetDingTalkClient client => exact HistoryBounded_of_metricsHistory_eq rfl hb
  | SetFeishuClient client => exact HistoryBounded_of_metricsHistory_eq rfl hb
  | collectMetrics => exact HistoryBounded_foldl_collectMetricsStep env _ w hb
  | sendCharts order =>
    exact HistoryBounded_of_metricsHistory_eq (by simp [step]) hb
  | checkAlerts order =>
    exact HistoryBounded_of_metricsHistory_eq (by simp [step]) hb
  | createAlert clusterName alertType level message =>
    exact HistoryBounded_of_metricsHistory_eq (by simp [step]) hb
  | ResolveAlert alertID =>
    exact HistoryBounded_of_metricsHistory_eq (by simp [step]) hb

theorem HistoryBounded_run (env : Env) (ops : List Op) (w : World) (hb : HistoryBounded w) :
    HistoryBounded (run env w ops) := by
  unfold run
  induction ops generalizing w with
  | nil => exact hb
  | cons op rest ih =>
    rw [List.foldl_cons]
    exact ih _ (HistoryBounded_step env w op hb)

theorem HistoryBounded_init (k8sManager : Manager) : HistoryBounded (World.init k8sManager) := by
  intro c
  simp [GetMetricsHistory, World.init, NewService, mapGet]

/-- C1. History bound.  Start from a freshly created service, let it perform
any sequence of operations (collection ticks among them), and then any further
sequence of appends of the loop of `collectMetrics` (a tick observed part-way):
the history of every cluster `c` then holds at most 100 samples. -/
theorem history_length_le_100 (env : Env) (k8sManager : Manager) (ops : List Op)
    (clusters : List ClusterConfig) (c : String) :
    (GetMetricsHistory
      (clusters.foldl (collectMetricsStep env) (run env (World.init k8sManager) ops)).svc
      c).length ≤ 100 :=
  HistoryBounded_foldl_collectMetricsStep env clusters _
    (HistoryBounded_run env ops _ (HistoryBounded_init k8sManager)) c

theorem GetMetricsHistory_foldl_collectMetricsStep (env : Env) (c : String)
    (clusters : List ClusterConfig) (w : World) (xs : List ClusterMetrics)
    (h : GetMetricsHistory w.svc c = lastN 100 xs) :
    GetMetricsHistory (clusters.foldl (collectMetricsStep env) w).svc c =
      lastN 100 (xs ++ samplesFor env c w.collected clusters) := by
  induction clusters generalizing w xs with
  | nil => simpa [samplesFor] using h
  | cons cluster rest ih =>
    rw [List.foldl_cons]
    have hstep := GetMetricsHistory_collectMetricsStep env w cluster c
    cases hr : env.collect w.collected cluster.Name with
    | error err =>
      rw [hr] at hstep
      have := ih (collectMetricsStep env w cluster) xs (by rw [hstep]; exact h)
      simpa [samplesFor, hr] using this
    | ok metrics =>
      rw [hr] at hstep
      by_cases hc : cluster.Name = c
      · simp only [hc, if_true] at hstep
        have := ih (collectMetricsStep env w cluster) (xs ++ [metrics])
          (by rw [hstep, h, appendBounded_lastN])
        rw [hc] at hr
        simpa [samplesFor, hr, hc] using this
      · simp only [hc, if_false] at hstep
        have := ih (collectMetricsStep env w cluster) xs (by rw [hstep]; exact h)
        simpa [samplesFor, hr, hc] using this

/-- C2. FIFO history.  Run the loop of `collectMetrics` over any list of
clusters (any number of ticks, any sampler results) from a fresh service and
let `xs` be the samples delivered for cluster `c`, in order, `n` of them.  Then
`GetMetricsHistory c` is `xs` without its first `n - min n 100` elements, that
is the last `min n 100` samples in append order; so it is a sublist of `xs`
(samples still present keep their order).  When `n = 105` the snapshot has
length 100, it is `xs` without its first 5 elements, and its last element is
the 105th sample. -/
theorem history_is_last_100_appended (env : Env) (k8sManager : Manager)
    (clusters : List ClusterConfig) (c : String) :
    let xs := samplesFor env c 0 clusters
    let snapshot :=
      GetMetricsHistory (clusters.foldl (collectMetricsStep env) (World.init k8sManager)).svc c
    snapshot = xs.drop (xs.length - min xs.length 100) ∧
    snapshot.length = min xs.length 100 ∧
    snapshot.Sublist xs ∧
    (xs.length = 105 →
      snapshot.length = 100 ∧ snapshot = xs.drop 5 ∧ snapshot.getLast? = xs.get? 104) := by
  intro xs snapshot
  have key : snapshot = xs.drop (xs.length - 100) := by
    have := GetMetricsHistory_foldl_collectMetricsStep env c clusters (World.init k8sManager) []
      (by simp [GetMetricsHistory, World.init, NewService, mapGet, lastN])
    simpa [lastN, World.init] using this
  have hsub : xs.length - min xs.length 100 = xs.length - 100 := by omega
  refine ⟨by rw [hsub]; exact key, ?_, ?_, ?_⟩
  · rw [key, List.length_drop]
    omega
  · rw [key]
    exact List.drop_sublist _ _
  · intro hn
    have h5 : snapshot = xs.drop 5 := by rw [key, hn]
    refine ⟨?_, h5, ?_⟩
    · rw [h5, List.length_drop, hn]
    · rw [h5, List.getLast?_drop, if_neg (by omega), List.getLast?_eq_getElem?, hn]
      simp [List.get?_eq_getElem?]

/-- C2 at a concrete input: 105 samples for cluster `a`. -/
theorem history_is_last_100_appended_witness :
    (samplesFor frozenEnv "a" 0 (List.replicate 105 ⟨"a", "", ""⟩)).length = 105 ∧
    (GetMetricsHistory ((List.replicate 105 (⟨"a", "", ""⟩ : ClusterConfig)).foldl
      (collectMetricsStep frozenEnv) (World.init twoClusters)).svc "a").getLast? =
      (samplesFor frozenEnv "a" 0 (List.replicate 105 ⟨"a", "", ""⟩)).get? 104 :=
  ⟨by decide,
    ((history_is_last_100_appended frozenEnv twoClusters
      (List.replicate 105 ⟨"a", "", ""⟩) "a").2.2.2 (by decide)).2.2⟩

/-! ## The alert store -/

theorem mapSet_of_mapGet_none {α : Type} {k : String} (v : α) {m : List (String × α)}
    (h : mapGet k m = none) : mapSet k v m = m ++ [(k, v)] := by
  induction m with
  | nil => rfl
  | cons e rest ih =>
    obtain ⟨k₀, v₀⟩ := e
    by_cases h₀ : k₀ = k
    · simp [mapGet, h₀] at h
    · simp only [mapGet, h₀, if_false] at h
      simp [mapSet, h₀, ih h]

theorem mapKeys_mapSet_of_mapGet_some {α : Type} {k : String} {a : α} (v : α)
    {m : List (String × α)} (h : mapGet k m = some a) : mapKeys (mapSet k v m) = mapKeys m := by
  rw [mapKeys_mapSet, if_pos]
  by_contra hk
  rw [(mapGet_eq_none_iff k m).mpr hk] at h
  cases h

theorem map_mapSet_of_mapGet_some {α β : Type} (f : α → β) {k : String} {a : α} (v : α)
    {m : List (String × α)} (h : mapGet k m = some a) (hf : f v = f a) :
    (mapSet k v m).map (fun e => f e.2) = m.map (fun e => f e.2) := by
  induction m with
  | nil => simp [mapGet] at h
  | cons e rest ih =>
    obtain ⟨k₀, v₀⟩ := e
    by_cases h₀ : k₀ = k
    · simp only [mapGet, h₀, if_true, Option.some.injEq] at h
      simp [mapSet, h₀, hf, h]
    · simp only [mapGet, h₀, if_false] at h
      simp [mapSet, h₀, ih h]

theorem AlertsKeyed_mapSet {k : String} {v : Alert} {m : List (String × Alert)}
    (hv : v.ID = k) (hm : AlertsKeyed m) : AlertsKeyed (mapSet k v m) := by
  intro e he
  rcases mem_mapSet he with h | h
  · rw [h]
    exact hv
  · exact hm e h

/-- In a well-formed store keyed by id, the alerts with a given id are exactly
the alert stored under that id. -/
theorem filter_ID_eq_of_mapGet {m : List (String × Alert)} {id : String} {a : Alert}
    (wf : MapWF m) (hk : AlertsKeyed m) (h : mapGet id m = some a) :
    (m.map Prod.snd).filter (fun x => decide (x.ID = id)) = [a] := by
  induction m with
  | nil => simp [mapGet] at h
  | cons e rest ih =>
    obtain ⟨k₀, v₀⟩ := e
    have hk₀ : v₀.ID = k₀ := hk (k₀, v₀) (List.mem_cons_self _ _)
    have hkrest : AlertsKeyed rest := fun e he => hk e (List.mem_cons_of_mem _ he)
    have wf' := wf
    simp only [MapWF, mapKeys, List.map_cons, List.nodup_cons] at wf'
    by_cases h₀ : k₀ = id
    · simp only [mapGet, h₀, if_true, Option.some.injEq] at h
      subst h
      have hnone : ∀ x ∈ rest.map Prod.snd, ¬ (decide (x.ID = id) = true) := by
        intro x hx
        simp only [List.mem_map] at hx
        obtain ⟨e, he, rfl⟩ := hx
        simp only [decide_eq_true_eq]
        intro hid
        apply wf'.1
        rw [h₀, ← hid, hkrest e he]
        exact List.mem_map_of_mem _ he
      have hf : List.filter (fun x => decide (x.ID = id)) (rest.map Prod.snd) = [] :=
        List.filter_eq_nil_iff.mpr hnone
      simp [List.filter_cons, hk₀, h₀, hf]
    · simp only [mapGet, h₀, if_false] at h
      have := ih wf'.2 hkrest h
      simp [List.filter_cons, hk₀, h₀, this]

theorem createAlert_of_existing (env : Env) (clusterName alertType level message : String)
    (w : World) (a : Alert)
    (h : mapGet (alertID clusterName alertType (env.now w.clock)) w.svc.alerts = some a) :
    createAlert env clusterName alertType level message w = { w with clock := w.clock + 1 } := by
  unfold createAlert
  simp [h]

theorem createAlert_of_fresh (env : Env) (clusterName alertType level message : String)
    (w : World)
    (h : mapGet (alertID clusterName alertType (env.now w.clock)) w.svc.alerts = none) :
    createAlert env clusterName alertType level message w =
      sendAlert env (newAlert clusterName alertType level message (env.now w.clock)
          (env.now (w.clock + 1)))
        { w with
          clock := w.clock + 2
          svc := { w.svc with
            alerts := mapSet (alertID clusterName alertType (env.now w.clock))
              (newAlert clusterName alertType level message (env.now w.clock)
                (env.now (w.clock + 1))) w.svc.alerts } } := by
  unfold createAlert
  simp [h, newAlert]

theorem MapWF_createAlert (env : Env) (clusterName alertType level message : String)
    (w : World) (wf : MapWF w.svc.alerts) :
    MapWF (createAlert env clusterName alertType level message w).svc.alerts := by
  rw [createAlert_alerts]
  split
  · exact wf
  · exact MapWF_mapSet _ _ wf

theorem AlertsKeyed_createAlert (env : Env) (clusterName alertType level message : String)
    (w : World) (hk : AlertsKeyed w.svc.alerts) :
    AlertsKeyed (createAlert env clusterName alertType level message w).svc.alerts := by
  rw [createAlert_alerts]
  split
  · exact hk
  · exact AlertsKeyed_mapSet rfl hk

/-- After `createAlert` the store holds an alert under the id it computed. -/
theorem createAlert_mapGet_id (env : Env) (clusterName alertType level message : String)
    (w : World) :
    ∃ a, mapGet (alertID clusterName alertType (env.now w.clock))
      (createAlert env clusterName alertType level message w).svc.alerts = some a := by
  rw [createAlert_alerts]
  cases h : mapGet (alertID clusterName alertType (env.now w.clock)) w.svc.alerts with
  | some a => exact ⟨a, h⟩
  | none => exact ⟨_, mapGet_mapSet_same _ _ _⟩

/-- C3. Alert dedup.  (1) If the store already holds an alert under the id that
`createAlert` computes from its cluster, type and clock reading, the call
changes nothing but the clock count: the service (so the whole store, with the
existing alert's level, message, createdAt and resolved flag) is as before and
no notifier is called and nothing is printed.  (2) Hence, in a store with one
entry per key and keyed by id, after two creates with the same cluster and type
whose clock readings format to the same second, the second create has changed
neither the store nor the notifier calls, and `GetAlerts` holds exactly one
alert with that id. -/
theorem createAlert_dedup (env : Env) (clusterName alertType level message : String)
    (w : World) :
    (∀ a, mapGet (alertID clusterName alertType (env.now w.clock)) w.svc.alerts = some a →
      (createAlert env clusterName alertType level message w).svc = w.svc ∧
      (createAlert env clusterName alertType level message w).calls = w.calls ∧
      (createAlert env clusterName alertType level message w).out = w.out ∧
      mapGet (alertID clusterName alertType (env.now w.clock))
        (createAlert env clusterName alertType level message w).svc.alerts = some a) ∧
    (∀ level₂ message₂, MapWF w.svc.alerts → AlertsKeyed w.svc.alerts →
      (env.now (createAlert env clusterName alertType level message w).clock).stamp =
        (env.now w.clock).stamp →
      (createAlert env clusterName alertType level₂ message₂
        (createAlert env clusterName alertType level message w)).svc =
        (createAlert env clusterName alertType level message w).svc ∧
      (createAlert env clusterName alertType level₂ message₂
        (createAlert env clusterName alertType level message w)).calls =
        (createAlert env clusterName alertType level message w).calls ∧
      ((GetAlerts (createAlert env clusterName alertType level₂ message₂
        (createAlert env clusterName alertType level message w)).svc).filter
          (fun x => decide (x.ID = alertID clusterName alertType (env.now w.clock)))).length
        = 1) := by
  constructor
  · intro a h
    rw [createAlert_of_existing env clusterName alertType level message w a h]
    exact ⟨rfl, rfl, rfl, h⟩
  · intro level₂ message₂ wf hk hstamp
    obtain ⟨a, ha⟩ := createAlert_mapGet_id env clusterName alertType level message w
    have hid : alertID clusterName alertType
        (env.now (createAlert env clusterName alertType level message w).clock) =
        alertID clusterName alertType (env.now w.clock) := by
      simp only [alertID, hstamp]
    have h₂ := createAlert_of_existing env clusterName alertType level₂ message₂
      (createAlert env clusterName alertType level message w) a (by rw [hid]; exact ha)
    rw [h₂]
    refine ⟨rfl, rfl, ?_⟩
    have hf := filter_ID_eq_of_mapGet (MapWF_createAlert env clusterName alertType level message w wf)
      (AlertsKeyed_createAlert env clusterName alertType level message w hk) ha
    simp only [GetAlerts]
    rw [hf]
    rfl

/-- C3 at a concrete input: a second create in the same second for the alert of
`oneAlertWorld`, with another level and message. -/
theorem createAlert_dedup_witness :
    (createAlert frozenEnv "a" "node" "critical" "2 nodes are not ready" oneAlertWorld).svc =
      oneAlertWorld.svc ∧
    (createAlert frozenEnv "a" "node" "critical" "2 nodes are not ready" oneAlertWorld).calls =
      oneAlertWorld.calls ∧
    ((GetAlerts (createAlert frozenEnv "a" "node" "critical" "3 nodes are not ready"
      (createAlert frozenEnv "a" "node" "critical" "2 nodes are not ready" oneAlertWorld)).svc).filter
        (fun x => decide (x.ID = "a-node-20240102030405"))).length = 1 :=
  ⟨((createAlert_dedup frozenEnv "a" "node" "critical" "2 nodes are not ready" oneAlertWorld).1
      (newAlert "a" "node" "warning" "1 nodes are not ready" ⟨2024, 1, 2, 3, 4, 5, 0⟩
        ⟨2024, 1, 2, 3, 4, 5, 0⟩) (by decide)).1,
   ((createAlert_dedup frozenEnv "a" "node" "critical" "2 nodes are not ready" oneAlertWorld).1
      (newAlert "a" "node" "warning" "1 nodes are not ready" ⟨2024, 1, 2, 3, 4, 5, 0⟩
        ⟨2024, 1, 2, 3, 4, 5, 0⟩) (by decide)).2.1,
   ((createAlert_dedup frozenEnv "a" "node" "critical" "2 nodes are not ready" oneAlertWorld).2
      "critical" "3 nodes are not ready" (by unfold MapWF mapKeys; decide)
      (by unfold AlertsKeyed; decide) (by decide)).2.2⟩

/-! ## Properties kept by every operation -/

/-- What `createAlert` keeps, one iteration of `checkAlerts` keeps. -/
theorem checkAlertsStep_keeps (env : Env) (P : World → Prop)
    (hP : ∀ w clusterName alertType level message,
      P w → P (createAlert env clusterName alertType level message w))
    (w : World) (entry : String × List ClusterMetrics) (h : P w) :
    P (checkAlertsStep env w entry) := by
  unfold checkAlertsStep
  cases entry.2.getLast? with
  | none => exact h
  | some latest =>
    simp only
    have h₁ : P (if latest.Nodes.NotReady > 0
        then createAlert env entry.1 "node" "warning"
          (formatInt latest.Nodes.NotReady ++ " nodes are not ready") w
        else w) := by
      split
      · exact hP _ _ _ _ _ h
      · exact h
    have h₂ : P (if latest.Pods.Failed > 0
        then createAlert env entry.1 "pod" "critical"
          (formatInt latest.Pods.Failed ++ " pods have failed")
          (if latest.Nodes.NotReady > 0
            then createAlert env entry.1 "node" "warning"
              (formatInt latest.Nodes.NotReady ++ " nodes are not ready") w
            else w)
        else (if latest.Nodes.NotReady > 0
            then createAlert env entry.1 "node" "warning"
              (formatInt latest.Nodes.NotReady ++ " nodes are not ready") w
            else w)) := by
      split
      · exact hP _ _ _ _ _ h₁
      · exact h₁
    split
    · exact hP _ _ _ _ _ h₂
    · exact h₂

/-- What `createAlert` keeps, a tick of `checkAlerts` keeps. -/
theorem checkAlerts_keeps (env : Env) (P : World → Prop)
    (hP : ∀ w clusterName alertType level message,
      P w → P (createAlert env clusterName alertType level message w))
    (order : List (String × List ClusterMetrics)) (w : World) (h : P w) :
    P (checkAlerts env order w) := by
  unfold checkAlerts
  induction order generalizing w with
  | nil => exact h
  | cons e rest ih =>
    rw [List.foldl_cons]
    exact ih _ (checkAlertsStep_keeps env P hP w e h)

@[simp]
theorem collectMetrics_alerts (env : Env) (w : World) :
    (collectMetrics env w).svc.alerts = w.svc.alerts := by
  unfold collectMetrics
  generalize w.svc.k8sManager.GetClusters = clusters
  induction clusters generalizing w with
  | nil => rfl
  | cons c rest ih => rw [List.foldl_cons, ih, collectMetricsStep_alerts]

/-- A property of the alert store that `createAlert` and `ResolveAlert` keep
is kept by every operation. -/
theorem step_keeps_alerts_property (env : Env) (P : List (String × Alert) → Prop)
    (hcreate : ∀ w clusterName alertType level message,
      P w.svc.alerts → P (createAlert env clusterName alertType level message w).svc.alerts)
    (hresolve : ∀ w id, P w.svc.alerts → P (ResolveAlert env id w).2.svc.alerts)
    (w : World) (op : Op) (h : P w.svc.alerts) : P (step env w op).svc.alerts := by
  cases op with
  | SetDingTalkClient client => exact h
  | SetFeishuClient client => exact h
  | collectMetrics =>
    simp only [step, collectMetrics_alerts]
    exact h
  | sendCharts order =>
    simp only [step, sendCharts_svc]
    exact h
  | checkAlerts order =>
    exact checkAlerts_keeps env (fun w => P w.svc.alerts) hcreate order w h
  | createAlert clusterName alertType level message => exact hcreate _ _ _ _ _ h
  | ResolveAlert id => exact hresolve _ _ h

/-- A property of the alert store that `createAlert` and `ResolveAlert` keep
is kept by every sequence of operations. -/
theorem run_keeps_alerts_property (env : Env) (P : List (String × Alert) → Prop)
    (hcreate : ∀ w clusterName alertType level message,
      P w.svc.alerts → P (createAlert env clusterName alertType level message w).svc.alerts)
    (hresolve : ∀ w id, P w.svc.alerts → P (ResolveAlert env id w).2.svc.alerts)
    (ops : List Op) (w : World) (h : P w.svc.alerts) : P (run env w ops).svc.alerts := by
  unfold run
  induction ops generalizing w with
  | nil => exact h
  | cons op rest ih =>
    rw [List.foldl_cons]
    exact ih _ (step_keeps_alerts_property env P hcreate hresolve w op h)

theorem Reachable.exists_run {env : Env} {k8sManager : Manager} {w : World}
    (h : Reachable env k8sManager w) : ∃ ops, w = run env (World.init k8sManager) ops := by
  induction h with
  | init => exact ⟨[], rfl⟩
  | step w op _ _ ih =>
    obtain ⟨ops, rfl⟩ := ih
    exact ⟨ops ++ [op], by simp [run, List.foldl_append]⟩

theorem createAlert_keeps_resolved (env : Env) (clusterName alertType level message : String)
    (w : World) (id : String) (a : Alert) (h : mapGet id w.svc.alerts = some a) :
    mapGet id (createAlert env clusterName alertType level message w).svc.alerts = some a := by
  rw [createAlert_alerts]
  cases hg : mapGet (alertID clusterName alertType (env.now w.clock)) w.svc.alerts with
  | some _ => exact h
  | none =>
    have hne : id ≠ alertID clusterName alertType (env.now w.clock) := by
      intro heq
      rw [heq, hg] at h
      cases h
    simp only [mapGet_mapSet_ne _ _ hne]
    exact h

theorem ResolveAlert_keeps_resolved (env : Env) (id' : String) (w : World) (id : String)
    (a : Alert) (hr : a.Resolved = true) (h : mapGet id w.svc.alerts = some a) :
    mapGet id (ResolveAlert env id' w).2.svc.alerts = some a := by
  rw [ResolveAlert_alerts]
  cases hg : mapGet id' w.svc.alerts with
  | none => exact h
  | some a' =>
    by_cases hid : id = id'
    · subst hid
      rw [hg] at h
      cases h
      simp only [mapGet_mapSet_same]
      cases a
      simp only at hr
      simp [hr]
    · simp only [mapGet_mapSet_ne _ _ hid]
      exact h

/-- C4. Alert monotonicity.  In any state of the service, if the store holds
under `id` an alert `a` with `resolved = true`, then after any sequence of
operations (`createAlert` with any arguments at any clock reading,
`ResolveAlert` of any id, `checkAlerts`, `collectMetrics`, `sendCharts`, the
two setters) the store still holds `a` under `id`, unchanged, so its resolved
flag is still true. -/
theorem resolved_stays_resolved (env : Env) (w : World) (ops : List Op) (id : String)
    (a : Alert) (h : mapGet id w.svc.alerts = some a) (hr : a.Resolved = true) :
    mapGet id (run env w ops).svc.alerts = some a ∧
    ∃ a', mapGet id (run env w ops).svc.alerts = some a' ∧ a'.Resolved = true := by
  have key : mapGet id (run env w ops).svc.alerts = some a :=
    run_keeps_alerts_property env (fun alerts => mapGet id alerts = some a)
      (fun w c t l m hw => createAlert_keeps_resolved env c t l m w id a hw)
      (fun w id' hw => ResolveAlert_keeps_resolved env id' w id a hr hw) ops w h
  exact ⟨key, a, key, hr⟩

/-- C4 at a concrete input: the alert of `oneAlertWorld`, once resolved, goes
through a create with the same id, a tick of each loop and a second resolve. -/
theorem resolved_stays_resolved_witness :
    ∃ a', mapGet "a-node-20240102030405"
      (run frozenEnv (ResolveAlert frozenEnv "a-node-20240102030405" oneAlertWorld).2
        [.createAlert "a" "node" "critical" "5 nodes are not ready", .collectMetrics,
          .checkAlerts [("a", [sampleWith "a" 3 2 1 11])], .sendCharts [],
          .ResolveAlert "a-node-20240102030405"]).svc.alerts = some a' ∧
      a'.Resolved = true :=
  (resolved_stays_resolved frozenEnv
    (ResolveAlert frozenEnv "a-node-20240102030405" oneAlertWorld).2
    [.createAlert "a" "node" "critical" "5 nodes are not ready", .collectMetrics,
      .checkAlerts [("a", [sampleWith "a" 3 2 1 11])], .sendCharts [],
      .ResolveAlert "a-node-20240102030405"]
    "a-node-20240102030405"
    { newAlert "a" "node" "warning" "1 nodes are not ready" ⟨2024, 1, 2, 3, 4, 5, 0⟩
        ⟨2024, 1, 2, 3, 4, 5, 0⟩ with Resolved := true }
    (by decide) (by decide)).2

/-! ## Creating and resolving alerts -/

theorem sendAlert_calls_of_both (env : Env) (alert : Alert) (w : World)
    (hd : w.svc.dingtalkClient = true) (hf : w.svc.feishuClient = true) :
    (sendAlert env alert w).calls =
      w.calls ++ [.message .dingtalk (alertMessage alert),
        .message .feishu (alertMessage alert)] := by
  unfold sendAlert
  simp [hd, hf]

theorem createAlert_fresh_svc (env : Env) (clusterName alertType level message : String)
    (w : World)
    (h : mapGet (alertID clusterName alertType (env.now w.clock)) w.svc.alerts = none) :
    (createAlert env clusterName alertType level message w).svc =
      { w.svc with
        alerts := mapSet (alertID clusterName alertType (env.now w.clock))
          (newAlert clusterName alertType level message (env.now w.clock)
            (env.now (w.clock + 1))) w.svc.alerts } := by
  rw [createAlert_of_fresh env clusterName alertType level message w h, sendAlert_svc]

theorem createAlert_fresh_calls (env : Env) (clusterName alertType level message : String)
    (w : World) (hd : w.svc.dingtalkClient = true) (hf : w.svc.feishuClient = true)
    (h : mapGet (alertID clusterName alertType (env.now w.clock)) w.svc.alerts = none) :
    (createAlert env clusterName alertType level message w).calls =
      w.calls ++
        [.message .dingtalk (alertMessage (newAlert clusterName alertType level message
            (env.now w.clock) (env.now (w.clock + 1)))),
          .message .feishu (alertMessage (newAlert clusterName alertType level message
            (env.now w.clock) (env.now (w.clock + 1))))] := by
  rw [createAlert_of_fresh env clusterName alertType level message w h]
  exact sendAlert_calls_of_both env _ _ hd hf

theorem ResolveAlert_known_result (env : Env) (id : String) (w : World) (a : Alert)
    (h : mapGet id w.svc.alerts = some a) : (ResolveAlert env id w).1 = none := by
  unfold ResolveAlert
  simp [h]

theorem ResolveAlert_known_svc (env : Env) (id : String) (w : World) (a : Alert)
    (h : mapGet id w.svc.alerts = some a) :
    (ResolveAlert env id w).2.svc =
      { w.svc with alerts := mapSet id { a with Resolved := true } w.svc.alerts } := by
  unfold ResolveAlert
  by_cases hd : w.svc.dingtalkClient = true <;> by_cases hf : w.svc.feishuClient = true <;>
    simp [h, hd, hf]

theorem ResolveAlert_known_calls (env : Env) (id : String) (w : World) (a : Alert)
    (hd : w.svc.dingtalkClient = true) (hf : w.svc.feishuClient = true)
    (h : mapGet id w.svc.alerts = some a) :
    (ResolveAlert env id w).2.calls =
      w.calls ++
        [.message .dingtalk (resolvedMessage { a with Resolved := true } (env.now w.clock)),
          .message .feishu (resolvedMessage { a with Resolved := true } (env.now w.clock))] := by
  unfold ResolveAlert
  simp [h, hd, hf]

/-- C5. Notifier isolation.  With both notifiers configured: (1) a
`createAlert` on a fresh id calls the DingTalk notifier and then the Feishu
notifier with the alert's message, stores the alert, leaves the histories
alone, and the alert is in `GetAlerts`; (2) a `ResolveAlert` on an existing id
returns no error, calls the DingTalk notifier and then the Feishu notifier with
the resolution message, and stores the alert with `resolved = true`.  In both
cases the calls made and the resulting service are the same whatever the
notifier calls return (`send'` is any other assignment of results to them). -/
theorem notifier_isolation (env : Env) (w : World) (hd : w.svc.dingtalkClient = true)
    (hf : w.svc.feishuClient = true) :
    (∀ clusterName alertType level message,
      mapGet (alertID clusterName alertType (env.now w.clock)) w.svc.alerts = none →
      (createAlert env clusterName alertType level message w).calls =
        w.calls ++
          [.message .dingtalk (alertMessage (newAlert clusterName alertType level message
              (env.now w.clock) (env.now (w.clock + 1)))),
            .message .feishu (alertMessage (newAlert clusterName alertType level message
              (env.now w.clock) (env.now (w.clock + 1))))] ∧
      (createAlert env clusterName alertType level message w).svc.alerts =
        mapSet (alertID clusterName alertType (env.now w.clock))
          (newAlert clusterName alertType level message (env.now w.clock)
            (env.now (w.clock + 1))) w.svc.alerts ∧
      (createAlert env clusterName alertType level message w).svc.metricsHistory =
        w.svc.metricsHistory ∧
      newAlert clusterName alertType level message (env.now w.clock) (env.now (w.clock + 1)) ∈
        GetAlerts (createAlert env clusterName alertType level message w).svc ∧
      ∀ send' : Nat → Call → Option String,
        (createAlert { env with send := send' } clusterName alertType level message w).svc =
          (createAlert env clusterName alertType level message w).svc ∧
        (createAlert { env with send := send' } clusterName alertType level message w).calls =
          (createAlert env clusterName alertType level message w).calls) ∧
    (∀ id a, mapGet id w.svc.alerts = some a →
      (ResolveAlert env id w).1 = none ∧
      (ResolveAlert env id w).2.calls =
        w.calls ++
          [.message .dingtalk (resolvedMessage { a with Resolved := true } (env.now w.clock)),
            .message .feishu (resolvedMessage { a with Resolved := true } (env.now w.clock))] ∧
      (ResolveAlert env id w).2.svc.alerts =
        mapSet id { a with Resolved := true } w.svc.alerts ∧
      (ResolveAlert env id w).2.svc.metricsHistory = w.svc.metricsHistory ∧
      ∀ send' : Nat → Call → Option String,
        (ResolveAlert { env with send := send' } id w).1 = (ResolveAlert env id w).1 ∧
        (ResolveAlert { env with send := send' } id w).2.svc = (ResolveAlert env id w).2.svc ∧
        (ResolveAlert { env with send := send' } id w).2.calls =
          (ResolveAlert env id w).2.calls) := by
  constructor
  · intro clusterName alertType level message h
    have hsvc := createAlert_fresh_svc env clusterName alertType level message w h
    have hcalls := createAlert_fresh_calls env clusterName alertType level message w hd hf h
    refine ⟨hcalls, by rw [hsvc], by rw [hsvc], ?_, ?_⟩
    · rw [hsvc]
      simp only [GetAlerts, List.mem_map]
      exact ⟨(_, _), mem_of_mapGet (mapGet_mapSet_same _ _ _), rfl⟩
    · intro send'
      have hsvc' := createAlert_fresh_svc { env with send := send' } clusterName alertType level
        message w h
      have hcalls' := createAlert_fresh_calls { env with send := send' } clusterName alertType
        level message w hd hf h
      exact ⟨by rw [hsvc, hsvc'], by rw [hcalls, hcalls']⟩
  · intro id a h
    have hsvc := ResolveAlert_known_svc env id w a h
    have hcalls := ResolveAlert_known_calls env id w a hd hf h
    have hres := ResolveAlert_known_result env id w a h
    refine ⟨hres, hcalls, by rw [hsvc], by rw [hsvc], ?_⟩
    intro send'
    have hsvc' := ResolveAlert_known_svc { env with send := send' } id w a h
    have hcalls' := ResolveAlert_known_calls { env with send := send' } id w a hd hf h
    have hres' := ResolveAlert_known_result { env with send := send' } id w a h
    exact ⟨by rw [hres, hres'], by rw [hsvc, hsvc'], by rw [hcalls, hcalls']⟩

/-- C5 at a concrete input: both notifiers fail on every call, and the alert is
still created and listed after both were called. -/
theorem notifier_isolation_witness :
    (createAlert frozenEnv "b" "pod" "critical" "3 pods have failed" oneAlertWorld).calls =
      oneAlertWorld.calls ++
        [.message .dingtalk (alertMessage (newAlert "b" "pod" "critical" "3 pods have failed"
            ⟨2024, 1, 2, 3, 4, 5, 0⟩ ⟨2024, 1, 2, 3, 4, 5, 0⟩)),
          .message .feishu (alertMessage (newAlert "b" "pod" "critical" "3 pods have failed"
            ⟨2024, 1, 2, 3, 4, 5, 0⟩ ⟨2024, 1, 2, 3, 4, 5, 0⟩))] ∧
    newAlert "b" "pod" "critical" "3 pods have failed" ⟨2024, 1, 2, 3, 4, 5, 0⟩
        ⟨2024, 1, 2, 3, 4, 5, 0⟩ ∈
      GetAlerts (createAlert frozenEnv "b" "pod" "critical" "3 pods have failed"
        oneAlertWorld).svc :=
  ⟨((notifier_isolation frozenEnv oneAlertWorld (by decide) (by decide)).1
      "b" "pod" "critical" "3 pods have failed" (by decide)).1,
   ((notifier_isolation frozenEnv oneAlertWorld (by decide) (by decide)).1
      "b" "pod" "critical" "3 pods have failed" (by decide)).2.2.2.1⟩

/-- C6. Resolving an unknown id.  If the store holds no alert under `id`,
`ResolveAlert id` returns the error `alert not found: id` and leaves the whole
world as it was: the alert store is unchanged and no notifier is called. -/
theorem ResolveAlert_unknown (env : Env) (id : String) (w : World)
    (h : mapGet id w.svc.alerts = none) :
    ResolveAlert env id w = (some ("alert not found: " ++ id), w) ∧
    (ResolveAlert env id w).1 ≠ none ∧
    (ResolveAlert env id w).2.svc.alerts = w.svc.alerts ∧
    (ResolveAlert env id w).2.calls = w.calls := by
  have key : ResolveAlert env id w = (some ("alert not found: " ++ id), w) := by
    unfold ResolveAlert
    simp [h]
  rw [key]
  exact ⟨rfl, by simp, rfl, rfl⟩

/-- C6 at a concrete input: resolving `x` in `oneAlertWorld`. -/
theorem ResolveAlert_unknown_witness :
    ResolveAlert frozenEnv "x" oneAlertWorld = (some "alert not found: x", oneAlertWorld) :=
  (ResolveAlert_unknown frozenEnv "x" oneAlertWorld (by decide)).1

/-- C7. Resolving a known id.  If the store holds alert `a` under `id`,
`ResolveAlert id` returns no error; afterwards the store holds under `id` the
alert `a` with `resolved = true` and the same id, cluster, type, level, message
and createdAt; the entry of every other key is unchanged; and no alert is
removed or added: the keys of the store, the number of alerts in `GetAlerts`
and the list of their ids are the same as before. -/
theorem ResolveAlert_known (env : Env) (id : String) (w : World) (a : Alert)
    (h : mapGet id w.svc.alerts = some a) :
    (ResolveAlert env id w).1 = none ∧
    (∃ a', mapGet id (ResolveAlert env id w).2.svc.alerts = some a' ∧
      a'.Resolved = true ∧ a'.ID = a.ID ∧ a'.Cluster = a.Cluster ∧ a'.Type_ = a.Type_ ∧
      a'.Level = a.Level ∧ a'.Message = a.Message ∧ a'.CreatedAt = a.CreatedAt) ∧
    (∀ k, k ≠ id → mapGet k (ResolveAlert env id w).2.svc.alerts = mapGet k w.svc.alerts) ∧
    mapKeys (ResolveAlert env id w).2.svc.alerts = mapKeys w.svc.alerts ∧
    (GetAlerts (ResolveAlert env id w).2.svc).length = (GetAlerts w.svc).length ∧
    (GetAlerts (ResolveAlert env id w).2.svc).map (fun x => x.ID) =
      (GetAlerts w.svc).map (fun x => x.ID) := by
  have hsvc := ResolveAlert_known_svc env id w a h
  refine ⟨ResolveAlert_known_result env id w a h, ?_, ?_, ?_, ?_, ?_⟩
  · exact ⟨{ a with Resolved := true }, by rw [hsvc]; exact mapGet_mapSet_same _ _ _,
      rfl, rfl, rfl, rfl, rfl, rfl, rfl⟩
  · intro k hk
    rw [hsvc]
    exact mapGet_mapSet_ne _ _ hk
  · rw [hsvc]
    exact mapKeys_mapSet_of_mapGet_some _ h
  · have := congrArg List.length
      (map_mapSet_of_mapGet_some (fun x : Alert => x.ID) { a with Resolved := true } h rfl)
    rw [hsvc]
    simpa [GetAlerts] using this
  · have := map_mapSet_of_mapGet_some (fun x : Alert => x.ID) { a with Resolved := true } h rfl
    rw [hsvc]
    simpa [GetAlerts, List.map_map, Function.comp_def] using this

/-- C7 at a concrete input: resolving the alert of `oneAlertWorld`. -/
theorem ResolveAlert_known_witness :
    (ResolveAlert frozenEnv "a-node-20240102030405" oneAlertWorld).1 = none ∧
    mapKeys (ResolveAlert frozenEnv "a-node-20240102030405" oneAlertWorld).2.svc.alerts =
      mapKeys oneAlertWorld.svc.alerts :=
  ⟨(ResolveAlert_known frozenEnv "a-node-20240102030405" oneAlertWorld
      (newAlert "a" "node" "warning" "1 nodes are not ready" ⟨2024, 1, 2, 3, 4, 5, 0⟩
        ⟨2024, 1, 2, 3, 4, 5, 0⟩) (by decide)).1,
   (ResolveAlert_known frozenEnv "a-node-20240102030405" oneAlertWorld
      (newAlert "a" "node" "warning" "1 nodes are not ready" ⟨2024, 1, 2, 3, 4, 5, 0⟩
        ⟨2024, 1, 2, 3, 4, 5, 0⟩) (by decide)).2.2.2.1⟩

theorem MapWF_ResolveAlert (env : Env) (id : String) (w : World) (wf : MapWF w.svc.alerts) :
    MapWF (ResolveAlert env id w).2.svc.alerts := by
  rw [ResolveAlert_alerts]
  split
  · exact wf
  · exact MapWF_mapSet _ _ wf

theorem AlertsKeyed_ResolveAlert (env : Env) (id : String) (w : World)
    (hk : AlertsKeyed w.svc.alerts) : AlertsKeyed (ResolveAlert env id w).2.svc.alerts := by
  rw [ResolveAlert_alerts]
  split
  · exact hk
  · rename_i a ha
    exact AlertsKeyed_mapSet (hk (id, a) (mem_of_mapGet ha)) hk

/-- The alert store of a service that started fresh has one entry per key, and
every alert in it is stored under its own id. -/
theorem alerts_wellformed_run (env : Env) (k8sManager : Manager) (ops : List Op) :
    MapWF (run env (World.init k8sManager) ops).svc.alerts ∧
    AlertsKeyed (run env (World.init k8sManager) ops).svc.alerts :=
  run_keeps_alerts_property env (fun alerts => MapWF alerts ∧ AlertsKeyed alerts)
    (fun w c t l m hw =>
      ⟨MapWF_createAlert env c t l m w hw.1, AlertsKeyed_createAlert env c t l m w hw.2⟩)
    (fun w id hw => ⟨MapWF_ResolveAlert env id w hw.1, AlertsKeyed_ResolveAlert env id w hw.2⟩)
    ops (World.init k8sManager)
    ⟨by simp [MapWF, mapKeys, World.init, NewService],
     by simp [AlertsKeyed, World.init, NewService]⟩

/-- C8. Creating an alert.  If the store holds no alert under the id
`{cluster}-{type}-{clock reading as YYYYMMDDhhmmss}`, `createAlert` adds exactly
one entry, under that id: the store becomes the old store followed by that
entry, and `GetAlerts` the old list followed by the new alert.  The new alert's
id field is that id, its cluster, type, level and message are the arguments,
its createdAt is the second clock reading and its resolved flag is false.  The
entry of every other key is unchanged.  And in every reachable world the store
has one entry per key (ids are unique) and each alert's id field equals the key
it is stored under. -/
theorem createAlert_fresh (env : Env) (clusterName alertType level message : String)
    (w : World)
    (h : mapGet (alertID clusterName alertType (env.now w.clock)) w.svc.alerts = none) :
    (createAlert env clusterName alertType level message w).svc.alerts =
      w.svc.alerts ++
        [(clusterName ++ "-" ++ alertType ++ "-" ++ (env.now w.clock).stamp,
          { ID := clusterName ++ "-" ++ alertType ++ "-" ++ (env.now w.clock).stamp,
            Cluster := clusterName, Type_ := alertType, Level := level, Message := message,
            CreatedAt := env.now (w.clock + 1), Resolved := false })] ∧
    GetAlerts (createAlert env clusterName alertType level message w).svc =
      GetAlerts w.svc ++
        [{ ID := clusterName ++ "-" ++ alertType ++ "-" ++ (env.now w.clock).stamp,
           Cluster := clusterName, Type_ := alertType, Level := level, Message := message,
           CreatedAt := env.now (w.clock + 1), Resolved := false }] ∧
    mapGet (clusterName ++ "-" ++ alertType ++ "-" ++ (env.now w.clock).stamp)
        (createAlert env clusterName alertType level message w).svc.alerts =
      some { ID := clusterName ++ "-" ++ alertType ++ "-" ++ (env.now w.clock).stamp,
             Cluster := clusterName, Type_ := alertType, Level := level, Message := message,
             CreatedAt := env.now (w.clock + 1), Resolved := false } ∧
    (∀ k, k ≠ clusterName ++ "-" ++ alertType ++ "-" ++ (env.now w.clock).stamp →
      mapGet k (createAlert env clusterName alertType level message w).svc.alerts =
        mapGet k w.svc.alerts) ∧
    (∀ k8sManager w', Reachable env k8sManager w' →
      MapWF w'.svc.alerts ∧ ∀ k a, (k, a) ∈ w'.svc.alerts → a.ID = k) := by
  have hsvc := createAlert_fresh_svc env clusterName alertType level message w h
  have happ := mapSet_of_mapGet_none
    (newAlert clusterName alertType level message (env.now w.clock) (env.now (w.clock + 1))) h
  refine ⟨?_, ?_, ?_, ?_, ?_⟩
  · rw [hsvc]
    exact happ
  · rw [hsvc]
    simp only [GetAlerts, happ, List.map_append]
    rfl
  · rw [hsvc]
    exact mapGet_mapSet_same _ _ _
  · intro k hk
    rw [hsvc]
    exact mapGet_mapSet_ne _ _ hk
  · intro k8sManager w' hw'
    obtain ⟨ops, rfl⟩ := hw'.exists_run
    have := alerts_wellformed_run env k8sManager ops
    exact ⟨this.1, fun k a hka => this.2 (k, a) hka⟩

/-- C8 at a concrete input: a pod alert for cluster `b` created in
`oneAlertWorld`. -/
theorem createAlert_fresh_witness :
    GetAlerts (createAlert frozenEnv "b" "pod" "critical" "3 pods have failed"
      oneAlertWorld).svc =
      GetAlerts oneAlertWorld.svc ++
        [{ ID := "b-pod-20240102030405", Cluster := "b", Type_ := "pod", Level := "critical",
           Message := "3 pods have failed", CreatedAt := ⟨2024, 1, 2, 3, 4, 5, 0⟩,
           Resolved := false }] :=
  (createAlert_fresh frozenEnv "b" "pod" "critical" "3 pods have failed" oneAlertWorld
    (by decide)).2.1

/-! ## Alert ids determine cluster and type -/

theorem digitChar_ne_dash : ∀ d, d < 10 → Nat.digitChar d ≠ '-' := by decide

theorem toDigitsCore_no_dash (fuel n : Nat) (acc : List Char) (h : '-' ∉ acc) :
    '-' ∉ Nat.toDigitsCore 10 fuel n acc := by
  induction fuel generalizing n acc with
  | zero => simpa [Nat.toDigitsCore] using h
  | succ fuel ih =>
    have hd : '-' ∉ Nat.digitChar (n % 10) :: acc := by
      intro hmem
      rcases List.mem_cons.mp hmem with hm | hm
      · exact digitChar_ne_dash (n % 10) (Nat.mod_lt _ (by decide)) hm.symm
      · exact h hm
    unfold Nat.toDigitsCore
    simp only
    split
    · exact hd
    · exact ih _ _ hd

theorem zeroPad_no_dash (width n : Nat) : '-' ∉ zeroPad width n := by
  unfold zeroPad
  intro h
  rcases List.mem_append.mp h with h | h
  · exact absurd (List.eq_of_mem_replicate h) (by decide)
  · exact toDigitsCore_no_dash _ _ [] (List.not_mem_nil _) h

theorem stamp_no_dash (t : Time) : '-' ∉ t.stamp.data := by
  simp only [Time.stamp, List.mem_append, not_or]
  exact ⟨⟨⟨⟨⟨zeroPad_no_dash _ _, zeroPad_no_dash _ _⟩, zeroPad_no_dash _ _⟩,
    zeroPad_no_dash _ _⟩, zeroPad_no_dash _ _⟩, zeroPad_no_dash _ _⟩

/-- A text is split in one way only at its last dash. -/
theorem split_at_last_dash (l₁ l₂ s₁ s₂ : List Char) (h₁ : '-' ∉ s₁) (h₂ : '-' ∉ s₂)
    (h : l₁ ++ '-' :: s₁ = l₂ ++ '-' :: s₂) : l₁ = l₂ ∧ s₁ = s₂ := by
  induction l₁ generalizing l₂ with
  | nil =>
    cases l₂ with
    | nil =>
      simp only [List.nil_append, List.cons.injEq, true_and] at h
      exact ⟨rfl, h⟩
    | cons x rest =>
      simp only [List.nil_append, List.cons_append, List.cons.injEq] at h
      exact absurd (h.2 ▸ List.mem_append_right rest (List.mem_cons_self _ _)) h₁
  | cons y rest₁ ih =>
    cases l₂ with
    | nil =>
      simp only [List.nil_append, List.cons_append, List.cons.injEq] at h
      exact absurd (h.2 ▸ List.mem_append_right rest₁ (List.mem_cons_self _ _)) h₂
    | cons x rest₂ =>
      simp only [List.cons_append, List.cons.injEq] at h
      obtain ⟨hl, hs⟩ := ih rest₂ h.2
      exact ⟨by rw [h.1, hl], hs⟩

theorem alertID_data (clusterName alertType : String) (t : Time) :
    (alertID clusterName alertType t).data =
      (clusterName.data ++ '-' :: alertType.data) ++ '-' :: t.stamp.data := by
  simp [alertID, String.data_append]

/-- Two alert ids built from types without a dash are equal only if cluster,
type and formatted second are equal. -/
theorem alertID_injective {c₁ c₂ ty₁ ty₂ : String} {t₁ t₂ : Time} (h₁ : '-' ∉ ty₁.data)
    (h₂ : '-' ∉ ty₂.data) (h : alertID c₁ ty₁ t₁ = alertID c₂ ty₂ t₂) :
    c₁ = c₂ ∧ ty₁ = ty₂ ∧ t₁.stamp = t₂.stamp := by
  have hd : (alertID c₁ ty₁ t₁).data = (alertID c₂ ty₂ t₂).data := by rw [h]
  rw [alertID_data, alertID_data] at hd
  obtain ⟨hfront, hstamp⟩ := split_at_last_dash _ _ _ _ (stamp_no_dash t₁) (stamp_no_dash t₂) hd
  obtain ⟨hc, hty⟩ := split_at_last_dash _ _ _ _ h₁ h₂ hfront
  exact ⟨String.ext hc, String.ext hty, String.ext hstamp⟩

theorem node_no_dash : '-' ∉ ("node" : String).data := by decide

theorem pod_no_dash : '-' ∉ ("pod" : String).data := by decide

/-! ## One tick of `checkAlerts` -/

theorem checkAlertsStep_of_latest (env : Env) (w : World)
    (entry : String × List ClusterMetrics) (s : ClusterMetrics)
    (h : entry.2.getLast? = some s) :
    checkAlertsStep env w entry =
      (if s.Pods.Pending > 10
        then createAlert env entry.1 "pod" "warning"
          (formatInt s.Pods.Pending ++ " pods are pending")
        else id)
      ((if s.Pods.Failed > 0
        then createAlert env entry.1 "pod" "critical"
          (formatInt s.Pods.Failed ++ " pods have failed")
        else id)
      ((if s.Nodes.NotReady > 0
        then createAlert env entry.1 "node" "warning"
          (formatInt s.Nodes.NotReady ++ " nodes are not ready")
        else id) w)) := by
  unfold checkAlertsStep
  rw [h]
  by_cases h₁ : s.Nodes.NotReady > 0 <;> by_cases h₂ : s.Pods.Failed > 0 <;>
    by_cases h₃ : s.Pods.Pending > 10 <;> simp [h₁, h₂, h₃]

theorem checkAlertsStep_of_healthy (env : Env) (w : World)
    (entry : String × List ClusterMetrics) (h : Healthy entry.2) :
    checkAlertsStep env w entry = w := by
  cases hl : entry.2.getLast? with
  | none =>
    unfold checkAlertsStep
    rw [hl]
  | some s =>
    obtain ⟨h₁, h₂, h₃⟩ := h s hl
    rw [checkAlertsStep_of_latest env w entry s hl, if_neg (by omega), if_neg (by omega),
      if_neg (by omega)]
    rfl

theorem checkAlerts_of_healthy (env : Env) (order : List (String × List ClusterMetrics))
    (w : World) (h : ∀ e ∈ order, Healthy e.2) : checkAlerts env order w = w := by
  unfold checkAlerts
  induction order generalizing w with
  | nil => rfl
  | cons e rest ih =>
    rw [List.foldl_cons, checkAlertsStep_of_healthy env w e (h e (List.mem_cons_self _ _))]
    exact ih w (fun e' he' => h e' (List.mem_cons_of_mem _ he'))

theorem checkAlerts_append (env : Env) (pre post : List (String × List ClusterMetrics))
    (w : World) : checkAlerts env (pre ++ post) w = checkAlerts env post (checkAlerts env pre w) := by
  simp [checkAlerts, List.foldl_append]

theorem checkAlerts_cons (env : Env) (e : String × List ClusterMetrics)
    (post : List (String × List ClusterMetrics)) (w : World) :
    checkAlerts env (e :: post) w = checkAlerts env post (checkAlertsStep env w e) := by
  simp [checkAlerts]

/-- In a list of entries with distinct keys, the entries around one entry have
other keys. -/
theorem key_ne_of_nodup_middle {α : Type} {pre post : List (String × α)} {k : String} {v : α}
    (h : (mapKeys (pre ++ (k, v) :: post)).Nodup) (e : String × α) (he : e ∈ pre ∨ e ∈ post) :
    e.1 ≠ k := by
  simp only [mapKeys, List.map_append, List.map_cons] at h
  have h' := (List.nodup_middle.mp h)
  rw [List.nodup_cons] at h'
  intro hek
  apply h'.1
  rw [← hek, ← List.map_append]
  exact List.mem_map_of_mem _ (List.mem_append.mpr he)

/-- A tick over a history map in which only cluster `b` is not healthy, and `b`
has nothing wrong but nodes that are not ready, is one `createAlert`. -/
theorem checkAlerts_one_unready (env : Env) (w : World)
    (order : List (String × List ClusterMetrics)) (b : String) (hb : List ClusterMetrics)
    (sb : ClusterMetrics) (hwf : MapWF w.svc.metricsHistory)
    (horder : order.Perm w.svc.metricsHistory) (hmem : (b, hb) ∈ w.svc.metricsHistory)
    (hlast : hb.getLast? = some sb) (hn : 0 < sb.Nodes.NotReady) (hf : sb.Pods.Failed ≤ 0)
    (hp : sb.Pods.Pending ≤ 10)
    (hothers : ∀ e ∈ w.svc.metricsHistory, e.1 ≠ b → Healthy e.2) :
    checkAlerts env order w =
      createAlert env b "node" "warning" (formatInt sb.Nodes.NotReady ++ " nodes are not ready")
        w := by
  have hmem' : (b, hb) ∈ order := horder.mem_iff.mpr hmem
  obtain ⟨pre, post, rfl⟩ := List.append_of_mem hmem'
  have hnd : (mapKeys (pre ++ (b, hb) :: post)).Nodup :=
    ((horder.map Prod.fst).nodup_iff).mpr hwf
  have hne := key_ne_of_nodup_middle hnd
  have hpre : ∀ e ∈ pre, Healthy e.2 := fun e he =>
    hothers e (horder.mem_iff.mp (List.mem_append_left _ he)) (hne e (Or.inl he))
  have hpost : ∀ e ∈ post, Healthy e.2 := fun e he =>
    hothers e (horder.mem_iff.mp (List.mem_append_right _ (List.mem_cons_of_mem _ he)))
      (hne e (Or.inr he))
  rw [checkAlerts_append, checkAlerts_cons, checkAlerts_of_healthy env pre w hpre,
    checkAlerts_of_healthy env post _ hpost,
    checkAlertsStep_of_latest env w (b, hb) sb hlast, if_neg (by omega), if_neg (by omega),
    if_pos hn]
  rfl

/-- C9. Scenario A.  The alert store is empty and the history map holds the two
clusters `a` and `b`, with latest samples `sa` (healthy: no node not ready, no
failed pod, at most 10 pending pods) and `sb` (`n > 0` nodes not ready, no
failed pod, at most 10 pending pods).  After one tick of `checkAlerts`, in
whatever order it visits the two clusters, `GetAlerts` is exactly one alert:
for cluster `b`, of type `node`, level `warning`, with message
`<n> nodes are not ready`, unresolved; so there is exactly one alert for `b`
and none for `a`. -/
theorem checkAlerts_two_clusters (env : Env) (w : World)
    (order : List (String × List ClusterMetrics)) (a b : String)
    (ha hb : List ClusterMetrics) (sa sb : ClusterMetrics)
    (halerts : w.svc.alerts = [])
    (hhist : w.svc.metricsHistory = [(a, ha), (b, hb)])
    (hab : a ≠ b)
    (horder : order.Perm w.svc.metricsHistory)
    (hla : ha.getLast? = some sa) (hlb : hb.getLast? = some sb)
    (ha₁ : sa.Nodes.NotReady = 0) (ha₂ : sa.Pods.Failed = 0) (ha₃ : sa.Pods.Pending ≤ 10)
    (hb₁ : 0 < sb.Nodes.NotReady) (hb₂ : sb.Pods.Failed = 0) (hb₃ : sb.Pods.Pending ≤ 10) :
    GetAlerts (checkAlerts env order w).svc =
      [{ ID := b ++ "-" ++ "node" ++ "-" ++ (env.now w.clock).stamp, Cluster := b,
         Type_ := "node", Level := "warning",
         Message := formatInt sb.Nodes.NotReady ++ " nodes are not ready",
         CreatedAt := env.now (w.clock + 1), Resolved := false }] ∧
    ((GetAlerts (checkAlerts env order w).svc).filter
      (fun x => decide (x.Cluster = b))).length = 1 ∧
    (GetAlerts (checkAlerts env order w).svc).filter (fun x => decide (x.Cluster = a)) = [] := by
  have hwf : MapWF w.svc.metricsHistory := by
    rw [hhist]
    simp [MapWF, mapKeys, hab]
  have hothers : ∀ e ∈ w.svc.metricsHistory, e.1 ≠ b → Healthy e.2 := by
    intro e he hne
    rw [hhist] at he
    simp only [List.mem_cons, List.mem_singleton, List.not_mem_nil, or_false] at he
    rcases he with he | he
    · subst he
      intro s hs
      rw [hla] at hs
      cases hs
      omega
    · subst he
      exact absurd rfl hne
  have hmem : (b, hb) ∈ w.svc.metricsHistory := by
    rw [hhist]
    simp
  have key := checkAlerts_one_unready env w order b hb sb hwf horder hmem hlb hb₁
    (by omega) hb₃ hothers
  have hfresh : mapGet (alertID b "node" (env.now w.clock)) w.svc.alerts = none := by
    rw [halerts]
    rfl
  have hsvc := createAlert_fresh_svc env b "node" "warning"
    (formatInt sb.Nodes.NotReady ++ " nodes are not ready") w hfresh
  have hget : GetAlerts (checkAlerts env order w).svc =
      [{ ID := b ++ "-" ++ "node" ++ "-" ++ (env.now w.clock).stamp, Cluster := b,
         Type_ := "node", Level := "warning",
         Message := formatInt sb.Nodes.NotReady ++ " nodes are not ready",
         CreatedAt := env.now (w.clock + 1), Resolved := false }] := by
    rw [key, hsvc]
    simp only [GetAlerts, halerts, mapSet, List.map_cons, List.map_nil]
    rfl
  refine ⟨hget, ?_, ?_⟩
  · rw [hget]
    simp
  · rw [hget]
    simp [Ne.symm hab]

/-- C9 at a concrete input: `twoClusterWorld`, with cluster `b` visited
first. -/
theorem checkAlerts_two_clusters_witness :
    GetAlerts (checkAlerts frozenEnv
      [("b", [sampleWith "b" 3 1 0 0]),
        ("a", [sampleWith "a" 3 2 1 0, sampleWith "a" 3 0 0 10])] twoClusterWorld).svc =
      [{ ID := "b-node-20240102030405", Cluster := "b", Type_ := "node", Level := "warning",
         Message := "1 nodes are not ready", CreatedAt := ⟨2024, 1, 2, 3, 4, 5, 0⟩,
         Resolved := false }] :=
  (checkAlerts_two_clusters frozenEnv twoClusterWorld
    [("b", [sampleWith "b" 3 1 0 0]),
      ("a", [sampleWith "a" 3 2 1 0, sampleWith "a" 3 0 0 10])]
    "a" "b" [sampleWith "a" 3 2 1 0, sampleWith "a" 3 0 0 10] [sampleWith "b" 3 1 0 0]
    (sampleWith "a" 3 0 0 10) (sampleWith "b" 3 1 0 0)
    rfl rfl (by decide) (List.Perm.swap _ _ _) rfl rfl rfl rfl (by decide) (by decide) rfl
    (by decide)).1

/-! ## The failed-pods rule -/

/-- A create for another cluster or another type leaves the ids of cluster `c`
and type `ty` unused. -/
theorem createAlert_keeps_unused (env : Env) (clusterName alertType level message : String)
    (w : World) (c ty : String) (hty : '-' ∉ ty.data) (hty' : '-' ∉ alertType.data)
    (hne : ¬ (clusterName = c ∧ alertType = ty))
    (h : ∀ t, mapGet (alertID c ty t) w.svc.alerts = none) (t : Time) :
    mapGet (alertID c ty t)
      (createAlert env clusterName alertType level message w).svc.alerts = none := by
  rw [createAlert_alerts]
  split
  · exact h t
  · have hid : alertID c ty t ≠ alertID clusterName alertType (env.now w.clock) := by
      intro heq
      obtain ⟨hc, hty₂, _⟩ := alertID_injective hty hty' heq
      exact hne ⟨hc.symm, hty₂.symm⟩
    rw [mapGet_mapSet_ne _ _ hid]
    exact h t

/-- The iteration of `checkAlerts` for one entry only creates alerts for that
entry's cluster, of type `node` or `pod`. -/
theorem checkAlertsStep_keeps_of (env : Env) (P : World → Prop)
    (entry : String × List ClusterMetrics)
    (hP : ∀ w alertType level message, (alertType = "node" ∨ alertType = "pod") →
      P w → P (createAlert env entry.1 alertType level message w))
    (w : World) (h : P w) : P (checkAlertsStep env w entry) := by
  cases hl : entry.2.getLast? with
  | none =>
    unfold checkAlertsStep
    rw [hl]
    exact h
  | some s =>
    rw [checkAlertsStep_of_latest env w entry s hl]
    have h₁ : P ((if s.Nodes.NotReady > 0
        then createAlert env entry.1 "node" "warning"
          (formatInt s.Nodes.NotReady ++ " nodes are not ready")
        else id) w) := by
      split
      · exact hP _ _ _ _ (Or.inl rfl) h
      · exact h
    have h₂ : P ((if s.Pods.Failed > 0
        then createAlert env entry.1 "pod" "critical"
          (formatInt s.Pods.Failed ++ " pods have failed")
        else id)
        ((if s.Nodes.NotReady > 0
        then createAlert env entry.1 "node" "warning"
          (formatInt s.Nodes.NotReady ++ " nodes are not ready")
        else id) w)) := by
      split
      · exact hP _ _ _ _ (Or.inr rfl) h₁
      · exact h₁
    split
    · exact hP _ _ _ _ (Or.inr rfl) h₂
    · exact h₂

/-- A tick over entries of other clusters leaves the ids of cluster `c` and
type `ty` unused. -/
theorem checkAlerts_keeps_unused (env : Env) (c ty : String) (hty : '-' ∉ ty.data)
    (order : List (String × List ClusterMetrics)) (hne : ∀ e ∈ order, e.1 ≠ c) (w : World)
    (h : ∀ t, mapGet (alertID c ty t) w.svc.alerts = none) :
    ∀ t, mapGet (alertID c ty t) (checkAlerts env order w).svc.alerts = none := by
  induction order generalizing w with
  | nil => exact h
  | cons e rest ih =>
    rw [checkAlerts_cons]
    apply ih (fun e' he' => hne e' (List.mem_cons_of_mem _ he'))
    apply checkAlertsStep_keeps_of env
      (fun w => ∀ t, mapGet (alertID c ty t) w.svc.alerts = none) e _ w h
    intro w' alertType level message hat hw' t
    have hdash : '-' ∉ alertType.data := by
      rcases hat with hat | hat
      · rw [hat]
        exact node_no_dash
      · rw [hat]
        exact pod_no_dash
    exact createAlert_keeps_unused env e.1 alertType level message w' c ty hty hdash
      (fun hand => hne e (List.mem_cons_self _ _) hand.1) hw' t

/-- A create that is not of a critical pod alert for `c` adds no such alert. -/
theorem createAlert_keeps_no_critical (env : Env)
    (clusterName alertType level message : String) (w : World) (c : String)
    (hne : ¬ (clusterName = c ∧ alertType = "pod" ∧ level = "critical"))
    (h : ∀ e ∈ w.svc.alerts,
      ¬ (e.2.Cluster = c ∧ e.2.Type_ = "pod" ∧ e.2.Level = "critical")) :
    ∀ e ∈ (createAlert env clusterName alertType level message w).svc.alerts,
      ¬ (e.2.Cluster = c ∧ e.2.Type_ = "pod" ∧ e.2.Level = "critical") := by
  rw [createAlert_alerts]
  split
  · exact h
  · intro e he
    rcases mem_mapSet he with he | he
    · rw [he]
      exact hne
    · exact h e he

/-- C10. The failed-pods rule.  The alert store is empty, the history map has
one entry per cluster, and cluster `c` has history `h` with latest sample `s`;
`checkAlerts` runs one tick, visiting the entries in any order.  If
`s.pods.failed = n > 0`, then afterwards `GetAlerts` holds an unresolved alert
for `c` with type `pod`, level `critical` and message `<n> pods have failed`.
If `s.pods.failed = 0`, then afterwards `GetAlerts` holds no alert for `c` with
type `pod` and level `critical`. -/
theorem checkAlerts_failed_pods (env : Env) (w : World)
    (order : List (String × List ClusterMetrics)) (c : String) (h : List ClusterMetrics)
    (s : ClusterMetrics)
    (halerts : w.svc.alerts = [])
    (hwf : MapWF w.svc.metricsHistory)
    (horder : order.Perm w.svc.metricsHistory)
    (hc : mapGet c w.svc.metricsHistory = some h)
    (hlast : h.getLast? = some s) :
    (0 < s.Pods.Failed →
      ∃ a ∈ GetAlerts (checkAlerts env order w).svc,
        a.Cluster = c ∧ a.Type_ = "pod" ∧ a.Level = "critical" ∧
        a.Message = formatInt s.Pods.Failed ++ " pods have failed" ∧ a.Resolved = false) ∧
    (s.Pods.Failed = 0 →
      ∀ a ∈ GetAlerts (checkAlerts env order w).svc,
        ¬ (a.Cluster = c ∧ a.Type_ = "pod" ∧ a.Level = "critical")) := by
  have hmem : (c, h) ∈ order := horder.mem_iff.mpr (mem_of_mapGet hc)
  have hnd : (mapKeys order).Nodup := ((horder.map Prod.fst).nodup_iff).mpr hwf
  constructor
  · intro hfailed
    obtain ⟨pre, post, rfl⟩ := List.append_of_mem hmem
    have hne := key_ne_of_nodup_middle hnd
    rw [checkAlerts_append, checkAlerts_cons]
    -- the entries visited before `c` leave the pod ids of `c` unused
    have h₀ : ∀ t, mapGet (alertID c "pod" t) (checkAlerts env pre w).svc.alerts = none :=
      checkAlerts_keeps_unused env c "pod" pod_no_dash pre (fun e he => hne e (Or.inl he)) w
        (by intro t; rw [halerts]; rfl)
    rw [checkAlertsStep_of_latest env _ (c, h) s hlast, if_pos hfailed]
    -- so does the node rule for `c`
    have h₁ : ∀ t, mapGet (alertID c "pod" t)
        ((if s.Nodes.NotReady > 0
          then createAlert env c "node" "warning"
            (formatInt s.Nodes.NotReady ++ " nodes are not ready")
          else id) (checkAlerts env pre w)).svc.alerts = none := by
      split
      · exact createAlert_keeps_unused env c "node" _ _ _ c "pod" pod_no_dash node_no_dash
          (fun hand => absurd hand.2 (by decide)) h₀
      · exact h₀
    generalize ((if s.Nodes.NotReady > 0
          then createAlert env c "node" "warning"
            (formatInt s.Nodes.NotReady ++ " nodes are not ready")
          else id) (checkAlerts env pre w)) = w₁ at h₁
    -- hence the failed-pods rule stores its alert
    have h₂ := createAlert_fresh_svc env c "pod" "critical"
      (formatInt s.Pods.Failed ++ " pods have failed") w₁ (h₁ _)
    have h₃ : mapGet (alertID c "pod" (env.now w₁.clock))
        (createAlert env c "pod" "critical"
          (formatInt s.Pods.Failed ++ " pods have failed") w₁).svc.alerts =
        some (newAlert c "pod" "critical" (formatInt s.Pods.Failed ++ " pods have failed")
          (env.now w₁.clock) (env.now (w₁.clock + 1))) := by
      rw [h₂]
      exact mapGet_mapSet_same _ _ _
    generalize (createAlert env c "pod" "critical"
      (formatInt s.Pods.Failed ++ " pods have failed") w₁) = w₂ at h₃
    -- and nothing that follows in the tick replaces it
    have h₄ : mapGet (alertID c "pod" (env.now w₁.clock))
        ((if s.Pods.Pending > 10
          then createAlert env c "pod" "warning"
            (formatInt s.Pods.Pending ++ " pods are pending")
          else id) w₂).svc.alerts =
        some (newAlert c "pod" "critical" (formatInt s.Pods.Failed ++ " pods have failed")
          (env.now w₁.clock) (env.now (w₁.clock + 1))) := by
      split
      · exact createAlert_keeps_resolved env _ _ _ _ w₂ _ _ h₃
      · exact h₃
    have h₅ := checkAlerts_keeps env
      (fun w' => mapGet (alertID c "pod" (env.now w₁.clock)) w'.svc.alerts =
        some (newAlert c "pod" "critical" (formatInt s.Pods.Failed ++ " pods have failed")
          (env.now w₁.clock) (env.now (w₁.clock + 1))))
      (fun w' cl ty l m hw' => createAlert_keeps_resolved env cl ty l m w' _ _ hw') post _ h₄
    refine ⟨newAlert c "pod" "critical" (formatInt s.Pods.Failed ++ " pods have failed")
      (env.now w₁.clock) (env.now (w₁.clock + 1)), ?_, rfl, rfl, rfl, rfl, rfl⟩
    simp only [GetAlerts, List.mem_map]
    exact ⟨(_, _), mem_of_mapGet h₅, rfl⟩
  · intro hzero
    have hentry : ∀ e ∈ order, e.1 = c → e.2 = h := by
      intro e he hec
      have h₁ : mapGet c w.svc.metricsHistory = some e.2 := by
        apply mapGet_of_mem hwf
        rw [← hec]
        exact horder.mem_iff.mp he
      rw [hc] at h₁
      exact (Option.some.inj h₁).symm
    have key : ∀ e ∈ (checkAlerts env order w).svc.alerts,
        ¬ (e.2.Cluster = c ∧ e.2.Type_ = "pod" ∧ e.2.Level = "critical") := by
      clear hmem hnd horder
      have hstart : ∀ e ∈ w.svc.alerts,
          ¬ (e.2.Cluster = c ∧ e.2.Type_ = "pod" ∧ e.2.Level = "critical") := by
        rw [halerts]
        intro e he
        cases he
      clear halerts hc hwf
      induction order generalizing w with
      | nil => exact hstart
      | cons e rest ih =>
        rw [checkAlerts_cons]
        apply ih _ (fun e' he' => hentry e' (List.mem_cons_of_mem _ he'))
        cases hl : e.2.getLast? with
        | none =>
          unfold checkAlertsStep
          rw [hl]
          exact hstart
        | some s' =>
          rw [checkAlertsStep_of_latest env w e s' hl]
          have h₁ : ∀ x ∈ ((if s'.Nodes.NotReady > 0
              then createAlert env e.1 "node" "warning"
                (formatInt s'.Nodes.NotReady ++ " nodes are not ready")
              else id) w).svc.alerts,
              ¬ (x.2.Cluster = c ∧ x.2.Type_ = "pod" ∧ x.2.Level = "critical") := by
            split
            · exact createAlert_keeps_no_critical env _ _ _ _ w c
                (fun hand => absurd hand.2.1 (by decide)) hstart
            · exact hstart
          generalize ((if s'.Nodes.NotReady > 0
              then createAlert env e.1 "node" "warning"
                (formatInt s'.Nodes.NotReady ++ " nodes are not ready")
              else id) w) = w₁ at h₁
          have h₂ : ∀ x ∈ ((if s'.Pods.Failed > 0
              then createAlert env e.1 "pod" "critical"
                (formatInt s'.Pods.Failed ++ " pods have failed")
              else id) w₁).svc.alerts,
              ¬ (x.2.Cluster = c ∧ x.2.Type_ = "pod" ∧ x.2.Level = "critical") := by
            split
            · rename_i hpos
              apply createAlert_keeps_no_critical env _ _ _ _ w₁ c _ h₁
              intro hand
              have he2 : e.2 = h := hentry e (List.mem_cons_self _ _) hand.1
              rw [he2, hlast] at hl
              cases hl
              omega
            · exact h₁
          generalize ((if s'.Pods.Failed > 0
              then createAlert env e.1 "pod" "critical"
                (formatInt s'.Pods.Failed ++ " pods have failed")
              else id) w₁) = w₂ at h₂
          split
          · exact createAlert_keeps_no_critical env _ _ _ _ w₂ c
              (fun hand => absurd hand.2.2 (by decide)) h₂
          · exact h₂
    intro a ha
    simp only [GetAlerts, List.mem_map] at ha
    obtain ⟨e, he, rfl⟩ := ha
    exact key e he

/-- C10 at a concrete input: `failedPodsWorld`, with cluster `b` visited first.
Cluster `a` has 3 failed pods and gets its critical pod alert; cluster `b` has
none and gets no critical pod alert. -/
theorem checkAlerts_failed_pods_witness :
    (∃ a ∈ GetAlerts (checkAlerts frozenEnv
        [("b", [sampleWith "b" 3 1 0 11]), ("a", [sampleWith "a" 3 2 3 11])]
        failedPodsWorld).svc,
      a.Cluster = "a" ∧ a.Type_ = "pod" ∧ a.Level = "critical" ∧
      a.Message = "3 pods have failed" ∧ a.Resolved = false) ∧
    (∀ a ∈ GetAlerts (checkAlerts frozenEnv
        [("b", [sampleWith "b" 3 1 0 11]), ("a", [sampleWith "a" 3 2 3 11])]
        failedPodsWorld).svc,
      ¬ (a.Cluster = "b" ∧ a.Type_ = "pod" ∧ a.Level = "critical")) :=
  ⟨(checkAlerts_failed_pods frozenEnv failedPodsWorld
      [("b", [sampleWith "b" 3 1 0 11]), ("a", [sampleWith "a" 3 2 3 11])]
      "a" [sampleWith "a" 3 2 3 11] (sampleWith "a" 3 2 3 11) rfl
      (by unfold MapWF mapKeys; decide) (List.Perm.swap _ _ _) (by decide) rfl).1 (by decide),
   (checkAlerts_failed_pods frozenEnv failedPodsWorld
      [("b", [sampleWith "b" 3 1 0 11]), ("a", [sampleWith "a" 3 2 3 11])]
      "b" [sampleWith "b" 3 1 0 11] (sampleWith "b" 3 1 0 11) rfl
      (by unfold MapWF mapKeys; decide) (List.Perm.swap _ _ _) (by decide) rfl).2 rfl⟩

/-! ## A tick of `collectMetrics` -/

@[simp]
theorem collectMetricsStep_calls (env : Env) (w : World) (cluster : ClusterConfig) :
    (collectMetricsStep env w cluster).calls = w.calls := by
  unfold collectMetricsStep
  cases env.collect w.collected cluster.Name <;> rfl

@[simp]
theorem collectMetricsStep_k8sManager (env : Env) (w : World) (cluster : ClusterConfig) :
    (collectMetricsStep env w cluster).svc.k8sManager = w.svc.k8sManager := by
  unfold collectMetricsStep
  cases env.collect w.collected cluster.Name <;> rfl

theorem foldl_collectMetricsStep_calls (env : Env) (clusters : List ClusterConfig) (w : World) :
    (clusters.foldl (collectMetricsStep env) w).calls = w.calls := by
  induction clusters generalizing w with
  | nil => rfl
  | cons c rest ih => rw [List.foldl_cons, ih, collectMetricsStep_calls]

theorem foldl_collectMetricsStep_collected (env : Env) (clusters : List ClusterConfig)
    (w : World) :
    (clusters.foldl (collectMetricsStep env) w).collected = w.collected + clusters.length := by
  induction clusters generalizing w with
  | nil => rfl
  | cons c rest ih =>
    rw [List.foldl_cons, ih, collectMetricsStep_collected, List.length_cons]
    omega

theorem foldl_collectMetricsStep_k8sManager (env : Env) (clusters : List ClusterConfig)
    (w : World) :
    (clusters.foldl (collectMetricsStep env) w).svc.k8sManager = w.svc.k8sManager := by
  induction clusters generalizing w with
  | nil => rfl
  | cons c rest ih => rw [List.foldl_cons, ih, collectMetricsStep_k8sManager]

/-- What one iteration of the loop does when the sampling fails: it counts the
call and prints one line. -/
theorem collectMetricsStep_of_error (env : Env) (w : World) (cluster : ClusterConfig)
    (err : String) (h : env.collect w.collected cluster.Name = .error err) :
    collectMetricsStep env w cluster =
      { w with
        collected := w.collected + 1
        out := w.out ++
          ["Failed to collect metrics for cluster " ++ cluster.Name ++ ": " ++ err ++ "\n"] } := by
  unfold collectMetricsStep
  rw [h]

/-- C12, as the code has it.  A tick of `collectMetrics` creates no alert,
whatever the sampler returns: the alert store is as before and no notifier is
called.  For a cluster whose sampling fails the iteration only counts the call
and prints `Failed to collect metrics for cluster <name>: <error>`; the service
(histories and alerts) is unchanged. -/
theorem collectMetrics_creates_no_alert (env : Env) (w : World) :
    (collectMetrics env w).svc.alerts = w.svc.alerts ∧
    GetAlerts (collectMetrics env w).svc = GetAlerts w.svc ∧
    (collectMetrics env w).calls = w.calls ∧
    (∀ (w' : World) (cluster : ClusterConfig) (err : String),
      env.collect w'.collected cluster.Name = .error err →
      (collectMetricsStep env w' cluster).svc = w'.svc ∧
      (collectMetricsStep env w' cluster).calls = w'.calls ∧
      (collectMetricsStep env w' cluster).out =
        w'.out ++
          ["Failed to collect metrics for cluster " ++ cluster.Name ++ ": " ++ err ++ "\n"]) := by
  refine ⟨collectMetrics_alerts env w, ?_, ?_, ?_⟩
  · simp only [GetAlerts, collectMetrics_alerts]
  · exact foldl_collectMetricsStep_calls env _ w
  · intro w' cluster err h
    rw [collectMetricsStep_of_error env w' cluster err h]
    exact ⟨rfl, rfl, rfl⟩

/-- C12 at a concrete input: the sampling of cluster `a` fails and the service
is as before. -/
theorem collectMetrics_creates_no_alert_witness :
    (collectMetricsStep failingEnv (World.init twoClusters) ⟨"a", "", ""⟩).svc =
      (World.init twoClusters).svc :=
  ((collectMetrics_creates_no_alert failingEnv (World.init twoClusters)).2.2.2
    (World.init twoClusters) ⟨"a", "", ""⟩ "cluster not found: a" rfl).1

/-- C12 fails as stated: with the registry `a`, `b` and a sampler that fails
for both, a tick of `collectMetrics` on a fresh service leaves the alert store
empty; there is no alert of type `connection` for cluster `a`. -/
theorem collectMetrics_failure_creates_no_connection_alert :
    failingEnv.collect 0 "a" = .error "cluster not found: a" ∧
    failingEnv.collect 1 "b" = .error "cluster not found: b" ∧
    GetAlerts (collectMetrics failingEnv (World.init twoClusters)).svc = [] ∧
    ¬ ∃ a ∈ GetAlerts (collectMetrics failingEnv (World.init twoClusters)).svc,
      a.Cluster = "a" ∧ a.Type_ = "connection" ∧ a.Level = "critical" :=
  ⟨rfl, rfl, by decide, by decide⟩

theorem GetMetricsHistory_foldl_appendBounded (env : Env) (c : String)
    (clusters : List ClusterConfig) (w : World) :
    GetMetricsHistory (clusters.foldl (collectMetricsStep env) w).svc c =
      (samplesFor env c w.collected clusters).foldl appendBounded
        (GetMetricsHistory w.svc c) := by
  induction clusters generalizing w with
  | nil => rfl
  | cons cluster rest ih =>
    rw [List.foldl_cons, ih, collectMetricsStep_collected,
      GetMetricsHistory_collectMetricsStep]
    cases hr : env.collect w.collected cluster.Name with
    | error err => simp [samplesFor, hr]
    | ok metrics =>
      by_cases hc : cluster.Name = c
      · rw [hc] at hr
        simp [samplesFor, hr, hc]
      · simp [samplesFor, hr, hc]

theorem samplesFor_of_not_mem (env : Env) (c : String) (start : Nat)
    (clusters : List ClusterConfig) (h : c ∉ clusters.map (fun cl => cl.Name)) :
    samplesFor env c start clusters = [] := by
  induction clusters generalizing start with
  | nil => rfl
  | cons cluster rest ih =>
    simp only [List.map_cons, List.mem_cons, not_or] at h
    have hne : ¬ cluster.Name = c := fun heq => h.1 heq.symm
    cases hr : env.collect start cluster.Name <;> simp [samplesFor, hr, hne, ih _ h.2]

theorem samplesFor_of_nodup (env : Env) (start : Nat) (clusters : List ClusterConfig)
    (hnd : (clusters.map (fun cl => cl.Name)).Nodup) (i : Nat) (cl : ClusterConfig)
    (hi : clusters[i]? = some cl) :
    samplesFor env cl.Name start clusters =
      match env.collect (start + i) cl.Name with
      | .ok metrics => [metrics]
      | .error _ => [] := by
  induction clusters generalizing start i with
  | nil => simp at hi
  | cons cluster rest ih =>
    simp only [List.map_cons, List.nodup_cons] at hnd
    cases i with
    | zero =>
      simp only [List.getElem?_cons_zero, Option.some.injEq] at hi
      subst hi
      have hrest := samplesFor_of_not_mem env cluster.Name (start + 1) rest hnd.1
      cases hr : env.collect start cluster.Name <;> simp [samplesFor, hr, hrest]
    | succ j =>
      simp only [List.getElem?_cons_succ] at hi
      have hmem : cl.Name ∈ rest.map (fun cl => cl.Name) :=
        List.mem_map_of_mem _ (List.getElem?_mem hi)
      have hne : ¬ cluster.Name = cl.Name := fun heq => hnd.1 (heq ▸ hmem)
      have := ih (start + 1) hnd.2 j hi
      have hidx : start + 1 + j = start + (j + 1) := by omega
      rw [hidx] at this
      cases hr : env.collect start cluster.Name <;> simp [samplesFor, hr, hne, this]

/-- C13. One tick of `collectMetrics`.  The sampler is called once for every
registered cluster, in list order, whatever the earlier calls returned.  For
every cluster name `c` the history afterwards is the history before with the
samples delivered for `c` in this tick appended one by one (each append drops
the head when the history would exceed 100).  So when the registered names are
distinct, the cluster at position `i` gets its sample appended if its sampling
(the `i`-th call of the tick) succeeded and keeps its history unchanged if it
failed; and the history of a name that is not registered is unchanged. -/
theorem collectMetrics_appends_successes (env : Env) (w : World) :
    (∀ c, GetMetricsHistory (collectMetrics env w).svc c =
      (samplesFor env c w.collected w.svc.k8sManager.GetClusters).foldl appendBounded
        (GetMetricsHistory w.svc c)) ∧
    (collectMetrics env w).collected = w.collected + w.svc.k8sManager.GetClusters.length ∧
    ((w.svc.k8sManager.GetClusters.map (fun cl => cl.Name)).Nodup →
      ∀ (i : Nat) (cl : ClusterConfig), w.svc.k8sManager.GetClusters[i]? = some cl →
        GetMetricsHistory (collectMetrics env w).svc cl.Name =
          match env.collect (w.collected + i) cl.Name with
          | .ok metrics => appendBounded (GetMetricsHistory w.svc cl.Name) metrics
          | .error _ => GetMetricsHistory w.svc cl.Name) ∧
    (∀ c, c ∉ w.svc.k8sManager.GetClusters.map (fun cl => cl.Name) →
      GetMetricsHistory (collectMetrics env w).svc c = GetMetricsHistory w.svc c) := by
  have key : ∀ c, GetMetricsHistory (collectMetrics env w).svc c =
      (samplesFor env c w.collected w.svc.k8sManager.GetClusters).foldl appendBounded
        (GetMetricsHistory w.svc c) :=
    fun c => GetMetricsHistory_foldl_appendBounded env c _ w
  refine ⟨key, foldl_collectMetricsStep_collected env _ w, ?_, ?_⟩
  · intro hnd i cl hi
    rw [key, samplesFor_of_nodup env w.collected _ hnd i cl hi]
    cases env.collect (w.collected + i) cl.Name <;> rfl
  · intro c hc
    rw [key, samplesFor_of_not_mem env c w.collected _ hc]
    rfl

/-- C13 at a concrete input: the sampling of `a` fails, and `b`, which comes
after it, still gets its sample. -/
theorem collectMetrics_appends_successes_witness :
    GetMetricsHistory (collectMetrics firstFailsEnv (World.init twoClusters)).svc "b" =
      [sampleWith "b" 1 0 0 0] :=
  (collectMetrics_appends_successes firstFailsEnv (World.init twoClusters)).2.2.1
    (by decide) 1 ⟨"b", "", ""⟩ rfl

/-! ## Cluster names come from the registry -/

@[simp]
theorem createAlert_k8sManager (env : Env) (clusterName alertType level message : String)
    (w : World) :
    (createAlert env clusterName alertType level message w).svc.k8sManager =
      w.svc.k8sManager := by
  unfold createAlert
  cases h : mapGet (alertID clusterName alertType (env.now w.clock)) w.svc.alerts <;>
    simp [h]

@[simp]
theorem ResolveAlert_k8sManager (env : Env) (id : String) (w : World) :
    (ResolveAlert env id w).2.svc.k8sManager = w.svc.k8sManager := by
  unfold ResolveAlert
  cases h : mapGet id w.svc.alerts with
  | none => rfl
  | some alert =>
    by_cases hd : w.svc.dingtalkClient = true <;> by_cases hf : w.svc.feishuClient = true <;>
      simp [hd, hf]

theorem NamesRegistered_createAlert (env : Env) (k8sManager : Manager)
    (clusterName alertType level message : String) (w : World)
    (hc : clusterName ∈ k8sManager.GetClusters.map (fun cl => cl.Name))
    (h : NamesRegistered k8sManager w) :
    NamesRegistered k8sManager (createAlert env clusterName alertType level message w) := by
  obtain ⟨h₁, h₂, h₃⟩ := h
  refine ⟨by rw [createAlert_k8sManager]; exact h₁,
    by rw [createAlert_metricsHistory]; exact h₂, ?_⟩
  rw [createAlert_alerts]
  split
  · exact h₃
  · intro e he
    rcases mem_mapSet he with he | he
    · rw [he]
      exact hc
    · exact h₃ e he

theorem NamesRegistered_ResolveAlert (env : Env) (k8sManager : Manager) (id : String)
    (w : World) (h : NamesRegistered k8sManager w) :
    NamesRegistered k8sManager (ResolveAlert env id w).2 := by
  obtain ⟨h₁, h₂, h₃⟩ := h
  refine ⟨by rw [ResolveAlert_k8sManager]; exact h₁,
    by rw [ResolveAlert_metricsHistory]; exact h₂, ?_⟩
  rw [ResolveAlert_alerts]
  split
  · exact h₃
  · rename_i a ha
    intro e he
    rcases mem_mapSet he with he | he
    · rw [he]
      exact h₃ (id, a) (mem_of_mapGet ha)
    · exact h₃ e he

theorem NamesRegistered_collectMetricsStep (env : Env) (k8sManager : Manager) (w : World)
    (cluster : ClusterConfig) (hc : cluster ∈ k8sManager.GetClusters)
    (h : NamesRegistered k8sManager w) :
    NamesRegistered k8sManager (collectMetricsStep env w cluster) := by
  obtain ⟨h₁, h₂, h₃⟩ := h
  refine ⟨by rw [collectMetricsStep_k8sManager]; exact h₁, ?_,
    by rw [collectMetricsStep_alerts]; exact h₃⟩
  rw [collectMetricsStep_metricsHistory]
  cases env.collect w.collected cluster.Name with
  | error err => exact h₂
  | ok metrics =>
    intro k hk
    simp only [mapKeys_mapSet] at hk
    split at hk
    · exact h₂ k hk
    · rcases List.mem_append.mp hk with hk | hk
      · exact h₂ k hk
      · rw [List.mem_singleton.mp hk]
        exact List.mem_map_of_mem _ hc

theorem NamesRegistered_foldl_collectMetricsStep (env : Env) (k8sManager : Manager)
    (clusters : List ClusterConfig) (hsub : ∀ cl ∈ clusters, cl ∈ k8sManager.GetClusters)
    (w : World) (h : NamesRegistered k8sManager w) :
    NamesRegistered k8sManager (clusters.foldl (collectMetricsStep env) w) := by
  induction clusters generalizing w with
  | nil => exact h
  | cons cluster rest ih =>
    rw [List.foldl_cons]
    exact ih (fun cl hcl => hsub cl (List.mem_cons_of_mem _ hcl)) _
      (NamesRegistered_collectMetricsStep env k8sManager w cluster
        (hsub cluster (List.mem_cons_self _ _)) h)

/-- What the creates of each visited entry keep, a tick of `checkAlerts`
keeps. -/
theorem checkAlerts_keeps_of (env : Env) (P : World → Prop)
    (order : List (String × List ClusterMetrics))
    (hP : ∀ e ∈ order, ∀ w alertType level message,
      (alertType = "node" ∨ alertType = "pod") →
      P w → P (createAlert env e.1 alertType level message w))
    (w : World) (h : P w) : P (checkAlerts env order w) := by
  induction order generalizing w with
  | nil => exact h
  | cons e rest ih =>
    rw [checkAlerts_cons]
    exact ih (fun e' he' => hP e' (List.mem_cons_of_mem _ he')) _
      (checkAlertsStep_keeps_of env P e (hP e (List.mem_cons_self _ _)) w h)

theorem NamesRegistered_step (env : Env) (k8sManager : Manager) (w : World) (op : Op)
    (hfits : op.FitsWorld w) (hpub : op.IsPublic) (h : NamesRegistered k8sManager w) :
    NamesRegistered k8sManager (step env w op) := by
  cases op with
  | SetDingTalkClient client => exact h
  | SetFeishuClient client => exact h
  | collectMetrics =>
    have hreg : w.svc.k8sManager = k8sManager := h.1
    simp only [step, collectMetrics, hreg]
    exact NamesRegistered_foldl_collectMetricsStep env k8sManager _ (fun _ hcl => hcl) w h
  | sendCharts order =>
    obtain ⟨h₁, h₂, h₃⟩ := h
    simp only [step]
    exact ⟨by rw [sendCharts_svc]; exact h₁, by rw [sendCharts_svc]; exact h₂,
      by rw [sendCharts_svc]; exact h₃⟩
  | checkAlerts order =>
    simp only [step]
    apply checkAlerts_keeps_of env (NamesRegistered k8sManager) order _ w h
    intro e he w' alertType level message _ hw'
    apply NamesRegistered_createAlert env k8sManager e.1 alertType level message w' _ hw'
    apply h.2.1
    have hmem : e ∈ w.svc.metricsHistory := (List.Perm.mem_iff hfits).mp he
    exact List.mem_map_of_mem Prod.fst hmem
  | createAlert clusterName alertType level message => exact absurd hpub id
  | ResolveAlert id => exact NamesRegistered_ResolveAlert env k8sManager id w h

/-- C14. Names come from the registry.  In every world reached from a freshly
created service by ticks of `collectMetrics` and `checkAlerts` (and of
`sendCharts`, by `ResolveAlert` and by the setters), every key of the history
map and the cluster field of every alert in `GetAlerts` is the name of a
cluster of the registry (`GetClusters`), and the registry is the one the
service was created with. -/
theorem names_are_registered (env : Env) (k8sManager : Manager) (w : World)
    (h : ReachableByTicks env k8sManager w) :
    (∀ k ∈ mapKeys w.svc.metricsHistory,
      k ∈ k8sManager.GetClusters.map (fun cl => cl.Name)) ∧
    (∀ a ∈ GetAlerts w.svc, a.Cluster ∈ k8sManager.GetClusters.map (fun cl => cl.Name)) ∧
    w.svc.k8sManager = k8sManager := by
  have key : NamesRegistered k8sManager w := by
    induction h with
    | init =>
      refine ⟨rfl, ?_, ?_⟩
      · intro k hk
        simp [World.init, NewService, mapKeys] at hk
      · intro e he
        simp [World.init, NewService] at he
    | step w op _ hfits hpub ih => exact NamesRegistered_step env k8sManager w op hfits hpub ih
  refine ⟨key.2.1, ?_, key.1⟩
  intro a ha
  simp only [GetAlerts, List.mem_map] at ha
  obtain ⟨e, he, rfl⟩ := ha
  exact key.2.2 e he

/-- C14 at a concrete input: after a collection tick and an alert tick on the
registry `a`, `b`, every key of the history map is a registered name. -/
theorem names_are_registered_witness :
    (mapKeys (step frozenEnv (step frozenEnv (World.init twoClusters) .collectMetrics)
        (.checkAlerts
          (collectMetrics frozenEnv (World.init twoClusters)).svc.metricsHistory)).svc.metricsHistory).all
      (fun k => decide (k ∈ twoClusters.GetClusters.map (fun cl => cl.Name))) = true :=
  List.all_eq_true.mpr (fun k hk => decide_eq_true
    ((names_are_registered frozenEnv twoClusters
      (step frozenEnv (step frozenEnv (World.init twoClusters) .collectMetrics)
        (.checkAlerts (collectMetrics frozenEnv (World.init twoClusters)).svc.metricsHistory))
      (.step _ _ (.step _ _ .init trivial trivial) (List.Perm.refl _) trivial)).1 k hk))

/-! ## The pending-pods rule -/

theorem createAlert_clock_gt (env : Env) (clusterName alertType level message : String)
    (w : World) : w.clock < (createAlert env clusterName alertType level message w).clock := by
  unfold createAlert
  cases h : mapGet (alertID clusterName alertType (env.now w.clock)) w.svc.alerts with
  | some a => simp [h]
  | none =>
    simp only [h, sendAlert_clock]
    omega

theorem KeysFromPast_createAlert (env : Env) (clusterName alertType level message : String)
    (w : World) (hty : '-' ∉ alertType.data) (h : KeysFromPast env w) :
    KeysFromPast env (createAlert env clusterName alertType level message w) := by
  have hclock := createAlert_clock_gt env clusterName alertType level message w
  intro k hk
  rw [createAlert_alerts] at hk
  have hold : k ∈ mapKeys w.svc.alerts →
      ∃ c ty i, i < (createAlert env clusterName alertType level message w).clock ∧
        '-' ∉ ty.data ∧ k = alertID c ty (env.now i) := by
    intro hk'
    obtain ⟨c, ty, i, hi, hdash, hkey⟩ := h k hk'
    exact ⟨c, ty, i, Nat.lt_trans hi hclock, hdash, hkey⟩
  split at hk
  · exact hold hk
  · rw [mapKeys_mapSet] at hk
    split at hk
    · exact hold hk
    · rcases List.mem_append.mp hk with hk | hk
      · exact hold hk
      · exact ⟨clusterName, alertType, w.clock, hclock, hty, List.mem_singleton.mp hk⟩

/-- When no two clock readings fall in the same second, the id that
`createAlert` builds next is not in a store whose ids come from earlier
readings. -/
theorem fresh_of_KeysFromPast (env : Env) (w : World) (c ty : String) (hty : '-' ∉ ty.data)
    (hsec : ∀ i j, i < j → (env.now i).stamp ≠ (env.now j).stamp) (h : KeysFromPast env w) :
    mapGet (alertID c ty (env.now w.clock)) w.svc.alerts = none := by
  rw [mapGet_eq_none_iff]
  intro hk
  obtain ⟨c', ty', i, hi, hdash, hkey⟩ := h _ hk
  obtain ⟨_, _, hstamp⟩ := alertID_injective hty hdash hkey
  exact hsec i w.clock hi hstamp.symm

/-- A pending-pods rule that finds its id unused stores its alert, and the
alert is still there at the end of the tick. -/
theorem pending_alert_stored (env : Env) (c : String) (s : ClusterMetrics)
    (post : List (String × List ClusterMetrics)) (w : World) (hp : 10 < s.Pods.Pending)
    (hfresh : mapGet (alertID c "pod" (env.now w.clock)) w.svc.alerts = none) :
    ∃ a ∈ GetAlerts (checkAlerts env post
        ((if s.Pods.Pending > 10
          then createAlert env c "pod" "warning"
            (formatInt s.Pods.Pending ++ " pods are pending")
          else id) w)).svc,
      a.Cluster = c ∧ a.Type_ = "pod" ∧ a.Level = "warning" ∧
      a.Message = formatInt s.Pods.Pending ++ " pods are pending" ∧ a.Resolved = false := by
  rw [if_pos hp]
  have h₁ := createAlert_fresh_svc env c "pod" "warning"
    (formatInt s.Pods.Pending ++ " pods are pending") w hfresh
  have h₂ : mapGet (alertID c "pod" (env.now w.clock))
      (createAlert env c "pod" "warning"
        (formatInt s.Pods.Pending ++ " pods are pending") w).svc.alerts =
      some (newAlert c "pod" "warning" (formatInt s.Pods.Pending ++ " pods are pending")
        (env.now w.clock) (env.now (w.clock + 1))) := by
    rw [h₁]
    exact mapGet_mapSet_same _ _ _
  have h₃ := checkAlerts_keeps env
    (fun w' => mapGet (alertID c "pod" (env.now w.clock)) w'.svc.alerts =
      some (newAlert c "pod" "warning" (formatInt s.Pods.Pending ++ " pods are pending")
        (env.now w.clock) (env.now (w.clock + 1))))
    (fun w' cl ty l m hw' => createAlert_keeps_resolved env cl ty l m w' _ _ hw') post _ h₂
  refine ⟨newAlert c "pod" "warning" (formatInt s.Pods.Pending ++ " pods are pending")
    (env.now w.clock) (env.now (w.clock + 1)), ?_, rfl, rfl, rfl, rfl, rfl⟩
  simp only [GetAlerts, List.mem_map]
  exact ⟨(_, _), mem_of_mapGet h₃, rfl⟩

/-- A create whose cluster, type and level are not all those given adds no
alert with that cluster, type and level. -/
theorem createAlert_keeps_none_like (env : Env)
    (clusterName alertType level message : String) (w : World) (c ty lv : String)
    (hne : ¬ (clusterName = c ∧ alertType = ty ∧ level = lv))
    (h : ∀ e ∈ w.svc.alerts, ¬ (e.2.Cluster = c ∧ e.2.Type_ = ty ∧ e.2.Level = lv)) :
    ∀ e ∈ (createAlert env clusterName alertType level message w).svc.alerts,
      ¬ (e.2.Cluster = c ∧ e.2.Type_ = ty ∧ e.2.Level = lv) := by
  rw [createAlert_alerts]
  split
  · exact h
  · intro e he
    rcases mem_mapSet he with he | he
    · rw [he]
      exact hne
    · exact h e he

/-- A tick over entries of other clusters adds no alert of cluster `c`. -/
theorem checkAlerts_keeps_none_like (env : Env) (c ty lv : String)
    (order : List (String × List ClusterMetrics)) (hne : ∀ e ∈ order, e.1 ≠ c) (w : World)
    (h : ∀ e ∈ w.svc.alerts, ¬ (e.2.Cluster = c ∧ e.2.Type_ = ty ∧ e.2.Level = lv)) :
    ∀ e ∈ (checkAlerts env order w).svc.alerts,
      ¬ (e.2.Cluster = c ∧ e.2.Type_ = ty ∧ e.2.Level = lv) :=
  checkAlerts_keeps_of env
    (fun w' => ∀ e ∈ w'.svc.alerts, ¬ (e.2.Cluster = c ∧ e.2.Type_ = ty ∧ e.2.Level = lv))
    order
    (fun e he w' ty' l m _ hw' =>
      createAlert_keeps_none_like env e.1 ty' l m w' c ty lv (fun hand => hne e he hand.1) hw')
    w h

/-- When the failed-pods rule of `c` is reached in a tick that started from an
empty store and has visited entries of other clusters only, the store holds no
`pod` id of `c` and no alert of `c` with type `pod`. -/
theorem beforeFailedRule_unused (env : Env) (w : World)
    (pre : List (String × List ClusterMetrics)) (c : String) (s : ClusterMetrics)
    (halerts : w.svc.alerts = []) (hne : ∀ e ∈ pre, e.1 ≠ c) :
    (∀ t, mapGet (alertID c "pod" t) (beforeFailedRule env w pre c s).svc.alerts = none) ∧
    ∀ lv, ∀ e ∈ (beforeFailedRule env w pre c s).svc.alerts,
      ¬ (e.2.Cluster = c ∧ e.2.Type_ = "pod" ∧ e.2.Level = lv) := by
  have h₀ : ∀ t, mapGet (alertID c "pod" t) (checkAlerts env pre w).svc.alerts = none :=
    checkAlerts_keeps_unused env c "pod" pod_no_dash pre hne w
      (by intro t; rw [halerts]; rfl)
  have n₀ : ∀ lv, ∀ e ∈ (checkAlerts env pre w).svc.alerts,
      ¬ (e.2.Cluster = c ∧ e.2.Type_ = "pod" ∧ e.2.Level = lv) := fun lv =>
    checkAlerts_keeps_none_like env c "pod" lv pre hne w
      (by rw [halerts]; intro e he; cases he)
  unfold beforeFailedRule
  constructor
  · intro t
    split
    · exact createAlert_keeps_unused env c "node" _ _ _ c "pod" pod_no_dash node_no_dash
        (fun hand => absurd hand.2 (by decide)) h₀ t
    · exact h₀ t
  · intro lv
    split
    · exact createAlert_keeps_none_like env c "node" _ _ _ c "pod" lv
        (fun hand => absurd hand.2.1 (by decide)) (n₀ lv)
    · exact n₀ lv

/-- A create that finds its id unused takes two clock readings. -/
theorem createAlert_fresh_clock (env : Env) (clusterName alertType level message : String)
    (w : World)
    (h : mapGet (alertID clusterName alertType (env.now w.clock)) w.svc.alerts = none) :
    (createAlert env clusterName alertType level message w).clock = w.clock + 2 := by
  rw [createAlert_of_fresh env clusterName alertType level message w h, sendAlert_clock]

/-- With at most 10 pending pods in the latest sample of `c`, a tick from an
empty store leaves no alert for `c` with type `pod` and level `warning`. -/
theorem no_pending_alert_of_le (env : Env) (w : World)
    (order : List (String × List ClusterMetrics)) (c : String) (h : List ClusterMetrics)
    (s : ClusterMetrics)
    (halerts : w.svc.alerts = [])
    (hwf : MapWF w.svc.metricsHistory)
    (horder : order.Perm w.svc.metricsHistory)
    (hc : mapGet c w.svc.metricsHistory = some h)
    (hlast : h.getLast? = some s) (hle : s.Pods.Pending ≤ 10) :
    ∀ a ∈ GetAlerts (checkAlerts env order w).svc,
      ¬ (a.Cluster = c ∧ a.Type_ = "pod" ∧ a.Level = "warning") := by
  have hentry : ∀ e ∈ order, e.1 = c → e.2 = h := by
    intro e he hec
    have h₁ : mapGet c w.svc.metricsHistory = some e.2 := by
      apply mapGet_of_mem hwf
      rw [← hec]
      exact horder.mem_iff.mp he
    rw [hc] at h₁
    exact (Option.some.inj h₁).symm
  have key : ∀ e ∈ (checkAlerts env order w).svc.alerts,
      ¬ (e.2.Cluster = c ∧ e.2.Type_ = "pod" ∧ e.2.Level = "warning") := by
    clear horder
    have hstart : ∀ e ∈ w.svc.alerts,
        ¬ (e.2.Cluster = c ∧ e.2.Type_ = "pod" ∧ e.2.Level = "warning") := by
      rw [halerts]
      intro e he
      cases he
    clear halerts hc hwf
    induction order generalizing w with
    | nil => exact hstart
    | cons e rest ih =>
      rw [checkAlerts_cons]
      apply ih _ (fun e' he' => hentry e' (List.mem_cons_of_mem _ he'))
      cases hl : e.2.getLast? with
      | none =>
        unfold checkAlertsStep
        rw [hl]
        exact hstart
      | some s' =>
        rw [checkAlertsStep_of_latest env w e s' hl]
        have h₁ : ∀ x ∈ ((if s'.Nodes.NotReady > 0
            then createAlert env e.1 "node" "warning"
              (formatInt s'.Nodes.NotReady ++ " nodes are not ready")
            else id) w).svc.alerts,
            ¬ (x.2.Cluster = c ∧ x.2.Type_ = "pod" ∧ x.2.Level = "warning") := by
          split
          · exact createAlert_keeps_none_like env _ _ _ _ w c "pod" "warning"
              (fun hand => absurd hand.2.1 (by decide)) hstart
          · exact hstart
        generalize ((if s'.Nodes.NotReady > 0
            then createAlert env e.1 "node" "warning"
              (formatInt s'.Nodes.NotReady ++ " nodes are not ready")
            else id) w) = w₁ at h₁
        have h₂ : ∀ x ∈ ((if s'.Pods.Failed > 0
            then createAlert env e.1 "pod" "critical"
              (formatInt s'.Pods.Failed ++ " pods have failed")
            else id) w₁).svc.alerts,
            ¬ (x.2.Cluster = c ∧ x.2.Type_ = "pod" ∧ x.2.Level = "warning") := by
          split
          · exact createAlert_keeps_none_like env _ _ _ _ w₁ c "pod" "warning"
              (fun hand => absurd hand.2.2 (by decide)) h₁
          · exact h₁
        generalize ((if s'.Pods.Failed > 0
            then createAlert env e.1 "pod" "critical"
              (formatInt s'.Pods.Failed ++ " pods have failed")
            else id) w₁) = w₂ at h₂
        split
        · rename_i hpos
          apply createAlert_keeps_none_like env _ _ _ _ w₂ c "pod" "warning" _ h₂
          intro hand
          have he2 : e.2 = h := hentry e (List.mem_cons_self _ _) hand.1
          rw [he2, hlast] at hl
          cases hl
          omega
        · exact h₂
  intro a ha
  simp only [GetAlerts, List.mem_map] at ha
  obtain ⟨e, he, rfl⟩ := ha
  exact key e he

/-- C11, as the code has it.  The alert store is empty, the history map has one
entry per cluster, and `checkAlerts` runs one tick that visits the entries
`pre`, then the entry of cluster `c`, whose latest sample is `s`, then the
entries `post` (any order of the map is of this form).  Let
`s.pods.pending = n > 10`.  Unless `s.pods.failed > 0` and the failed-pods rule
and the pending-pods rule of this visit build their ids in the same second,
`GetAlerts` afterwards holds an unresolved alert for `c` with type `pod`, level
`warning` and message `<n> pods are pending`; in that one case both rules build
the id `c-pod-<second>`, the failed-pods alert holds it, and afterwards
`GetAlerts` holds no alert for `c` with type `pod` and level `warning`.  If
`s.pods.pending ≤ 10`, then afterwards `GetAlerts` holds no alert for `c` with
type `pod` and level `warning`. -/
theorem checkAlerts_pending_pods (env : Env) (w : World)
    (pre post : List (String × List ClusterMetrics)) (c : String) (h : List ClusterMetrics)
    (s : ClusterMetrics)
    (halerts : w.svc.alerts = [])
    (hwf : MapWF w.svc.metricsHistory)
    (horder : (pre ++ (c, h) :: post).Perm w.svc.metricsHistory)
    (hlast : h.getLast? = some s) :
    (10 < s.Pods.Pending →
      (s.Pods.Failed ≤ 0 ∨ ¬ SameSecondCreates env w pre c s) →
      ∃ a ∈ GetAlerts (checkAlerts env (pre ++ (c, h) :: post) w).svc,
        a.Cluster = c ∧ a.Type_ = "pod" ∧ a.Level = "warning" ∧
        a.Message = formatInt s.Pods.Pending ++ " pods are pending" ∧ a.Resolved = false) ∧
    (10 < s.Pods.Pending → 0 < s.Pods.Failed → SameSecondCreates env w pre c s →
      ∀ a ∈ GetAlerts (checkAlerts env (pre ++ (c, h) :: post) w).svc,
        ¬ (a.Cluster = c ∧ a.Type_ = "pod" ∧ a.Level = "warning")) ∧
    (s.Pods.Pending ≤ 10 →
      ∀ a ∈ GetAlerts (checkAlerts env (pre ++ (c, h) :: post) w).svc,
        ¬ (a.Cluster = c ∧ a.Type_ = "pod" ∧ a.Level = "warning")) := by
  have hnd : (mapKeys (pre ++ (c, h) :: post)).Nodup :=
    ((horder.map Prod.fst).nodup_iff).mpr hwf
  have hne := key_ne_of_nodup_middle hnd
  have hc : mapGet c w.svc.metricsHistory = some h :=
    mapGet_of_mem hwf (horder.mem_iff.mp (List.mem_append_right _ (List.mem_cons_self _ _)))
  obtain ⟨hunused, hnone⟩ :=
    beforeFailedRule_unused env w pre c s halerts (fun e he => hne e (Or.inl he))
  have hrun : checkAlerts env (pre ++ (c, h) :: post) w =
      checkAlerts env post
        ((if s.Pods.Pending > 10
          then createAlert env c "pod" "warning"
            (formatInt s.Pods.Pending ++ " pods are pending")
          else id)
        ((if s.Pods.Failed > 0
          then createAlert env c "pod" "critical"
            (formatInt s.Pods.Failed ++ " pods have failed")
          else id) (beforeFailedRule env w pre c s))) := by
    rw [checkAlerts_append, checkAlerts_cons, checkAlertsStep_of_latest env _ (c, h) s hlast]
    rfl
  refine ⟨?_, ?_, no_pending_alert_of_le env w _ c h s halerts hwf horder hc hlast⟩
  · intro hpending hcond
    rw [hrun]
    apply pending_alert_stored env c s post _ hpending
    by_cases hfailed : s.Pods.Failed > 0
    · -- the failed-pods alert was stored under an id of another second
      have hsec : ¬ SameSecondCreates env w pre c s := by
        rcases hcond with hle | hsec
        · omega
        · exact hsec
      rw [if_pos hfailed]
      rw [createAlert_fresh_clock env c "pod" "critical" _ _ (hunused _),
        createAlert_fresh_svc env c "pod" "critical" _ _ (hunused _)]
      show mapGet _ (mapSet _ _ _) = none
      rw [mapGet_mapSet_ne]
      · exact hunused _
      · intro heq
        obtain ⟨_, _, hstamp⟩ := alertID_injective pod_no_dash pod_no_dash heq
        exact hsec hstamp.symm
    · -- no failed pod: the pod ids of `c` are unused when the pending rule runs
      rw [if_neg hfailed]
      exact hunused _
  · intro hpending hfailed hsame
    rw [hrun, if_pos hfailed, if_pos hpending]
    have hclock := createAlert_fresh_clock env c "pod" "critical"
      (formatInt s.Pods.Failed ++ " pods have failed") _ (hunused _)
    have hkept : ∀ e ∈ (createAlert env c "pod" "critical"
        (formatInt s.Pods.Failed ++ " pods have failed")
          (beforeFailedRule env w pre c s)).svc.alerts,
        ¬ (e.2.Cluster = c ∧ e.2.Type_ = "pod" ∧ e.2.Level = "warning") :=
      createAlert_keeps_none_like env c "pod" "critical" _ _ c "pod" "warning"
        (fun hand => absurd hand.2.2 (by decide)) (hnone "warning")
    obtain ⟨a, ha⟩ := createAlert_mapGet_id env c "pod" "critical"
      (formatInt s.Pods.Failed ++ " pods have failed") (beforeFailedRule env w pre c s)
    have hid : alertID c "pod" (env.now (createAlert env c "pod" "critical"
        (formatInt s.Pods.Failed ++ " pods have failed")
          (beforeFailedRule env w pre c s)).clock) =
        alertID c "pod" (env.now (beforeFailedRule env w pre c s).clock) := by
      rw [hclock]
      unfold alertID
      rw [show (env.now ((beforeFailedRule env w pre c s).clock + 2)).stamp =
        (env.now (beforeFailedRule env w pre c s).clock).stamp from hsame.symm]
    have hnoop := createAlert_of_existing env c "pod" "warning"
      (formatInt s.Pods.Pending ++ " pods are pending")
      (createAlert env c "pod" "critical" (formatInt s.Pods.Failed ++ " pods have failed")
        (beforeFailedRule env w pre c s)) a (by rw [hid]; exact ha)
    have hafter : ∀ e ∈ (createAlert env c "pod" "warning"
        (formatInt s.Pods.Pending ++ " pods are pending")
        (createAlert env c "pod" "critical" (formatInt s.Pods.Failed ++ " pods have failed")
          (beforeFailedRule env w pre c s))).svc.alerts,
        ¬ (e.2.Cluster = c ∧ e.2.Type_ = "pod" ∧ e.2.Level = "warning") := by
      rw [hnoop]
      exact hkept
    have hfinal := checkAlerts_keeps_none_like env c "pod" "warning" post
      (fun e he => hne e (Or.inr he)) _ hafter
    intro x hx
    simp only [GetAlerts, List.mem_map] at hx
    obtain ⟨e, he, rfl⟩ := hx
    exact hfinal e he

/-- C11 at concrete inputs: in `failedPodsWorld` cluster `a` has 3 failed and 11
pending pods.  Under a clock that shows second 5 when the failed-pods rule
builds its id and second 6 when the pending-pods rule does, `a` gets its
pending-pods alert; under a clock that stands still it gets none. -/
theorem checkAlerts_pending_pods_witness :
    (∃ a ∈ GetAlerts (checkAlerts tickingEnv
        ([] ++ ("a", [sampleWith "a" 3 2 3 11]) :: [("b", [sampleWith "b" 3 1 0 11])])
        failedPodsWorld).svc,
      a.Cluster = "a" ∧ a.Type_ = "pod" ∧ a.Level = "warning" ∧
      a.Message = "11 pods are pending" ∧ a.Resolved = false) ∧
    ∀ a ∈ GetAlerts (checkAlerts frozenEnv
        ([] ++ ("a", [sampleWith "a" 3 2 3 11]) :: [("b", [sampleWith "b" 3 1 0 11])])
        failedPodsWorld).svc,
      ¬ (a.Cluster = "a" ∧ a.Type_ = "pod" ∧ a.Level = "warning") :=
  ⟨(checkAlerts_pending_pods tickingEnv failedPodsWorld []
      [("b", [sampleWith "b" 3 1 0 11])] "a" [sampleWith "a" 3 2 3 11]
      (sampleWith "a" 3 2 3 11) rfl (by unfold MapWF mapKeys; decide) (List.Perm.refl _) rfl).1
      (by decide) (Or.inr (by decide)),
    (checkAlerts_pending_pods frozenEnv failedPodsWorld []
      [("b", [sampleWith "b" 3 1 0 11])] "a" [sampleWith "a" 3 2 3 11]
      (sampleWith "a" 3 2 3 11) rfl (by unfold MapWF mapKeys; decide) (List.Perm.refl _)
      rfl).2.1 (by decide) (by decide) (by decide)⟩

/-- C11 fails as stated: in `failedPodsWorld`, with a clock that stands still,
cluster `a` has 11 pending pods (and 3 failed pods), the alert store is empty,
and after one tick of `checkAlerts` there is no alert for `a` with type `pod`
and level `warning`: the failed-pods alert created just before has the same id
`a-pod-20240102030405`, so the create of the pending-pods alert is a no-op. -/
theorem pending_alert_suppressed_by_failed_alert :
    mapGet "a" failedPodsWorld.svc.metricsHistory = some [sampleWith "a" 3 2 3 11] ∧
    (sampleWith "a" 3 2 3 11).Pods.Pending = 11 ∧
    failedPodsWorld.svc.alerts = [] ∧
    (¬ ∃ x ∈ GetAlerts (checkAlerts frozenEnv failedPodsWorld.svc.metricsHistory
        failedPodsWorld).svc,
      x.Cluster = "a" ∧ x.Type_ = "pod" ∧ x.Level = "warning") ∧
    (GetAlerts (checkAlerts frozenEnv failedPodsWorld.svc.metricsHistory
        failedPodsWorld).svc).map (fun x => (x.ID, x.Level, x.Message)) =
      [("a-node-20240102030405", "warning", "2 nodes are not ready"),
       ("a-pod-20240102030405", "critical", "3 pods have failed"),
       ("b-node-20240102030405", "warning", "1 nodes are not ready"),
       ("b-pod-20240102030405", "warning", "11 pods are pending")] := by
  decide

/-! ## The text of the notifications -/

theorem sendAlert_calls (env : Env) (alert : Alert) (w : World) :
    (sendAlert env alert w).calls =
      w.calls ++
        ((if w.svc.dingtalkClient then [Call.message .dingtalk (alertMessage alert)] else []) ++
          (if w.svc.feishuClient then [Call.message .feishu (alertMessage alert)] else [])) := by
  unfold sendAlert
  by_cases hd : w.svc.dingtalkClient = true <;> by_cases hf : w.svc.feishuClient = true <;>
    simp [hd, hf]

theorem ResolveAlert_calls (env : Env) (id : String) (w : World) (a : Alert)
    (h : mapGet id w.svc.alerts = some a) :
    (ResolveAlert env id w).2.calls =
      w.calls ++
        ((if w.svc.dingtalkClient
            then [Call.message .dingtalk
              (resolvedMessage { a with Resolved := true } (env.now w.clock))]
            else []) ++
          (if w.svc.feishuClient
            then [Call.message .feishu
              (resolvedMessage { a with Resolved := true } (env.now w.clock))]
            else [])) := by
  unfold ResolveAlert
  by_cases hd : w.svc.dingtalkClient = true <;> by_cases hf : w.svc.feishuClient = true <;>
    simp [h, hd, hf]

/-- C20. Notification texts.  (1) `sendAlert` passes to each configured
notifier (DingTalk first, then Feishu) exactly the text
`[Kubernetes Alert] {type} - {id}\nCluster: {cluster}\nLevel: {level}\nMessage: {message}\nTime: {createdAt}`
with `createdAt` formatted `YYYY-MM-DD HH:MM:SS`.  (2) A `createAlert` on a
fresh id sends that text for the alert it stores.  (3) A `ResolveAlert` on an
existing id sends the same five lines with the first line starting
`[Kubernetes Alert Resolved]` and the current clock reading in place of
`createdAt`. -/
theorem notification_texts (env : Env) (w : World) :
    (∀ alert : Alert,
      (sendAlert env alert w).calls =
        w.calls ++
          ((if w.svc.dingtalkClient
              then [Call.message .dingtalk
                ("[Kubernetes Alert] " ++ alert.Type_ ++ " - " ++ alert.ID ++ "\nCluster: " ++
                  alert.Cluster ++ "\nLevel: " ++ alert.Level ++ "\nMessage: " ++
                  alert.Message ++ "\nTime: " ++ alert.CreatedAt.dateTime)]
              else []) ++
            (if w.svc.feishuClient
              then [Call.message .feishu
                ("[Kubernetes Alert] " ++ alert.Type_ ++ " - " ++ alert.ID ++ "\nCluster: " ++
                  alert.Cluster ++ "\nLevel: " ++ alert.Level ++ "\nMessage: " ++
                  alert.Message ++ "\nTime: " ++ alert.CreatedAt.dateTime)]
              else []))) ∧
    (∀ clusterName alertType level message,
      mapGet (alertID clusterName alertType (env.now w.clock)) w.svc.alerts = none →
      (createAlert env clusterName alertType level message w).calls =
        w.calls ++
          ((if w.svc.dingtalkClient
              then [Call.message .dingtalk
                ("[Kubernetes Alert] " ++ alertType ++ " - " ++
                  (clusterName ++ "-" ++ alertType ++ "-" ++ (env.now w.clock).stamp) ++
                  "\nCluster: " ++ clusterName ++ "\nLevel: " ++ level ++ "\nMessage: " ++
                  message ++ "\nTime: " ++ (env.now (w.clock + 1)).dateTime)]
              else []) ++
            (if w.svc.feishuClient
              then [Call.message .feishu
                ("[Kubernetes Alert] " ++ alertType ++ " - " ++
                  (clusterName ++ "-" ++ alertType ++ "-" ++ (env.now w.clock).stamp) ++
                  "\nCluster: " ++ clusterName ++ "\nLevel: " ++ level ++ "\nMessage: " ++
                  message ++ "\nTime: " ++ (env.now (w.clock + 1)).dateTime)]
              else []))) ∧
    (∀ id a, mapGet id w.svc.alerts = some a →
      (ResolveAlert env id w).2.calls =
        w.calls ++
          ((if w.svc.dingtalkClient
              then [Call.message .dingtalk
                ("[Kubernetes Alert Resolved] " ++ a.Type_ ++ " - " ++ a.ID ++ "\nCluster: " ++
                  a.Cluster ++ "\nLevel: " ++ a.Level ++ "\nMessage: " ++ a.Message ++
                  "\nTime: " ++ (env.now w.clock).dateTime)]
              else []) ++
            (if w.svc.feishuClient
              then [Call.message .feishu
                ("[Kubernetes Alert Resolved] " ++ a.Type_ ++ " - " ++ a.ID ++ "\nCluster: " ++
                  a.Cluster ++ "\nLevel: " ++ a.Level ++ "\nMessage: " ++ a.Message ++
                  "\nTime: " ++ (env.now w.clock).dateTime)]
              else []))) := by
  refine ⟨fun alert => sendAlert_calls env alert w, ?_, ?_⟩
  · intro clusterName alertType level message h
    rw [createAlert_of_fresh env clusterName alertType level message w h]
    exact sendAlert_calls env _ _
  · intro id a h
    exact ResolveAlert_calls env id w a h

/-- C20 at a concrete input: the texts sent when `oneAlertWorld` creates a pod
alert for `b` and when it resolves its node alert for `a`. -/
theorem notification_texts_witness :
    (createAlert frozenEnv "b" "pod" "critical" "3 pods have failed" oneAlertWorld).calls =
      oneAlertWorld.calls ++
        [Call.message .dingtalk
          "[Kubernetes Alert] pod - b-pod-20240102030405\nCluster: b\nLevel: critical\nMessage: 3 pods have failed\nTime: 2024-01-02 03:04:05",
         Call.message .feishu
          "[Kubernetes Alert] pod - b-pod-20240102030405\nCluster: b\nLevel: critical\nMessage: 3 pods have failed\nTime: 2024-01-02 03:04:05"] ∧
    (ResolveAlert frozenEnv "a-node-20240102030405" oneAlertWorld).2.calls =
      oneAlertWorld.calls ++
        [Call.message .dingtalk
          "[Kubernetes Alert Resolved] node - a-node-20240102030405\nCluster: a\nLevel: warning\nMessage: 1 nodes are not ready\nTime: 2024-01-02 03:04:05",
         Call.message .feishu
          "[Kubernetes Alert Resolved] node - a-node-20240102030405\nCluster: a\nLevel: warning\nMessage: 1 nodes are not ready\nTime: 2024-01-02 03:04:05"] :=
  ⟨(notification_texts frozenEnv oneAlertWorld).2.1 "b" "pod" "critical" "3 pods have failed"
      (by decide),
   (notification_texts frozenEnv oneAlertWorld).2.2 "a-node-20240102030405"
      (newAlert "a" "node" "warning" "1 nodes are not ready" ⟨2024, 1, 2, 3, 4, 5, 0⟩
        ⟨2024, 1, 2, 3, 4, 5, 0⟩) (by decide)⟩

/-! ## The node and pod summaries -/

theorem nodeIsReady_iff (conditions : List NodeCondition) :
    nodeIsReady conditions = true ↔
      ∃ c ∈ conditions, c.Type_ = "Ready" ∧ c.Status = "True" := by
  induction conditions with
  | nil => simp [nodeIsReady]
  | cons c rest ih =>
    by_cases hc : c.Type_ = "Ready" ∧ c.Status = "True"
    · simp [nodeIsReady, hc]
    · simp only [nodeIsReady, hc, if_false, ih, List.mem_cons, exists_eq_or_imp, false_or]

theorem collectNodeMetricsLoop_eq (summary : NodeMetricsSummary) (nodes : List Node) :
    collectNodeMetricsLoop summary nodes =
      { summary with
        Ready := summary.Ready + nodes.countP (fun n => nodeIsReady n.Conditions)
        NotReady := summary.NotReady + nodes.countP (fun n => !nodeIsReady n.Conditions)
        Details := summary.Details ++ nodes.map nodeDetail } := by
  induction nodes generalizing summary with
  | nil => simp [collectNodeMetricsLoop]
  | cons node rest ih =>
    by_cases hr : nodeIsReady node.Conditions = true
    · simp only [collectNodeMetricsLoop, hr, if_true, ih, List.countP_cons, List.map_cons,
        Bool.not_true, List.append_assoc, List.singleton_append]
      simp only [Bool.false_eq_true, if_false, Nat.add_zero, Nat.cast_add, Nat.cast_one]
      congr 1
      omega
    · simp only [Bool.not_eq_true] at hr
      simp only [collectNodeMetricsLoop, hr, Bool.false_eq_true, if_false, ih,
        List.countP_cons, List.map_cons, Bool.not_false, List.append_assoc,
        List.singleton_append]
      simp only [if_true, Nat.add_zero, Nat.cast_add, Nat.cast_one]
      congr 1
      omega

/-- C15. The node summary.  For every node list returned by the query,
`collectNodeMetrics` returns a summary with `Total` the number of nodes, `Ready`
the number of nodes that have a condition with type `Ready` and status `True`
(a node counts once, however many conditions it has), `NotReady` the number of
the other nodes, so `Ready + NotReady = Total`, and one detail entry per node,
in list order (the entry of a node holds its name, the text of its CPU and
memory capacity and its conditions). -/
theorem collectNodeMetrics_summary (nodes : List Node) :
    ∃ summary, collectNodeMetrics (.items nodes) = .ok summary ∧
      summary.Total = nodes.length ∧
      summary.Ready = nodes.countP (fun n =>
        decide (∃ c ∈ n.Conditions, c.Type_ = "Ready" ∧ c.Status = "True")) ∧
      summary.NotReady = nodes.countP (fun n =>
        decide (¬ ∃ c ∈ n.Conditions, c.Type_ = "Ready" ∧ c.Status = "True")) ∧
      summary.Ready + summary.NotReady = summary.Total ∧
      summary.Details.length = nodes.length ∧
      summary.Details = nodes.map (fun node =>
        { Name := node.Name, CPUUsage := node.CapacityCPU.text,
          MemoryUsage := node.CapacityMemory.text, Conditions := node.Conditions }) := by
  have hready : nodes.countP (fun n => nodeIsReady n.Conditions) =
      nodes.countP (fun n =>
        decide (∃ c ∈ n.Conditions, c.Type_ = "Ready" ∧ c.Status = "True")) := by
    apply List.countP_congr
    intro n _
    simp only [nodeIsReady_iff, decide_eq_true_eq]
  have hnot : nodes.countP (fun n => !nodeIsReady n.Conditions) =
      nodes.countP (fun n =>
        decide (¬ ∃ c ∈ n.Conditions, c.Type_ = "Ready" ∧ c.Status = "True")) := by
    apply List.countP_congr
    intro n _
    simp only [Bool.not_eq_true', decide_eq_true_eq, ← nodeIsReady_iff, Bool.not_eq_true]
  have hsum : nodes.countP (fun n => nodeIsReady n.Conditions) +
      nodes.countP (fun n => !nodeIsReady n.Conditions) = nodes.length := by
    rw [List.length_eq_countP_add_countP (fun n => nodeIsReady n.Conditions) nodes]
    congr 1
    apply List.countP_congr
    intro n _
    simp
  refine ⟨_, rfl, ?_⟩
  rw [collectNodeMetricsLoop_eq]
  refine ⟨rfl, ?_, ?_, ?_, ?_, ?_⟩
  · simp only [Int.zero_add, hready]
  · simp only [Int.zero_add, hnot]
  · simp only [Int.zero_add]
    exact_mod_cast hsum
  · simp
  · simp only [List.nil_append]
    rfl

theorem wrapInt32_add_wrapInt32 (a b : Int) :
    wrapInt32 (wrapInt32 a + b) = wrapInt32 (a + b) := by
  unfold wrapInt32
  omega

theorem wrapInt32_of_range (x : Int) (hlo : -2 ^ 31 ≤ x) (hhi : x < 2 ^ 31) :
    wrapInt32 x = x := by
  unfold wrapInt32
  omega

theorem foldl_wrapInt32 (statuses : List ContainerStatus) (acc : Int) :
    statuses.foldl (fun count status => wrapInt32 (count + status.RestartCount))
        (wrapInt32 acc) =
      wrapInt32 (acc + (statuses.map (fun status => status.RestartCount)).sum) := by
  induction statuses generalizing acc with
  | nil => simp
  | cons status rest ih =>
    simp only [List.foldl_cons, List.map_cons, List.sum_cons]
    rw [wrapInt32_add_wrapInt32, ih]
    congr 1
    omega

/-- The restart count of a pod is the `int32` value of the sum of its
containers' restart counts. -/
theorem restartCount_eq (statuses : List ContainerStatus) :
    restartCount statuses =
      wrapInt32 ((statuses.map (fun status => status.RestartCount)).sum) := by
  have h := foldl_wrapInt32 statuses 0
  have h0 : wrapInt32 0 = 0 := by decide
  rw [h0] at h
  unfold restartCount
  rw [h]
  congr 1
  omega

theorem collectPodMetricsLoop_eq (since : Nat → Time → Int) (summary : PodMetricsSummary)
    (pods : List Pod) :
    collectPodMetricsLoop since summary pods =
      { summary with
        Running := summary.Running + pods.countP (fun p => decide (p.Phase = "Running"))
        Pending := summary.Pending + pods.countP (fun p => decide (p.Phase = "Pending"))
        Failed := summary.Failed + pods.countP (fun p => decide (p.Phase = "Failed"))
        Succeeded :=
          summary.Succeeded + pods.countP (fun p => decide (p.Phase = "Succeeded"))
        Details := summary.Details ++ podDetails since summary.Details.length pods } := by
  induction pods generalizing summary with
  | nil => simp [collectPodMetricsLoop, podDetails]
  | cons pod rest ih =>
    by_cases h₁ : pod.Phase = "Running"
    · simp [collectPodMetricsLoop, podDetails, ih, h₁, List.countP_cons]
      omega
    · by_cases h₂ : pod.Phase = "Pending"
      · simp [collectPodMetricsLoop, podDetails, ih, h₂, List.countP_cons]
        omega
      · by_cases h₃ : pod.Phase = "Failed"
        · simp [collectPodMetricsLoop, podDetails, ih, h₃, List.countP_cons]
          omega
        · by_cases h₄ : pod.Phase = "Succeeded"
          · simp [collectPodMetricsLoop, podDetails, ih, h₄, List.countP_cons]
            omega
          · simp [collectPodMetricsLoop, podDetails, ih, h₁, h₂, h₃, h₄, List.countP_cons]

theorem podDetails_length (since : Nat → Time → Int) (n : Nat) (pods : List Pod) :
    (podDetails since n pods).length = pods.length := by
  induction pods generalizing n with
  | nil => rfl
  | cons pod rest ih => simp [podDetails, ih]

theorem podDetails_RestartCount (since : Nat → Time → Int) (n : Nat) (pods : List Pod) :
    (podDetails since n pods).map (fun d => d.RestartCount) =
      pods.map (fun p => restartCount p.ContainerStatuses) := by
  induction pods generalizing n with
  | nil => rfl
  | cons pod rest ih => simp [podDetails, ih]

/-- The four counters add up to the number of pods in a counted phase. -/
theorem countP_phases (pods : List Pod) :
    pods.countP (fun p => decide (p.Phase = "Running")) +
      pods.countP (fun p => decide (p.Phase = "Pending")) +
      pods.countP (fun p => decide (p.Phase = "Failed")) +
      pods.countP (fun p => decide (p.Phase = "Succeeded")) =
    pods.countP (fun p => decide (CountedPhase p.Phase)) := by
  induction pods with
  | nil => rfl
  | cons pod rest ih =>
    simp only [List.countP_cons, CountedPhase] at ih ⊢
    by_cases h₁ : pod.Phase = "Running"
    · simp [h₁] at ih ⊢
      omega
    · by_cases h₂ : pod.Phase = "Pending"
      · simp [h₂] at ih ⊢
        omega
      · by_cases h₃ : pod.Phase = "Failed"
        · simp [h₃] at ih ⊢
          omega
        · by_cases h₄ : pod.Phase = "Succeeded"
          · simp [h₄] at ih ⊢
            omega
          · simp [h₁, h₂, h₃, h₄] at ih ⊢
            omega

/-- C16, as the code has it.  For every pod list returned by the query,
`collectPodMetrics` returns a summary with `Total` the number of pods and
`Running`, `Pending`, `Failed`, `Succeeded` the number of pods whose phase is
exactly that literal; a pod with another phase is counted in `Total` only, so
the four counters add up to at most `Total`, and to `Total` exactly when every
pod has one of the four phases.  There is one detail entry per pod, and its
restart count is the sum of the pod's containers' restart counts taken as an
`int32` (two's complement in 32 bits); it is that sum itself when the sum lies
in the `int32` range. -/
theorem collectPodMetrics_summary (since : Nat → Time → Int) (pods : List Pod) :
    ∃ summary, collectPodMetrics since (.items pods) = .ok summary ∧
      summary.Total = pods.length ∧
      summary.Running = pods.countP (fun p => decide (p.Phase = "Running")) ∧
      summary.Pending = pods.countP (fun p => decide (p.Phase = "Pending")) ∧
      summary.Failed = pods.countP (fun p => decide (p.Phase = "Failed")) ∧
      summary.Succeeded = pods.countP (fun p => decide (p.Phase = "Succeeded")) ∧
      summary.Running + summary.Pending + summary.Failed + summary.Succeeded ≤ summary.Total ∧
      (summary.Running + summary.Pending + summary.Failed + summary.Succeeded = summary.Total ↔
        ∀ p ∈ pods, p.Phase = "Running" ∨ p.Phase = "Pending" ∨ p.Phase = "Failed" ∨
          p.Phase = "Succeeded") ∧
      summary.Details.length = pods.length ∧
      summary.Details.map (fun d => d.RestartCount) =
        pods.map (fun p =>
          wrapInt32 ((p.ContainerStatuses.map (fun status => status.RestartCount)).sum)) ∧
      ((∀ p ∈ pods,
          -2 ^ 31 ≤ (p.ContainerStatuses.map (fun status => status.RestartCount)).sum ∧
          (p.ContainerStatuses.map (fun status => status.RestartCount)).sum < 2 ^ 31) →
        summary.Details.map (fun d => d.RestartCount) =
          pods.map (fun p =>
            (p.ContainerStatuses.map (fun status => status.RestartCount)).sum)) := by
  have hcount := countP_phases pods
  have hle : pods.countP (fun p => decide (CountedPhase p.Phase)) ≤ pods.length :=
    List.countP_le_length _
  have hdetails : (podDetails since 0 pods).map (fun d => d.RestartCount) =
      pods.map (fun p =>
        wrapInt32 ((p.ContainerStatuses.map (fun status => status.RestartCount)).sum)) := by
    rw [podDetails_RestartCount]
    apply List.map_congr_left
    intro p _
    exact restartCount_eq p.ContainerStatuses
  refine ⟨_, rfl, ?_⟩
  rw [collectPodMetricsLoop_eq]
  simp only [Int.zero_add, List.nil_append, List.length_nil]
  refine ⟨trivial, trivial, trivial, trivial, trivial, ?_, ?_, ?_, hdetails, ?_⟩
  · have : (pods.countP (fun p => decide (p.Phase = "Running")) : Int) +
        pods.countP (fun p => decide (p.Phase = "Pending")) +
        pods.countP (fun p => decide (p.Phase = "Failed")) +
        pods.countP (fun p => decide (p.Phase = "Succeeded")) =
        pods.countP (fun p => decide (CountedPhase p.Phase)) := by exact_mod_cast hcount
    rw [this]
    exact_mod_cast hle
  · have : (pods.countP (fun p => decide (p.Phase = "Running")) : Int) +
        pods.countP (fun p => decide (p.Phase = "Pending")) +
        pods.countP (fun p => decide (p.Phase = "Failed")) +
        pods.countP (fun p => decide (p.Phase = "Succeeded")) =
        pods.countP (fun p => decide (CountedPhase p.Phase)) := by exact_mod_cast hcount
    rw [this]
    constructor
    · intro heq
      have heq' : pods.countP (fun p => decide (CountedPhase p.Phase)) = pods.length := by
        exact_mod_cast heq
      intro p hp
      have := (List.countP_eq_length.mp heq') p hp
      simpa [CountedPhase] using this
    · intro hall
      have heq' : pods.countP (fun p => decide (CountedPhase p.Phase)) = pods.length := by
        apply List.countP_eq_length.mpr
        intro p hp
        simpa [CountedPhase] using hall p hp
      exact_mod_cast heq'
  · exact podDetails_length since 0 pods
  · intro hrange
    rw [hdetails]
    apply List.map_congr_left
    intro p hp
    exact wrapInt32_of_range _ (hrange p hp).1 (hrange p hp).2

/-- C16 at a concrete input: the restart counts of `twoPods` are 3 and 0. -/
theorem collectPodMetrics_summary_witness :
    ∃ summary, collectPodMetrics (fun _ _ => 0) (.items twoPods) = .ok summary ∧
      summary.Details.map (fun d => d.RestartCount) = [3, 0] :=
  match collectPodMetrics_summary (fun _ _ => 0) twoPods with
  | ⟨summary, hok, h⟩ => ⟨summary, hok, h.2.2.2.2.2.2.2.2.2 (by decide)⟩

/-- C16 fails as stated: a pod whose two containers each report `2^30` restarts
has the sum `2^31`, and its detail entry has the restart count `-2^31`. -/
theorem restart_count_wraps :
    (restartingPod.ContainerStatuses.map (fun status => status.RestartCount)).sum =
      2147483648 ∧
    ∃ summary, collectPodMetrics (fun _ _ => 0) (.items [restartingPod]) = .ok summary ∧
      summary.Details.map (fun d => d.RestartCount) = [-2147483648] ∧
      summary.Details.map (fun d => d.RestartCount) ≠
        [restartingPod].map (fun p =>
          (p.ContainerStatuses.map (fun status => status.RestartCount)).sum) :=
  ⟨by decide, _, rfl, by decide, by decide⟩

/-! ## `CollectClusterMetrics` -/

/-- Each collector fails exactly when its list query fails, with that error. -/
theorem collectors_fail_with_query (since : Nat → Time → Int) (client : Clientset) :
    (∀ err, client.nodes.failure = some err → collectNodeMetrics client.nodes = .error err) ∧
    (∀ err, client.pods.failure = some err →
      collectPodMetrics since client.pods = .error err) ∧
    (∀ err, client.resourceNodes.failure = some err →
      collectResourceMetrics client.resourceNodes = .error err) ∧
    (∀ err, client.events.failure = some err →
      collectEventMetrics client.events = .error err) ∧
    (client.nodes.failure = none → ∃ r, collectNodeMetrics client.nodes = .ok r) ∧
    (client.pods.failure = none → ∃ r, collectPodMetrics since client.pods = .ok r) ∧
    (client.resourceNodes.failure = none →
      ∃ r, collectResourceMetrics client.resourceNodes = .ok r) ∧
    (client.events.failure = none → ∃ r, collectEventMetrics client.events = .ok r) := by
  refine ⟨?_, ?_, ?_, ?_, ?_, ?_, ?_, ?_⟩
  · intro err h
    cases hq : client.nodes <;> simp_all [Listing.failure, collectNodeMetrics]
  · intro err h
    cases hq : client.pods <;> simp_all [Listing.failure, collectPodMetrics]
  · intro err h
    cases hq : client.resourceNodes <;> simp_all [Listing.failure, collectResourceMetrics]
  · intro err h
    cases hq : client.events <;> simp_all [Listing.failure, collectEventMetrics]
  · intro h
    cases hq : client.nodes <;> simp_all [Listing.failure, collectNodeMetrics]
  · intro h
    cases hq : client.pods <;> simp_all [Listing.failure, collectPodMetrics]
  · intro h
    cases hq : client.resourceNodes <;> simp_all [Listing.failure, collectResourceMetrics]
  · intro h
    cases hq : client.events <;> simp_all [Listing.failure, collectEventMetrics]

/-- C17. Failures of the sampler, in terms of what the list queries answer.
(1) If the handle lookup fails, `CollectClusterMetrics` returns that error and
no sample.  (2) With a handle: if the node query fails (its `List` returns an
error, or the handle is no client) it returns no sample and the error
`failed to collect node metrics: <error>`; if the node query succeeds and the
pod query fails, `failed to collect pod metrics: <error>`; likewise
`failed to collect resource metrics: <error>` and
`failed to collect event metrics: <error>` for the first query that fails; if
all four return items it returns no error and the sample made of the cluster
name, the clock reading and the four summaries.  (3) So whenever one of the
four queries fails no sample is returned, a returned sample comes with no error
after a successful lookup and four successful queries (never a partly filled
one), and exactly one of sample and error is returned. -/
theorem CollectClusterMetrics_failures (clients : List (String × Clientset)) (now : Time)
    (since : Nat → Time → Int) (clusterName : String) :
    (mapGet clusterName clients = none →
      CollectClusterMetrics clients now since clusterName =
        (none, some ("cluster not found: " ++ clusterName))) ∧
    (∀ client, mapGet clusterName clients = some client →
      (∀ err, client.nodes.failure = some err →
        CollectClusterMetrics clients now since clusterName =
          (none, some ("failed to collect node metrics: " ++ err))) ∧
      (∀ err, client.nodes.failure = none → client.pods.failure = some err →
        CollectClusterMetrics clients now since clusterName =
          (none, some ("failed to collect pod metrics: " ++ err))) ∧
      (∀ err, client.nodes.failure = none → client.pods.failure = none →
        client.resourceNodes.failure = some err →
        CollectClusterMetrics clients now since clusterName =
          (none, some ("failed to collect resource metrics: " ++ err))) ∧
      (∀ err, client.nodes.failure = none → client.pods.failure = none →
        client.resourceNodes.failure = none → client.events.failure = some err →
        CollectClusterMetrics clients now since clusterName =
          (none, some ("failed to collect event metrics: " ++ err))) ∧
      (client.nodes.failure = none → client.pods.failure = none →
        client.resourceNodes.failure = none → client.events.failure = none →
        ∃ nodeMetrics podMetrics resourceMetrics eventMetrics,
          collectNodeMetrics client.nodes = .ok nodeMetrics ∧
          collectPodMetrics since client.pods = .ok podMetrics ∧
          collectResourceMetrics client.resourceNodes = .ok resourceMetrics ∧
          collectEventMetrics client.events = .ok eventMetrics ∧
          CollectClusterMetrics clients now since clusterName =
            (some { ClusterName := clusterName, Timestamp := now, Nodes := nodeMetrics,
                    Pods := podMetrics, Resources := resourceMetrics,
                    Events := eventMetrics },
              none)) ∧
      ((client.nodes.failure ≠ none ∨ client.pods.failure ≠ none ∨
          client.resourceNodes.failure ≠ none ∨ client.events.failure ≠ none) →
        (CollectClusterMetrics clients now since clusterName).1 = none ∧
        ∃ subQuery err,
          (subQuery = "node" ∧ client.nodes.failure = some err ∨
            subQuery = "pod" ∧ client.pods.failure = some err ∨
            subQuery = "resource" ∧ client.resourceNodes.failure = some err ∨
            subQuery = "event" ∧ client.events.failure = some err) ∧
          (CollectClusterMetrics clients now since clusterName).2 =
            some ("failed to collect " ++ subQuery ++ " metrics: " ++ err))) ∧
    (∀ sample, (CollectClusterMetrics clients now since clusterName).1 = some sample →
      (CollectClusterMetrics clients now since clusterName).2 = none ∧
      ∃ client, mapGet clusterName clients = some client ∧
        client.nodes.failure = none ∧ client.pods.failure = none ∧
        client.resourceNodes.failure = none ∧ client.events.failure = none) ∧
    ((CollectClusterMetrics clients now since clusterName).1 = none ↔
      (CollectClusterMetrics clients now since clusterName).2 ≠ none) := by
  have hcases : ∀ client, mapGet clusterName clients = some client →
      (∀ err, client.nodes.failure = some err →
        CollectClusterMetrics clients now since clusterName =
          (none, some ("failed to collect node metrics: " ++ err))) ∧
      (∀ err, client.nodes.failure = none → client.pods.failure = some err →
        CollectClusterMetrics clients now since clusterName =
          (none, some ("failed to collect pod metrics: " ++ err))) ∧
      (∀ err, client.nodes.failure = none → client.pods.failure = none →
        client.resourceNodes.failure = some err →
        CollectClusterMetrics clients now since clusterName =
          (none, some ("failed to collect resource metrics: " ++ err))) ∧
      (∀ err, client.nodes.failure = none → client.pods.failure = none →
        client.resourceNodes.failure = none → client.events.failure = some err →
        CollectClusterMetrics clients now since clusterName =
          (none, some ("failed to collect event metrics: " ++ err))) ∧
      (client.nodes.failure = none → client.pods.failure = none →
        client.resourceNodes.failure = none → client.events.failure = none →
        ∃ nodeMetrics podMetrics resourceMetrics eventMetrics,
          collectNodeMetrics client.nodes = .ok nodeMetrics ∧
          collectPodMetrics since client.pods = .ok podMetrics ∧
          collectResourceMetrics client.resourceNodes = .ok resourceMetrics ∧
          collectEventMetrics client.events = .ok eventMetrics ∧
          CollectClusterMetrics clients now since clusterName =
            (some { ClusterName := clusterName, Timestamp := now, Nodes := nodeMetrics,
                    Pods := podMetrics, Resources := resourceMetrics,
                    Events := eventMetrics },
              none)) := by
    intro client hc
    obtain ⟨f₁, f₂, f₃, f₄, s₁, s₂, s₃, s₄⟩ := collectors_fail_with_query since client
    have hget : GetClient clients clusterName = .ok client := by simp [GetClient, hc]
    refine ⟨?_, ?_, ?_, ?_, ?_⟩
    · intro err h₁
      simp [CollectClusterMetrics, hget, f₁ err h₁]
    · intro err h₁ h₂
      obtain ⟨n, hn⟩ := s₁ h₁
      simp [CollectClusterMetrics, hget, hn, f₂ err h₂]
    · intro err h₁ h₂ h₃
      obtain ⟨n, hn⟩ := s₁ h₁
      obtain ⟨p, hp⟩ := s₂ h₂
      simp [CollectClusterMetrics, hget, hn, hp, f₃ err h₃]
    · intro err h₁ h₂ h₃ h₄
      obtain ⟨n, hn⟩ := s₁ h₁
      obtain ⟨p, hp⟩ := s₂ h₂
      obtain ⟨r, hr⟩ := s₃ h₃
      simp [CollectClusterMetrics, hget, hn, hp, hr, f₄ err h₄]
    · intro h₁ h₂ h₃ h₄
      obtain ⟨n, hn⟩ := s₁ h₁
      obtain ⟨p, hp⟩ := s₂ h₂
      obtain ⟨r, hr⟩ := s₃ h₃
      obtain ⟨e, he⟩ := s₄ h₄
      exact ⟨n, p, r, e, hn, hp, hr, he, by simp [CollectClusterMetrics, hget, hn, hp, hr, he]⟩
  have hfirst : ∀ client, mapGet clusterName clients = some client →
      (client.nodes.failure = none ∧ client.pods.failure = none ∧
        client.resourceNodes.failure = none ∧ client.events.failure = none) ∨
      ∃ subQuery err,
        (subQuery = "node" ∧ client.nodes.failure = some err ∨
          subQuery = "pod" ∧ client.pods.failure = some err ∨
          subQuery = "resource" ∧ client.resourceNodes.failure = some err ∨
          subQuery = "event" ∧ client.events.failure = some err) ∧
        CollectClusterMetrics clients now since clusterName =
          (none, some ("failed to collect " ++ subQuery ++ " metrics: " ++ err)) := by
    intro client hc
    obtain ⟨c₁, c₂, c₃, c₄, _⟩ := hcases client hc
    cases h₁ : client.nodes.failure with
    | some err => exact Or.inr ⟨"node", err, Or.inl ⟨rfl, rfl⟩, c₁ err h₁⟩
    | none =>
      cases h₂ : client.pods.failure with
      | some err => exact Or.inr ⟨"pod", err, Or.inr (Or.inl ⟨rfl, rfl⟩), c₂ err h₁ h₂⟩
      | none =>
        cases h₃ : client.resourceNodes.failure with
        | some err =>
          exact Or.inr ⟨"resource", err, Or.inr (Or.inr (Or.inl ⟨rfl, rfl⟩)), c₃ err h₁ h₂ h₃⟩
        | none =>
          cases h₄ : client.events.failure with
          | some err =>
            exact Or.inr ⟨"event", err, Or.inr (Or.inr (Or.inr ⟨rfl, rfl⟩)),
              c₄ err h₁ h₂ h₃ h₄⟩
          | none => exact Or.inl ⟨rfl, rfl, rfl, rfl⟩
  refine ⟨?_, ?_, ?_, ?_⟩
  · intro hc
    simp [CollectClusterMetrics, GetClient, hc]
  · intro client hc
    obtain ⟨c₁, c₂, c₃, c₄, c₅⟩ := hcases client hc
    refine ⟨c₁, c₂, c₃, c₄, c₅, ?_⟩
    intro hfail
    rcases hfirst client hc with ⟨h₁, h₂, h₃, h₄⟩ | ⟨subQuery, err, hwhich, hres⟩
    · rcases hfail with h | h | h | h
      · exact absurd h₁ h
      · exact absurd h₂ h
      · exact absurd h₃ h
      · exact absurd h₄ h
    · rw [hres]
      exact ⟨rfl, subQuery, err, hwhich, rfl⟩
  · intro sample hs
    cases hc : mapGet clusterName clients with
    | none => simp [CollectClusterMetrics, GetClient, hc] at hs
    | some client =>
      rcases hfirst client hc with ⟨h₁, h₂, h₃, h₄⟩ | ⟨subQuery, err, _, hres⟩
      · obtain ⟨n, p, r, e, _, _, _, _, hres⟩ := (hcases client hc).2.2.2.2 h₁ h₂ h₃ h₄
        rw [hres]
        exact ⟨rfl, client, rfl, h₁, h₂, h₃, h₄⟩
      · rw [hres] at hs
        cases hs
  · cases hc : mapGet clusterName clients with
    | none => simp [CollectClusterMetrics, GetClient, hc]
    | some client =>
      rcases hfirst client hc with ⟨h₁, h₂, h₃, h₄⟩ | ⟨subQuery, err, _, hres⟩
      · obtain ⟨n, p, r, e, _, _, _, _, hres⟩ := (hcases client hc).2.2.2.2 h₁ h₂ h₃ h₄
        rw [hres]
        simp
      · rw [hres]
        simp

/-- C17 at concrete inputs: the pod query of cluster `a` fails, and the event
query of cluster `b` fails after the other three have succeeded. -/
theorem CollectClusterMetrics_failures_witness :
    CollectClusterMetrics [("a", brokenPodsClient)] ⟨2024, 1, 2, 3, 4, 5, 0⟩ (fun _ _ => 0) "a" =
      (none, some "failed to collect pod metrics: context deadline exceeded") ∧
    CollectClusterMetrics [("b", brokenEventsClient)] ⟨2024, 1, 2, 3, 4, 5, 0⟩ (fun _ _ => 0)
        "b" =
      (none, some "failed to collect event metrics: etcdserver: request timed out") :=
  ⟨((CollectClusterMetrics_failures [("a", brokenPodsClient)] ⟨2024, 1, 2, 3, 4, 5, 0⟩
      (fun _ _ => 0) "a").2.1 brokenPodsClient rfl).2.1 "context deadline exceeded" rfl rfl,
   ((CollectClusterMetrics_failures [("b", brokenEventsClient)] ⟨2024, 1, 2, 3, 4, 5, 0⟩
      (fun _ _ => 0) "b").2.1 brokenEventsClient rfl).2.2.2.1 "etcdserver: request timed out"
      rfl rfl rfl rfl⟩

/-! ## The formatters -/

theorem roundHalfEven_near (a b : Nat) (hb : 0 < b) :
    2 * (roundHalfEven a b * b) ≤ 2 * a + b ∧ 2 * a ≤ 2 * (roundHalfEven a b * b) + b := by
  have hdm := Nat.div_add_mod a b
  have hlt := Nat.mod_lt a hb
  have hmul : a / b * b = b * (a / b) := Nat.mul_comm _ _
  unfold roundHalfEven
  split_ifs <;> simp only [Nat.add_mul, Nat.one_mul, hmul] <;> omega

theorem bitLengthAux_spec (fuel n : Nat) (hn : 0 < n) (hfuel : n ≤ fuel) :
    2 ^ bitLengthAux fuel n ≤ 2 * n ∧ n < 2 ^ bitLengthAux fuel n := by
  induction fuel generalizing n with
  | zero => omega
  | succ fuel ih =>
    have hne : n ≠ 0 := by omega
    simp only [bitLengthAux, hne, if_false]
    by_cases h2 : n / 2 = 0
    · have h1 : n = 1 := by omega
      subst h1
      cases fuel <;> simp [bitLengthAux]
    · have hpos : 0 < n / 2 := by omega
      obtain ⟨ih₁, ih₂⟩ := ih (n / 2) hpos (by omega)
      rw [pow_succ]
      constructor <;> omega

theorem bitLength_spec (n : Nat) (hn : 0 < n) :
    2 ^ bitLength n ≤ 2 * n ∧ n < 2 ^ bitLength n :=
  bitLengthAux_spec n n hn (Nat.le_refl n)

/-- The scaled quotient that `nearestFloat64` rounds is at least `2^52`. -/
theorem nearestFloat64_scaled (a b : Nat) (ha : 0 < a) (hb : 0 < b) :
    2 ^ 52 * (b * 2 ^ bitLength a) ≤
      a * 2 ^ (if b * 2 ^ bitLength a ≤ a * 2 ^ bitLength b
        then 52 + bitLength b else 53 + bitLength b) := by
  obtain ⟨ha₁, _⟩ := bitLength_spec a ha
  obtain ⟨_, hb₂⟩ := bitLength_spec b hb
  split
  · rename_i h
    calc 2 ^ 52 * (b * 2 ^ bitLength a) ≤ 2 ^ 52 * (a * 2 ^ bitLength b) :=
          Nat.mul_le_mul_left _ h
      _ = a * 2 ^ (52 + bitLength b) := by rw [pow_add]; ring
  · calc 2 ^ 52 * (b * 2 ^ bitLength a) ≤ 2 ^ 52 * (2 ^ bitLength b * (2 * a)) :=
          Nat.mul_le_mul_left _ (Nat.mul_le_mul (Nat.le_of_lt hb₂) ha₁)
      _ = a * 2 ^ (53 + bitLength b) := by rw [pow_add]; ring

theorem nearestFloat64_err (a b : Nat) (ha : 0 < a) (hb : 0 < b) :
    0 < (nearestFloat64 a b).2 ∧
    |((nearestFloat64 a b).1 : ℚ) / (nearestFloat64 a b).2 - a / b| ≤ (a / b) / 2 ^ 53 := by
  have hscaled := nearestFloat64_scaled a b ha hb
  simp only [nearestFloat64]
  generalize (if b * 2 ^ bitLength a ≤ a * 2 ^ bitLength b
    then 52 + bitLength b else 53 + bitLength b) = up at hscaled ⊢
  have hB : 0 < b * 2 ^ bitLength a := Nat.mul_pos hb (Nat.pow_pos (by decide))
  obtain ⟨h₁, h₂⟩ := roundHalfEven_near (a * 2 ^ up) (b * 2 ^ bitLength a) hB
  generalize roundHalfEven (a * 2 ^ up) (b * 2 ^ bitLength a) = n at h₁ h₂ ⊢
  refine ⟨Nat.pow_pos (by decide), ?_⟩
  have hU : (0 : ℚ) < (2 : ℚ) ^ up := by positivity
  have hL : (0 : ℚ) < (2 : ℚ) ^ bitLength a := by positivity
  have hbq : (0 : ℚ) < (b : ℚ) := by exact_mod_cast hb
  have e₁ : 2 * ((n : ℚ) * (b * 2 ^ bitLength a)) ≤ 2 * (a * 2 ^ up) + b * 2 ^ bitLength a := by
    exact_mod_cast h₁
  have e₂ : 2 * ((a : ℚ) * 2 ^ up) ≤ 2 * (n * (b * 2 ^ bitLength a)) + b * 2 ^ bitLength a := by
    exact_mod_cast h₂
  have e₃ : (2 : ℚ) ^ 52 * (b * 2 ^ bitLength a) ≤ a * 2 ^ up := by
    exact_mod_cast hscaled
  push_cast
  rw [div_sub_div _ _ hU.ne' hbq.ne', abs_div, abs_of_pos (mul_pos hU hbq),
    div_le_iff₀ (mul_pos hU hbq)]
  have hrhs : (a : ℚ) / b / 2 ^ 53 * (2 ^ up * b) = a * 2 ^ up / 2 ^ 53 := by
    field_simp
    ring
  rw [hrhs, abs_le]
  have hd : (a : ℚ) * 2 ^ up / 2 ^ 53 * 2 ^ 53 = a * 2 ^ up := by field_simp
  generalize (a : ℚ) * 2 ^ up / 2 ^ 53 = d at hd ⊢
  constructor <;> nlinarith

theorem nearestFloat64_pos (a b : Nat) (ha : 0 < a) (hb : 0 < b) :
    0 < (nearestFloat64 a b).1 := by
  obtain ⟨hden, herr⟩ := nearestFloat64_err a b ha hb
  have haq : (0 : ℚ) < (a : ℚ) / b := by positivity
  have hdq : (0 : ℚ) < ((nearestFloat64 a b).2 : ℚ) := by exact_mod_cast hden
  rw [abs_le] at herr
  have hq : (0 : ℚ) < ((nearestFloat64 a b).1 : ℚ) / (nearestFloat64 a b).2 := by
    have h53 : (a : ℚ) / b / 2 ^ 53 < (a : ℚ) / b := by
      apply div_lt_self haq
      norm_num
    linarith [herr.1]
  by_contra hzero
  have h0 : (nearestFloat64 a b).1 = 0 := by omega
  rw [h0] at hq
  simp at hq

/-- `float64(a) / float64(c)` is within the relative error `2^-51` of `a / c`. -/
theorem float64Quotient_err (a c : Nat) (ha : 0 < a) (hc : 0 < c) :
    0 < (float64Quotient a c).2 ∧
    |((float64Quotient a c).1 : ℚ) / (float64Quotient a c).2 - a / c| ≤ (a / c) / 2 ^ 51 := by
  obtain ⟨hden₁, herr₁⟩ := nearestFloat64_err a 1 ha (by decide)
  have hnum₁ := nearestFloat64_pos a 1 ha (by decide)
  obtain ⟨hden₂, herr₂⟩ := nearestFloat64_err (nearestFloat64 a 1).1
    ((nearestFloat64 a 1).2 * c) hnum₁ (Nat.mul_pos hden₁ hc)
  refine ⟨hden₂, ?_⟩
  unfold float64Quotient
  generalize ((nearestFloat64 (nearestFloat64 a 1).1 ((nearestFloat64 a 1).2 * c)).1 : ℚ) /
    (nearestFloat64 (nearestFloat64 a 1).1 ((nearestFloat64 a 1).2 * c)).2 = q at herr₂ ⊢
  have hcq : (0 : ℚ) < (c : ℚ) := by exact_mod_cast hc
  have hdq : (0 : ℚ) < ((nearestFloat64 a 1).2 : ℚ) := by exact_mod_cast hden₁
  have haq : (0 : ℚ) < (a : ℚ) := by exact_mod_cast ha
  have hsplit : (((nearestFloat64 a 1).1 : ℚ)) / ((((nearestFloat64 a 1).2 * c : Nat)) : ℚ) =
      ((nearestFloat64 a 1).1 : ℚ) / (nearestFloat64 a 1).2 / c := by
    push_cast
    rw [div_div]
  rw [hsplit] at herr₂
  simp only [Nat.cast_one, div_one] at herr₁
  generalize ((nearestFloat64 a 1).1 : ℚ) / (nearestFloat64 a 1).2 = q₁ at herr₁ herr₂
  rw [abs_le] at herr₁ herr₂ ⊢
  have hdiv : ∀ x y : ℚ, x ≤ y → x / c ≤ y / c := fun x y h =>
    div_le_div_of_nonneg_right h (le_of_lt hcq)
  have h₁ := hdiv _ _ herr₁.1
  have h₂ := hdiv _ _ herr₁.2
  rw [neg_div, sub_div] at h₁
  rw [sub_div] at h₂
  have hr : (0 : ℚ) ≤ (a : ℚ) / c := by positivity
  have e₁ : (a : ℚ) / 2 ^ 53 / c = (a : ℚ) / c / 2 ^ 53 := by ring
  have e₂ : q₁ / c / 2 ^ 53 = (q₁ / c) * (1 / 2 ^ 53) := by ring
  have e₃ : (a : ℚ) / c / 2 ^ 53 = ((a : ℚ) / c) * (1 / 2 ^ 53) := by ring
  have e₄ : (a : ℚ) / c / 2 ^ 51 = ((a : ℚ) / c) * (1 / 2 ^ 51) := by ring
  rw [e₁] at h₁ h₂
  rw [e₂] at herr₂
  rw [e₃] at h₁ h₂
  rw [e₄]
  generalize (a : ℚ) / c = r at h₁ h₂ hr ⊢
  generalize q₁ / c = s at h₁ h₂ herr₂
  norm_num at h₁ h₂ herr₂ ⊢
  constructor <;> linarith [herr₂.1, herr₂.2]

/-- The number that `%.Nf` prints for `float64(a) / float64(c)`, counted in
units of the last printed digit, is within half a unit of `10^N * a / c`, up to
the relative error `2^-51` of the `float64` quotient. -/
theorem fixed_quotient_near (prec a c : Nat) (ha : 0 < a) (hc : 0 < c) :
    2 ^ 51 * |(c : Int) *
        roundHalfEven ((float64Quotient a c).1 * 10 ^ prec) (float64Quotient a c).2 -
        10 ^ prec * a| ≤ 2 ^ 50 * c + 10 ^ prec * a := by
  obtain ⟨hden, herr⟩ := float64Quotient_err a c ha hc
  obtain ⟨h₁, h₂⟩ := roundHalfEven_near ((float64Quotient a c).1 * 10 ^ prec)
    (float64Quotient a c).2 hden
  generalize roundHalfEven ((float64Quotient a c).1 * 10 ^ prec) (float64Quotient a c).2 = t
    at h₁ h₂ ⊢
  generalize (float64Quotient a c).1 = N at h₁ h₂ herr
  generalize (float64Quotient a c).2 = D at h₁ h₂ herr hden
  have hD : (0 : ℚ) < (D : ℚ) := by exact_mod_cast hden
  have hcq : (0 : ℚ) < (c : ℚ) := by exact_mod_cast hc
  have haq : (0 : ℚ) < (a : ℚ) := by exact_mod_cast ha
  have e₁ : 2 * ((t : ℚ) * D) ≤ 2 * (N * 10 ^ prec) + D := by exact_mod_cast h₁
  have e₂ : 2 * ((N : ℚ) * 10 ^ prec) ≤ 2 * (t * D) + D := by exact_mod_cast h₂
  -- in units of the last digit: |t - P * q| ≤ 1/2 with q = N / D
  have hq : (N : ℚ) = (N : ℚ) / D * D := by field_simp
  generalize (N : ℚ) / D = q at herr hq
  rw [hq] at e₁ e₂
  have f₁ : (t : ℚ) ≤ q * 10 ^ prec + 1 / 2 := by
    by_contra hcon
    push_neg at hcon
    nlinarith
  have f₂ : q * 10 ^ prec ≤ (t : ℚ) + 1 / 2 := by
    by_contra hcon
    push_neg at hcon
    nlinarith
  rw [abs_le] at herr
  have hP : (0 : ℚ) < (10 : ℚ) ^ prec := by positivity
  have goalq' : ∀ P : ℚ, 0 < P → (t : ℚ) ≤ q * P + 1 / 2 → q * P ≤ (t : ℚ) + 1 / 2 →
      (2 : ℚ) ^ 51 * |(c : ℚ) * t - P * a| ≤ 2 ^ 50 * c + P * a := by
    intro P hP f₁ f₂
    have hac : (a : ℚ) = (a : ℚ) / c * c := by field_simp
    generalize hr : (a : ℚ) / c = r at herr hac
    have hr0 : 0 < r := by rw [← hr]; positivity
    rw [hac]
    have g₁ : (c : ℚ) * t - P * (r * c) ≤ c / 2 + P * (r * c) / 2 ^ 51 := by
      have : (c : ℚ) * t - P * (r * c) = c * ((t - q * P) + P * (q - r)) := by ring
      rw [this]
      have hb₁ : (t : ℚ) - q * P ≤ 1 / 2 := by linarith
      have hb₂ : P * (q - r) ≤ P * (r / 2 ^ 51) := by
        apply mul_le_mul_of_nonneg_left _ (le_of_lt hP)
        linarith [herr.2]
      have : (c : ℚ) * ((t - q * P) + P * (q - r)) ≤ c * (1 / 2 + P * (r / 2 ^ 51)) := by
        apply mul_le_mul_of_nonneg_left _ (le_of_lt hcq)
        linarith
      calc (c : ℚ) * ((t - q * P) + P * (q - r)) ≤ c * (1 / 2 + P * (r / 2 ^ 51)) := this
        _ = c / 2 + P * (r * c) / 2 ^ 51 := by ring
    have g₂ : -((c : ℚ) / 2 + P * (r * c) / 2 ^ 51) ≤ (c : ℚ) * t - P * (r * c) := by
      have : (c : ℚ) * t - P * (r * c) = c * ((t - q * P) + P * (q - r)) := by ring
      rw [this]
      have hb₁ : -(1 / 2 : ℚ) ≤ (t : ℚ) - q * P := by linarith
      have hb₂ : P * (-(r / 2 ^ 51)) ≤ P * (q - r) := by
        apply mul_le_mul_of_nonneg_left _ (le_of_lt hP)
        linarith [herr.1]
      have : (c : ℚ) * (-(1 / 2) + P * (-(r / 2 ^ 51))) ≤ c * ((t - q * P) + P * (q - r)) := by
        apply mul_le_mul_of_nonneg_left _ (le_of_lt hcq)
        linarith
      calc -((c : ℚ) / 2 + P * (r * c) / 2 ^ 51) = c * (-(1 / 2) + P * (-(r / 2 ^ 51))) := by ring
        _ ≤ c * ((t - q * P) + P * (q - r)) := this
    have habs : |(c : ℚ) * t - P * (r * c)| ≤ c / 2 + P * (r * c) / 2 ^ 51 :=
      abs_le.mpr ⟨g₂, g₁⟩
    calc (2 : ℚ) ^ 51 * |(c : ℚ) * t - P * (r * c)|
        ≤ 2 ^ 51 * (c / 2 + P * (r * c) / 2 ^ 51) :=
          mul_le_mul_of_nonneg_left habs (by positivity)
      _ = 2 ^ 50 * c + P * (r * c) := by ring
  have goalq := goalq' ((10 : ℚ) ^ prec) hP f₁ f₂
  exact_mod_cast goalq

theorem zeroPad_one : ∀ d, d < 10 → zeroPad 1 d = [Nat.digitChar d] := by decide

theorem zeroPad_two :
    ∀ r, r < 100 → zeroPad 2 r = [Nat.digitChar (r / 10), Nat.digitChar (r % 10)] := by
  decide

theorem formatCPU_examples :
    formatCPU 1000 = "1.0" ∧ formatCPU 250 = "250m" ∧ formatCPU 2500 = "2.5" := by
  decide

set_option maxRecDepth 4000 in
theorem formatMemory_examples :
    formatMemory 1073741824 = "1.00Gi" ∧ formatMemory 1048576 = "1.00Mi" ∧
    formatMemory 1023 = "1023B" := by
  decide

/-- The text and the accuracy of `%.1f` and `%.2f` applied to the `float64`
quotient of two positive integers. -/
theorem formatFixed_one (a c : Nat) (ha : 0 < a) (hc : 0 < c) :
    ∃ t : Nat,
      formatFixed 1 (float64Quotient a c) =
        Nat.repr (t / 10) ++ "." ++ String.mk [Nat.digitChar (t % 10)] ∧
      2 ^ 51 * |(c : Int) * t - 10 * a| ≤ 2 ^ 50 * c + 10 * a := by
  refine ⟨roundHalfEven ((float64Quotient a c).1 * 10 ^ 1) (float64Quotient a c).2, ?_, ?_⟩
  · unfold formatFixed
    rw [show (10 : Nat) ^ 1 = 10 from rfl, zeroPad_one _ (Nat.mod_lt _ (by decide))]
  · have := fixed_quotient_near 1 a c ha hc
    simpa using this

theorem formatFixed_two (a c : Nat) (ha : 0 < a) (hc : 0 < c) :
    ∃ t : Nat,
      formatFixed 2 (float64Quotient a c) =
        Nat.repr (t / 100) ++ "." ++
          String.mk [Nat.digitChar (t % 100 / 10), Nat.digitChar (t % 100 % 10)] ∧
      2 ^ 51 * |(c : Int) * t - 100 * a| ≤ 2 ^ 50 * c + 100 * a := by
  refine ⟨roundHalfEven ((float64Quotient a c).1 * 10 ^ 2) (float64Quotient a c).2, ?_, ?_⟩
  · unfold formatFixed
    rw [show (10 : Nat) ^ 2 = 100 from rfl, zeroPad_two _ (Nat.mod_lt _ (by decide))]
  · have := fixed_quotient_near 2 a c ha hc
    simpa using this

/-- C18, as the code has it.  For every milli-CPU value `m`: if `m < 1000`,
`formatCPU m` is the decimal rendering of `m` followed by `m`.  If `m ≥ 1000`,
`formatCPU m` is the `float64` quotient `float64(m) / 1000` printed by `%.1f`:
a decimal number with exactly one digit after the point and no suffix, `t`
tenths say; it is within half a tenth of `m / 1000` when `m < 2^51`, and in
general within half a tenth plus the relative error `2^-51` of the `float64`
arithmetic (in thousandths: `|100 t - m| ≤ 50 + m / 2^51`).  In particular
`formatCPU 1000 = "1.0"`, `formatCPU 250 = "250m"` and
`formatCPU 2500 = "2.5"`. -/
theorem formatCPU_spec (m : Int) :
    (m < 1000 → formatCPU m = formatInt m ++ "m") ∧
    (1000 ≤ m →
      ∃ t : Nat,
        formatCPU m = Nat.repr (t / 10) ++ "." ++ String.mk [Nat.digitChar (t % 10)] ∧
        2 ^ 51 * |100 * (t : Int) - m| ≤ 50 * 2 ^ 51 + m ∧
        (m < 2 ^ 51 → |100 * (t : Int) - m| ≤ 50)) ∧
    formatCPU 1000 = "1.0" ∧ formatCPU 250 = "250m" ∧ formatCPU 2500 = "2.5" := by
  refine ⟨?_, ?_, formatCPU_examples⟩
  · intro h
    unfold formatCPU
    rw [if_neg (by omega)]
  · intro h
    obtain ⟨t, htext, hnear⟩ := formatFixed_one m.toNat 1000 (by omega) (by decide)
    have hm : ((m.toNat : Nat) : Int) = m := Int.toNat_of_nonneg (by omega)
    rw [hm] at hnear
    refine ⟨t, ?_, ?_, ?_⟩
    · unfold formatCPU
      rw [if_pos h]
      exact htext
    · rcases abs_cases ((1000 : Int) * t - 10 * m) with ⟨h₁, _⟩ | ⟨h₁, _⟩ <;>
        rcases abs_cases ((100 : Int) * t - m) with ⟨h₂, _⟩ | ⟨h₂, _⟩ <;>
        simp only [Nat.cast_ofNat] at hnear <;> rw [h₁] at hnear <;> rw [h₂] <;> omega
    · intro hsmall
      rcases abs_cases ((1000 : Int) * t - 10 * m) with ⟨h₁, _⟩ | ⟨h₁, _⟩ <;>
        rcases abs_cases ((100 : Int) * t - m) with ⟨h₂, _⟩ | ⟨h₂, _⟩ <;>
        simp only [Nat.cast_ofNat] at hnear <;> rw [h₁] at hnear <;> rw [h₂] <;> omega

/-- Two texts that end in different unit suffixes are different. -/
theorem unit_suffix_unique (a b s₁ s₂ : String)
    (h₁ : s₁ = "Gi" ∨ s₁ = "Mi" ∨ s₁ = "Ki" ∨ s₁ = "B")
    (h₂ : s₂ = "Gi" ∨ s₂ = "Mi" ∨ s₂ = "Ki" ∨ s₂ = "B")
    (h : a ++ s₁ = b ++ s₂) : s₁ = s₂ := by
  have hd : (a.data ++ s₁.data).reverse = (b.data ++ s₂.data).reverse := by
    rw [← String.data_append, ← String.data_append, h]
  rw [List.reverse_append, List.reverse_append] at hd
  rcases h₁ with h₁ | h₁ | h₁ | h₁ <;> rcases h₂ with h₂ | h₂ | h₂ | h₂ <;>
    subst h₁ <;> subst h₂ <;> first | rfl | (exfalso; simp at hd)

/-- The branch that `formatMemory` takes and the suffix it writes. -/
theorem formatMemory_branch (v : Int) :
    ∃ body suffix, formatMemory v = body ++ suffix ∧
      ((GB ≤ v ∧ suffix = "Gi") ∨ (MB ≤ v ∧ v < GB ∧ suffix = "Mi") ∨
        (KB ≤ v ∧ v < MB ∧ suffix = "Ki") ∨ (v < KB ∧ suffix = "B")) := by
  unfold formatMemory
  by_cases hg : v ≥ GB
  · exact ⟨_, "Gi", by rw [if_pos hg], Or.inl ⟨hg, rfl⟩⟩
  · by_cases hm : v ≥ MB
    · exact ⟨_, "Mi", by rw [if_neg hg, if_pos hm], Or.inr (Or.inl ⟨hm, by omega, rfl⟩)⟩
    · by_cases hk : v ≥ KB
      · exact ⟨_, "Ki", by rw [if_neg hg, if_neg hm, if_pos hk],
          Or.inr (Or.inr (Or.inl ⟨hk, by omega, rfl⟩))⟩
      · exact ⟨_, "B", by rw [if_neg hg, if_neg hm, if_neg hk],
          Or.inr (Or.inr (Or.inr ⟨by omega, rfl⟩))⟩

theorem units_values : KB = 2 ^ 10 ∧ MB = 2 ^ 20 ∧ GB = 2 ^ 30 := by decide

/-- The suffix that `formatMemory` writes tells the range of the value. -/
theorem formatMemory_suffix_iff (v : Int) :
    ((∃ body, formatMemory v = body ++ "Gi") ↔ 2 ^ 30 ≤ v) ∧
    ((∃ body, formatMemory v = body ++ "Mi") ↔ 2 ^ 20 ≤ v ∧ v < 2 ^ 30) ∧
    ((∃ body, formatMemory v = body ++ "Ki") ↔ 2 ^ 10 ≤ v ∧ v < 2 ^ 20) ∧
    ((∃ body, formatMemory v = body ++ "B") ↔ v < 2 ^ 10) := by
  obtain ⟨hK, hM, hG⟩ := units_values
  obtain ⟨body, suffix, htext, hcase⟩ := formatMemory_branch v
  rw [hK, hM, hG] at hcase
  have hsuffix : suffix = "Gi" ∨ suffix = "Mi" ∨ suffix = "Ki" ∨ suffix = "B" := by
    rcases hcase with h | h | h | h
    · exact Or.inl h.2
    · exact Or.inr (Or.inl h.2.2)
    · exact Or.inr (Or.inr (Or.inl h.2.2))
    · exact Or.inr (Or.inr (Or.inr h.2))
  have huniq : ∀ s, (s = "Gi" ∨ s = "Mi" ∨ s = "Ki" ∨ s = "B") →
      ((∃ body', formatMemory v = body' ++ s) ↔ suffix = s) := by
    intro s hs
    constructor
    · rintro ⟨body', h'⟩
      rw [htext] at h'
      exact unit_suffix_unique body body' suffix s hsuffix hs h'
    · intro h
      exact ⟨body, by rw [htext, h]⟩
  rw [huniq "Gi" (by simp), huniq "Mi" (by simp), huniq "Ki" (by simp), huniq "B" (by simp)]
  rcases hcase with ⟨h₁, h₂⟩ | ⟨h₁, h₂, h₃⟩ | ⟨h₁, h₂, h₃⟩ | ⟨h₁, h₂⟩
  · subst h₂
    refine ⟨?_, ?_, ?_, ?_⟩
    · simp only [true_iff]; exact h₁
    · constructor
      · intro h; exact absurd h (by decide)
      · intro h; omega
    · constructor
      · intro h; exact absurd h (by decide)
      · intro h; omega
    · constructor
      · intro h; exact absurd h (by decide)
      · intro h; omega
  · subst h₃
    refine ⟨?_, ?_, ?_, ?_⟩
    · constructor
      · intro h; exact absurd h (by decide)
      · intro h; omega
    · simp only [true_iff]; exact ⟨h₁, h₂⟩
    · constructor
      · intro h; exact absurd h (by decide)
      · intro h; omega
    · constructor
      · intro h; exact absurd h (by decide)
      · intro h; omega
  · subst h₃
    refine ⟨?_, ?_, ?_, ?_⟩
    · constructor
      · intro h; exact absurd h (by decide)
      · intro h; omega
    · constructor
      · intro h; exact absurd h (by decide)
      · intro h; omega
    · simp only [true_iff]; exact ⟨h₁, h₂⟩
    · constructor
      · intro h; exact absurd h (by decide)
      · intro h; omega
  · subst h₂
    refine ⟨?_, ?_, ?_, ?_⟩
    · constructor
      · intro h; exact absurd h (by decide)
      · intro h; omega
    · constructor
      · intro h; exact absurd h (by decide)
      · intro h; omega
    · constructor
      · intro h; exact absurd h (by decide)
      · intro h; omega
    · simp only [true_iff]; exact h₁

/-- The text and the accuracy of `formatMemory` in a unit branch. -/
theorem formatMemory_unit (v : Int) (unit : Int) (hunit : 0 < unit) (hv : unit ≤ v) :
    ∃ t : Nat,
      formatFixed 2 (float64Quotient v.toNat unit.toNat) =
        Nat.repr (t / 100) ++ "." ++
          String.mk [Nat.digitChar (t % 100 / 10), Nat.digitChar (t % 100 % 10)] ∧
      2 ^ 51 * |unit * t - 100 * v| ≤ 2 ^ 50 * unit + 100 * v := by
  obtain ⟨t, htext, hnear⟩ := formatFixed_two v.toNat unit.toNat (by omega) (by omega)
  have h₁ : ((v.toNat : Nat) : Int) = v := Int.toNat_of_nonneg (by omega)
  have h₂ : ((unit.toNat : Nat) : Int) = unit := Int.toNat_of_nonneg (by omega)
  rw [h₁, h₂] at hnear
  exact ⟨t, htext, hnear⟩

/-- C19. For every byte count `v`: below `2^10`, `formatMemory v` is the
decimal rendering of `v` followed by `B`; from `2^10` it is the `float64`
quotient of `v` by the largest of the units `2^10`, `2^20`, `2^30` not
exceeding `v`, printed by `%.2f` (a decimal number with exactly two digits
after the point, `t` hundredths say) and followed by `Ki`, `Mi` or `Gi` for
that unit.  The printed number is less than one hundredth away from `v / unit`
for every `int64` `v`, and within half a hundredth when `100 v < 2^51`.  The
text ends in `Gi` iff `v ≥ 2^30`, in `Mi` iff `2^20 ≤ v < 2^30`, in `Ki` iff
`2^10 ≤ v < 2^20`, and in `B` iff `v < 2^10`.  In particular
`formatMemory (1<<30) = "1.00Gi"`, `formatMemory (1<<20) = "1.00Mi"` and
`formatMemory 1023 = "1023B"`. -/
theorem formatMemory_spec (v : Int) :
    (v < 2 ^ 10 → formatMemory v = formatInt v ++ "B") ∧
    (∀ (k : Nat) (suffix : String),
      (k = 10 ∧ suffix = "Ki" ∧ 2 ^ 10 ≤ v ∧ v < 2 ^ 20) ∨
      (k = 20 ∧ suffix = "Mi" ∧ 2 ^ 20 ≤ v ∧ v < 2 ^ 30) ∨
      (k = 30 ∧ suffix = "Gi" ∧ 2 ^ 30 ≤ v) →
      ∃ t : Nat,
        formatMemory v =
          Nat.repr (t / 100) ++ "." ++
            String.mk [Nat.digitChar (t % 100 / 10), Nat.digitChar (t % 100 % 10)] ++ suffix ∧
        2 ^ 51 * |2 ^ k * (t : Int) - 100 * v| ≤ 2 ^ 50 * 2 ^ k + 100 * v ∧
        (v < 2 ^ 63 → |2 ^ k * (t : Int) - 100 * v| < 2 ^ k) ∧
        (100 * v < 2 ^ 51 → 2 * |2 ^ k * (t : Int) - 100 * v| ≤ 2 ^ k)) ∧
    ((∃ body, formatMemory v = body ++ "Gi") ↔ 2 ^ 30 ≤ v) ∧
    ((∃ body, formatMemory v = body ++ "Mi") ↔ 2 ^ 20 ≤ v ∧ v < 2 ^ 30) ∧
    ((∃ body, formatMemory v = body ++ "Ki") ↔ 2 ^ 10 ≤ v ∧ v < 2 ^ 20) ∧
    ((∃ body, formatMemory v = body ++ "B") ↔ v < 2 ^ 10) ∧
    formatMemory 1073741824 = "1.00Gi" ∧ formatMemory 1048576 = "1.00Mi" ∧
    formatMemory 1023 = "1023B" := by
  obtain ⟨hK, hM, hG⟩ := units_values
  refine ⟨?_, ?_, (formatMemory_suffix_iff v).1, (formatMemory_suffix_iff v).2.1,
    (formatMemory_suffix_iff v).2.2.1, (formatMemory_suffix_iff v).2.2.2,
    formatMemory_examples⟩
  · intro h
    unfold formatMemory
    rw [if_neg (by rw [hG]; omega), if_neg (by rw [hM]; omega), if_neg (by rw [hK]; omega)]
  · intro k suffix hcase
    have key : ∃ t : Nat,
        formatMemory v =
          Nat.repr (t / 100) ++ "." ++
            String.mk [Nat.digitChar (t % 100 / 10), Nat.digitChar (t % 100 % 10)] ++ suffix ∧
        2 ^ 51 * |2 ^ k * (t : Int) - 100 * v| ≤ 2 ^ 50 * 2 ^ k + 100 * v := by
      rcases hcase with ⟨rfl, rfl, h₁, h₂⟩ | ⟨rfl, rfl, h₁, h₂⟩ | ⟨rfl, rfl, h₁⟩
      · obtain ⟨t, htext, hnear⟩ := formatMemory_unit v KB (by decide) (by rw [hK]; omega)
        refine ⟨t, ?_, by rw [hK] at hnear; exact hnear⟩
        unfold formatMemory
        rw [if_neg (by rw [hG]; omega), if_neg (by rw [hM]; omega),
          if_pos (by rw [hK]; omega), htext]
      · obtain ⟨t, htext, hnear⟩ := formatMemory_unit v MB (by decide) (by rw [hM]; omega)
        refine ⟨t, ?_, by rw [hM] at hnear; exact hnear⟩
        unfold formatMemory
        rw [if_neg (by rw [hG]; omega), if_pos (by rw [hM]; omega), htext]
      · obtain ⟨t, htext, hnear⟩ := formatMemory_unit v GB (by decide) (by rw [hG]; omega)
        refine ⟨t, ?_, by rw [hG] at hnear; exact hnear⟩
        unfold formatMemory
        rw [if_pos (by rw [hG]; omega), htext]
    obtain ⟨t, htext, hnear⟩ := key
    refine ⟨t, htext, hnear, ?_, ?_⟩
    · intro h63
      rcases hcase with ⟨rfl, _, h₁, h₂⟩ | ⟨rfl, _, h₁, h₂⟩ | ⟨rfl, _, h₁⟩ <;>
        rcases abs_cases ((2 : Int) ^ _ * t - 100 * v) with ⟨h₃, _⟩ | ⟨h₃, _⟩ <;>
        rw [h₃] at hnear ⊢ <;> omega
    · intro hsmall
      rcases hcase with ⟨rfl, _, h₁, h₂⟩ | ⟨rfl, _, h₁, h₂⟩ | ⟨rfl, _, h₁⟩ <;>
        rcases abs_cases ((2 : Int) ^ _ * t - 100 * v) with ⟨h₃, _⟩ | ⟨h₃, _⟩ <;>
        rw [h₃] at hnear ⊢ <;> omega

/-- C18 at a concrete input: `formatCPU 1250` prints a number of tenths within
half a tenth of `1.25`. -/
theorem formatCPU_spec_witness :
    ∃ t : Nat,
      formatCPU 1250 = Nat.repr (t / 10) ++ "." ++ String.mk [Nat.digitChar (t % 10)] ∧
      |100 * (t : Int) - 1250| ≤ 50 :=
  match (formatCPU_spec 1250).2.1 (by decide) with
  | ⟨t, htext, _, hnear⟩ => ⟨t, htext, hnear (by decide)⟩

set_option maxRecDepth 4000 in
/-- C18 fails as stated for large values: for the largest `int64`,
`m = 9223372036854775807`, `m / 1000` is `9223372036854775.807`, and `formatCPU`
prints `9223372036854776.0`, which is 193 thousandths away (more than a tenth):
`float64(m)` is `2^63` and the quotient is rounded to a `float64` again. -/
theorem formatCPU_max_int64 :
    formatCPU 9223372036854775807 = "9223372036854776.0" ∧
    (1000 : Int) ≤ 9223372036854775807 ∧ (9223372036854775807 : Int) < 2 ^ 63 ∧
    100 * (92233720368547760 : Int) - 9223372036854775807 = 193 := by
  decide

/-- C19 at a concrete input: `formatMemory 1536` is `1.50Ki`. -/
theorem formatMemory_spec_witness :
    ∃ t : Nat,
      formatMemory 1536 =
        Nat.repr (t / 100) ++ "." ++
          String.mk [Nat.digitChar (t % 100 / 10), Nat.digitChar (t % 100 % 10)] ++ "Ki" ∧
      2 * |2 ^ 10 * (t : Int) - 100 * 1536| ≤ 2 ^ 10 :=
  match (formatMemory_spec 1536).2.1 10 "Ki" (Or.inl ⟨rfl, rfl, by decide, by decide⟩) with
  | ⟨t, htext, _, _, hnear⟩ => ⟨t, htext, hnear (by decide)⟩

/-! ## The token cache of the token-app client -/

theorem refreshAccessToken_posts (env : Feishu.Env) (w : Feishu.World) :
    (Feishu.refreshAccessToken env w).2.posts = w.posts + 1 := by
  unfold Feishu.refreshAccessToken
  cases env.post w.posts with
  | transportError err => rfl
  | response statusCode body =>
    by_cases hs : statusCode = 200
    · cases body with
      | error err => simp [hs]
      | ok response =>
        by_cases hc : response.Code = 0 <;> simp [hs, hc]
    · simp [hs]

theorem getAccessToken_cached (env : Feishu.Env) (w : Feishu.World)
    (h : env.now w.clock ≤ w.client.tokenExpiry) :
    Feishu.getAccessToken env w =
      ((w.client.accessToken, none), { w with clock := w.clock + 1 }) := by
  unfold Feishu.getAccessToken
  simp only [gt_iff_lt, not_lt.mpr h, if_false]

theorem getAccessToken_posts (env : Feishu.Env) (w : Feishu.World) :
    (Feishu.getAccessToken env w).2.posts =
      if w.client.tokenExpiry < env.now w.clock then w.posts + 1 else w.posts := by
  by_cases h : w.client.tokenExpiry < env.now w.clock
  · have hp := refreshAccessToken_posts env { w with clock := w.clock + 1 }
    unfold Feishu.getAccessToken
    simp only [gt_iff_lt, h, if_true]
    cases hr : Feishu.refreshAccessToken env { w with clock := w.clock + 1 } with
    | mk err w' =>
      rw [hr] at hp
      cases err <;> simpa using hp
  · rw [getAccessToken_cached env w (not_lt.mp h)]
    simp [h]

theorem getAccessToken_granted (env : Feishu.Env) (w : Feishu.World) (token : String)
    (expire : Int) (h : w.client.tokenExpiry < env.now w.clock)
    (hp : env.post w.posts = .response 200 (.ok ⟨0, token, expire⟩)) :
    Feishu.getAccessToken env w =
      ((token, none),
        { client := { w.client with
            accessToken := token
            tokenExpiry := env.now (w.clock + 1) + Feishu.slackDuration expire },
          clock := w.clock + 2, posts := w.posts + 1 }) := by
  unfold Feishu.getAccessToken Feishu.refreshAccessToken
  simp [h, hp]

theorem getAccessToken_refused (env : Feishu.Env) (w : Feishu.World) (code : Int)
    (token : String) (expire : Int) (h : w.client.tokenExpiry < env.now w.clock)
    (hc : code ≠ 0) (hp : env.post w.posts = .response 200 (.ok ⟨code, token, expire⟩)) :
    Feishu.getAccessToken env w =
      (("", some ("failed to refresh access token, code: " ++ formatInt code)),
        { client := w.client, clock := w.clock + 1, posts := w.posts + 1 }) := by
  unfold Feishu.getAccessToken Feishu.refreshAccessToken
  simp [h, hp, hc]

theorem slackDuration_of_range (expire : Int) (h₁ : -9223372036 ≤ expire - 300)
    (h₂ : expire - 300 ≤ 9223372036) :
    Feishu.slackDuration expire = (expire - 300) * 1000000000 := by
  unfold Feishu.slackDuration wrapInt64
  have e1 : (expire - 300 + 2 ^ 63) % 2 ^ 64 = expire - 300 + 2 ^ 63 := by
    apply Int.emod_eq_of_lt <;> omega
  rw [e1]
  have e2 : (expire - 300 + 2 ^ 63 - 2 ^ 63) = expire - 300 := by ring
  rw [e2]
  have e3 : ((expire - 300) * 1000000000 + 2 ^ 63) % 2 ^ 64 =
      (expire - 300) * 1000000000 + 2 ^ 63 := by
    apply Int.emod_eq_of_lt <;> omega
  rw [e3]
  ring

/-- C21 (amended). `getAccessToken` posts to the app-token endpoint exactly when
the clock reads strictly after the expiry; at or before the expiry it returns
the cached token and changes nothing but the clock.  A granted refresh installs
the new token and the expiry `fetchTime + slackDuration expire`, which is
`fetchTime + (expire - 300)` seconds whenever that many nanoseconds fit in 64
bits; a refresh answered with a code other than 0 returns the error and leaves
the client as it was. -/
theorem getAccessToken_refresh_policy (env : Feishu.Env) (w : Feishu.World) :
    ((Feishu.getAccessToken env w).2.posts = w.posts + 1 ↔
      w.client.tokenExpiry < env.now w.clock) ∧
    ((Feishu.getAccessToken env w).2.posts = w.posts ↔
      env.now w.clock ≤ w.client.tokenExpiry) ∧
    (env.now w.clock ≤ w.client.tokenExpiry →
      Feishu.getAccessToken env w =
        ((w.client.accessToken, none), { w with clock := w.clock + 1 })) ∧
    (∀ token expire, w.client.tokenExpiry < env.now w.clock →
      env.post w.posts = .response 200 (.ok ⟨0, token, expire⟩) →
      (Feishu.getAccessToken env w).1 = (token, none) ∧
      (Feishu.getAccessToken env w).2.client.accessToken = token ∧
      (Feishu.getAccessToken env w).2.client.tokenExpiry =
        env.now (w.clock + 1) + Feishu.slackDuration expire ∧
      (-9223372036 ≤ expire - 300 → expire - 300 ≤ 9223372036 →
        (Feishu.getAccessToken env w).2.client.tokenExpiry =
          env.now (w.clock + 1) + (expire - 300) * 1000000000)) ∧
    (∀ code token expire, w.client.tokenExpiry < env.now w.clock → code ≠ 0 →
      env.post w.posts = .response 200 (.ok ⟨code, token, expire⟩) →
      (Feishu.getAccessToken env w).1 =
        ("", some ("failed to refresh access token, code: " ++ formatInt code)) ∧
      (Feishu.getAccessToken env w).2.client = w.client) := by
  have hposts := getAccessToken_posts env w
  refine ⟨?_, ?_, getAccessToken_cached env w, ?_, ?_⟩
  · rw [hposts]
    by_cases h : w.client.tokenExpiry < env.now w.clock <;> simp [h]
  · rw [hposts]
    by_cases h : w.client.tokenExpiry < env.now w.clock
    · simp [h]
    · simp [h, not_lt.mp h]
  · intro token expire h hp
    rw [getAccessToken_granted env w token expire h hp]
    refine ⟨rfl, rfl, rfl, ?_⟩
    intro h₁ h₂
    show env.now (w.clock + 1) + Feishu.slackDuration expire = _
    rw [slackDuration_of_range expire h₁ h₂]
  · intro code token expire h hc hp
    rw [getAccessToken_refused env w code token expire h hc hp]
    exact ⟨rfl, rfl⟩

/-- Read one second after the expiry, the client of `boundaryWorld` refreshes:
it returns the granted token `t-2`, which expires 6900 seconds after the
fetch. -/
theorem getAccessToken_refresh_policy_witness :
    (Feishu.getAccessToken Feishu.lateEnv Feishu.boundaryWorld).1 = ("t-2", none) ∧
    (Feishu.getAccessToken Feishu.lateEnv Feishu.boundaryWorld).2.client.accessToken = "t-2" ∧
    (Feishu.getAccessToken Feishu.lateEnv Feishu.boundaryWorld).2.client.tokenExpiry =
      6000000000 + (7200 - 300) * 1000000000 :=
  have h := (getAccessToken_refresh_policy Feishu.lateEnv Feishu.boundaryWorld).2.2.2.1
    "t-2" 7200 (by decide) rfl
  ⟨h.1, h.2.1, h.2.2.2 (by decide) (by decide)⟩

/-- C21 as stated fails: read exactly at the expiry (so `now ≥ expiry`), the
client makes no request and returns the cached token `t-1`; and an `expire` of
9223372337 seconds gives a slack duration that is negative, not
`expire - 300` seconds. -/
theorem getAccessToken_at_expiry_keeps_token :
    Feishu.boundaryEnv.now Feishu.boundaryWorld.clock ≥
      Feishu.boundaryWorld.client.tokenExpiry ∧
    (Feishu.getAccessToken Feishu.boundaryEnv Feishu.boundaryWorld).2.posts =
      Feishu.boundaryWorld.posts ∧
    (Feishu.getAccessToken Feishu.boundaryEnv Feishu.boundaryWorld).1 = ("t-1", none) ∧
    Feishu.slackDuration 9223372337 = -9223372036709551616 ∧
    Feishu.slackDuration 9223372337 ≠ (9223372337 - 300) * 1000000000 := by
  refine ⟨by decide, by decide, by decide, by decide, by decide⟩

/-! ## The requests of the signed-webhook client -/

/-- C22 (the code departs from it). Whatever the message and the reply,
`SendMessage` posts to the webhook URL with `timestamp` and `sign` appended,
and the request carries no body at all; `SendImage`, its sibling, posts the
marshalled JSON to the same URL. -/
theorem SendMessage_posts_no_body (lib : DingTalk.Lib) (c : DingTalk.Client)
    (timestamp : Int) (reply : DingTalk.Reply) (message : String) (imageData : List Nat) :
    (DingTalk.SendMessage lib c timestamp reply message).2.url =
      c.webhook ++ "&timestamp=" ++ formatInt timestamp ++ "&sign=" ++
        lib.queryEscape (lib.base64 (lib.hmacSHA256 c.secret
          (formatInt timestamp ++ "\n" ++ c.secret))) ∧
    (DingTalk.SendMessage lib c timestamp reply message).2.body = none ∧
    (DingTalk.SendMessage lib c timestamp reply message).2.body ≠
      some (DingTalk.textBody lib message) ∧
    (DingTalk.SendImage lib c timestamp reply imageData message).2.url =
      (DingTalk.SendMessage lib c timestamp reply message).2.url ∧
    (DingTalk.SendImage lib c timestamp reply imageData message).2.body =
      some (DingTalk.markdownBody lib imageData message) := by
  unfold DingTalk.SendMessage DingTalk.SendImage DingTalk.generateSignature
  cases reply with
  | transportError err => simp
  | response statusCode =>
    by_cases h : statusCode = 200 <;> simp [h]

/-! ## The command handler -/

theorem handleClusterCommand_malformed (env : HandlerEnv) (h : Handler) (rest : List String)
    (hm : Malformed ("cluster" :: rest)) :
    ∃ err, h.handleClusterCommand env rest = (.returned "" (some err), []) := by
  unfold Handler.handleClusterCommand
  rcases rest with _ | ⟨sub, args⟩
  · exact ⟨_, rfl⟩
  · by_cases h1 : sub = "status"
    · subst h1
      simp [Malformed, MissingArguments, FewerThan, requiredArguments] at hm
      simp [hm]
    by_cases h2 : sub = "metrics"
    · subst h2
      simp [Malformed, MissingArguments, FewerThan, requiredArguments] at hm
      simp [hm]
    by_cases h3 : sub = "chart"
    · subst h3
      simp [Malformed, MissingArguments, FewerThan, requiredArguments] at hm
      simp [hm]
    simp [h1, h2, h3]

theorem handlePodCommand_malformed (h : Handler) (rest : List String)
    (hm : Malformed ("pod" :: rest)) :
    ∃ err, h.handlePodCommand rest = (.returned "" (some err), []) := by
  unfold Handler.handlePodCommand
  rcases rest with _ | ⟨sub, args⟩
  · exact ⟨_, rfl⟩
  · by_cases h1 : sub = "list"
    · subst h1
      have hl : args.length < 2 := by simpa [Malformed, MissingArguments, FewerThan, requiredArguments] using hm
      have : args.length + 1 < 3 := by omega
      simp [this]
    by_cases h2 : sub = "describe"
    · subst h2
      have hl : args.length < 3 := by simpa [Malformed, MissingArguments, FewerThan, requiredArguments] using hm
      have : args.length + 1 < 4 := by omega
      simp [this]
    by_cases h3 : sub = "logs"
    · subst h3
      have hl : args.length < 3 := by simpa [Malformed, MissingArguments, FewerThan, requiredArguments] using hm
      have : args.length + 1 < 4 := by omega
      simp [this]
    by_cases h4 : sub = "delete"
    · subst h4
      have hl : args.length < 3 := by simpa [Malformed, MissingArguments, FewerThan, requiredArguments] using hm
      have : args.length + 1 < 4 := by omega
      simp [this]
    simp [h1, h2, h3, h4]

theorem handleNodeCommand_malformed (env : HandlerEnv) (h : Handler) (rest : List String)
    (hm : Malformed ("node" :: rest)) :
    ∃ err, h.handleNodeCommand env rest = (.returned "" (some err), []) := by
  unfold Handler.handleNodeCommand
  rcases rest with _ | ⟨sub, args⟩
  · exact ⟨_, rfl⟩
  · by_cases h1 : sub = "list"
    · subst h1
      simp [Malformed, MissingArguments, FewerThan, requiredArguments] at hm
      simp [hm]
    by_cases h2 : sub = "describe"
    · subst h2
      have hl : args.length < 2 := by simpa [Malformed, MissingArguments, FewerThan, requiredArguments] using hm
      have : args.length + 1 < 3 := by omega
      simp [this]
    by_cases h3 : sub = "metrics"
    · subst h3
      simp [Malformed, MissingArguments, FewerThan, requiredArguments] at hm
      simp [hm]
    simp [h1, h2, h3]

theorem handleMonitorCommand_malformed (env : HandlerEnv) (h : Handler) (rest : List String)
    (hm : Malformed ("monitor" :: rest)) :
    ∃ err, h.handleMonitorCommand env rest = (.returned "" (some err), []) := by
  unfold Handler.handleMonitorCommand
  rcases rest with _ | ⟨sub, args⟩
  · exact ⟨_, rfl⟩
  · by_cases h1 : sub = "status"
    · subst h1
      simp [Malformed, MissingArguments, FewerThan, requiredArguments] at hm
      simp [hm]
    by_cases h2 : sub = "alerts"
    · subst h2
      simp [Malformed, MissingArguments, FewerThan, requiredArguments] at hm
      simp [hm]
    by_cases h3 : sub = "chart"
    · subst h3
      simp [Malformed, MissingArguments, FewerThan, requiredArguments] at hm
      simp [hm]
    simp [h1, h2, h3]

/-- The dispatch of `HandleCommand` on the fields of the command. -/
theorem HandleCommand_of_fields (env : HandlerEnv) (h : Handler) (command verb : String)
    (rest : List String) (hf : Fields command = verb :: rest) :
    h.HandleCommand env command =
      if verb = "cluster" then h.handleClusterCommand env rest
      else if verb = "pod" then h.handlePodCommand rest
      else if verb = "node" then h.handleNodeCommand env rest
      else if verb = "monitor" then h.handleMonitorCommand env rest
      else if verb = "help" then (.returned h.showHelp none, [])
      else (.returned "" (some ("unknown command: " ++ verb)), []) := by
  unfold Handler.HandleCommand
  simp [hf]

/-- C23. A command whose fields are malformed (no field, an unknown verb, a
verb without a subcommand or with an unknown one, or too few arguments) makes
`HandleCommand` return an empty result with an error, and the handler calls none
of its collaborators: no cluster is queried. -/
theorem HandleCommand_rejects_malformed (env : HandlerEnv) (h : Handler) (command : String)
    (hm : Malformed (Fields command)) :
    ∃ err, h.HandleCommand env command = (.returned "" (some err), []) := by
  cases hf : Fields command with
  | nil =>
    unfold Handler.HandleCommand
    simp [hf]
  | cons verb rest =>
    rw [hf] at hm
    rw [HandleCommand_of_fields env h command verb rest hf]
    by_cases h1 : verb = "cluster"
    · subst h1
      simpa using handleClusterCommand_malformed env h rest hm
    by_cases h2 : verb = "pod"
    · subst h2
      simpa using handlePodCommand_malformed h rest hm
    by_cases h3 : verb = "node"
    · subst h3
      simpa using handleNodeCommand_malformed env h rest hm
    by_cases h4 : verb = "monitor"
    · subst h4
      simpa using handleMonitorCommand_malformed env h rest hm
    by_cases h5 : verb = "help"
    · subst h5
      simp [Malformed] at hm
    simp [h1, h2, h3, h4, h5]

/-- The malformed commands of the handler's test, and one of each other sort,
are rejected by a handler built without registry and service. -/
theorem HandleCommand_rejects_malformed_witness :
    (∃ err, (NewHandler none none).HandleCommand quietHandlerEnv "" =
      (.returned "" (some err), [])) ∧
    (∃ err, (NewHandler none none).HandleCommand quietHandlerEnv " \t\n" =
      (.returned "" (some err), [])) ∧
    (∃ err, (NewHandler none none).HandleCommand quietHandlerEnv "unknown" =
      (.returned "" (some err), [])) ∧
    (∃ err, (NewHandler none none).HandleCommand quietHandlerEnv "node" =
      (.returned "" (some err), [])) ∧
    (∃ err, (NewHandler none none).HandleCommand quietHandlerEnv "monitor restart prod" =
      (.returned "" (some err), [])) ∧
    (∃ err, (NewHandler none none).HandleCommand quietHandlerEnv "pod logs prod default" =
      (.returned "" (some err), [])) :=
  ⟨HandleCommand_rejects_malformed _ _ _ (by decide),
   HandleCommand_rejects_malformed _ _ _ (by decide),
   HandleCommand_rejects_malformed _ _ _ (by decide),
   HandleCommand_rejects_malformed _ _ _ (by decide),
   HandleCommand_rejects_malformed _ _ _ (by decide),
   HandleCommand_rejects_malformed _ _ _ (by decide)⟩

/-- C24. Whatever the handler holds, also when it was built without registry
and without monitoring service, `HandleCommand("help")` returns the help text
and no error, calls no collaborator, and the text is not empty and begins with
`Available commands:`. -/
theorem HandleCommand_help (env : HandlerEnv) (h : Handler) :
    h.HandleCommand env "help" = (.returned h.showHelp none, []) ∧
    (NewHandler none none).HandleCommand env "help" =
      (.returned (NewHandler none none).showHelp none, []) ∧
    h.showHelp ≠ "" ∧
    ("Available commands:" : String).data <+: h.showHelp.data := by
  have hf : Fields "help" = ["help"] := by decide
  refine ⟨?_, ?_, ?_, ?_⟩
  · rw [HandleCommand_of_fields env h "help" "help" [] hf]
    simp
  · rw [HandleCommand_of_fields env _ "help" "help" [] hf]
    simp
  · unfold Handler.showHelp
    decide
  · unfold Handler.showHelp
    decide

theorem getClusterStatus_of_GetClient (h : Handler) (name : String) :
    h.getClusterStatus name =
      match Kubernetes.Manager.GetClient h.resources.manager name with
      | .panic reason => (.panic reason, [.ListNodes name])
      | .error err => (.returned "" (some err), [.ListNodes name])
      | .ok _ => h.getClusterStatus name := by
  unfold Handler.getClusterStatus Resources.ListNodes
  cases Kubernetes.Manager.GetClient h.resources.manager name <;> rfl

theorem listPods_of_GetClient (h : Handler) (name namespace_ : String) :
    h.listPods name namespace_ =
      match Kubernetes.Manager.GetClient h.resources.manager name with
      | .panic reason => (.panic reason, [.ListPods name namespace_])
      | .error err => (.returned "" (some err), [.ListPods name namespace_])
      | .ok _ => h.listPods name namespace_ := by
  unfold Handler.listPods Resources.ListPods
  cases Kubernetes.Manager.GetClient h.resources.manager name <;> rfl

theorem HandleCommand_cluster_status (env : HandlerEnv) (h : Handler) (command name : String)
    (hf : Fields command = ["cluster", "status", name]) :
    h.HandleCommand env command = h.getClusterStatus name := by
  rw [HandleCommand_of_fields env h command _ _ hf]
  simp [Handler.handleClusterCommand]

theorem HandleCommand_pod_list (env : HandlerEnv) (h : Handler)
    (command name namespace_ : String)
    (hf : Fields command = ["pod", "list", name, namespace_]) :
    h.HandleCommand env command = h.listPods name namespace_ := by
  rw [HandleCommand_of_fields env h command _ _ hf]
  simp [Handler.handlePodCommand]

/-- C25 (the code departs from it for a handler without registry). For a
handler whose registry lacks the named cluster, `cluster status <name>` and
`pod list <name> <namespace>` return an empty result with the error
`cluster not found: <name>`.  For a handler built on the `nil` registry the same
commands panic in `Manager.GetClient` and return nothing. -/
theorem HandleCommand_unknown_cluster (env : HandlerEnv) (h : Handler)
    (command name namespace_ : String) :
    (∀ m, h.resources.manager = some m → mapGet name m.clients = none →
      (Fields command = ["cluster", "status", name] →
        h.HandleCommand env command =
          (.returned "" (some ("cluster not found: " ++ name)), [.ListNodes name])) ∧
      (Fields command = ["pod", "list", name, namespace_] →
        h.HandleCommand env command =
          (.returned "" (some ("cluster not found: " ++ name)),
            [.ListPods name namespace_]))) ∧
    (h.resources.manager = none →
      (Fields command = ["cluster", "status", name] →
        h.HandleCommand env command = (.panic nilDereference, [.ListNodes name])) ∧
      (Fields command = ["pod", "list", name, namespace_] →
        h.HandleCommand env command =
          (.panic nilDereference, [.ListPods name namespace_]))) := by
  refine ⟨fun m hm hget => ⟨fun hf => ?_, fun hf => ?_⟩, fun hm => ⟨fun hf => ?_, fun hf => ?_⟩⟩
  · rw [HandleCommand_cluster_status env h command name hf, getClusterStatus_of_GetClient]
    simp [Kubernetes.Manager.GetClient, hm, hget]
  · rw [HandleCommand_pod_list env h command name namespace_ hf, listPods_of_GetClient]
    simp [Kubernetes.Manager.GetClient, hm, hget]
  · rw [HandleCommand_cluster_status env h command name hf, getClusterStatus_of_GetClient]
    simp [Kubernetes.Manager.GetClient, hm]
  · rw [HandleCommand_pod_list env h command name namespace_ hf, listPods_of_GetClient]
    simp [Kubernetes.Manager.GetClient, hm]

/-- The two commands of the handler's test: on a handler whose registry holds
only `prod` they return the error, on the handler of the test, built with
`NewHandler(nil, nil)`, they panic. -/
theorem HandleCommand_unknown_cluster_witness :
    (NewHandler (some prodRegistry) none).HandleCommand quietHandlerEnv "cluster status test" =
      (.returned "" (some "cluster not found: test"), [.ListNodes "test"]) ∧
    (NewHandler (some prodRegistry) none).HandleCommand quietHandlerEnv
        "pod list test default" =
      (.returned "" (some "cluster not found: test"), [.ListPods "test" "default"]) ∧
    (NewHandler none none).HandleCommand quietHandlerEnv "cluster status test" =
      (.panic nilDereference, [.ListNodes "test"]) ∧
    (NewHandler none none).HandleCommand quietHandlerEnv "pod list test default" =
      (.panic nilDereference, [.ListPods "test" "default"]) :=
  ⟨((HandleCommand_unknown_cluster quietHandlerEnv (NewHandler (some prodRegistry) none)
      "cluster status test" "test" "default").1 prodRegistry rfl rfl).1 (by decide),
   ((HandleCommand_unknown_cluster quietHandlerEnv (NewHandler (some prodRegistry) none)
      "pod list test default" "test" "default").1 prodRegistry rfl rfl).2 (by decide),
   ((HandleCommand_unknown_cluster quietHandlerEnv (NewHandler none none)
      "cluster status test" "test" "default").2 rfl).1 (by decide),
   ((HandleCommand_unknown_cluster quietHandlerEnv (NewHandler none none)
      "pod list test default" "test" "default").2 rfl).2 (by decide)⟩

/-! ## Loading the configuration -/

/-- C26. When `Load` succeeds, the file was read and decoded, and the result is
the decoded configuration except for the server port: 8080 where the decoder
left 0 (no port given, or 0 given), the decoded port otherwise; so the port of a
loaded configuration is never 0.  `Load` succeeds whenever the file exists, is
read and decodes. -/
theorem Load_port_default (source : ConfigSource) (path : String) :
    (∀ config err, Load source path = (some config, err) →
      ∃ data parsed, source.notExist path = false ∧ source.readFile path = .ok data ∧
        source.unmarshal data = .ok parsed ∧ err = none ∧
        config.Server.Port = (if parsed.Server.Port = 0 then 8080 else parsed.Server.Port) ∧
        config.Server.Port ≠ 0 ∧
        config.Kubernetes = parsed.Kubernetes ∧ config.Messaging = parsed.Messaging ∧
        config.OpenClaw = parsed.OpenClaw) ∧
    (∀ data parsed, source.notExist path = false → source.readFile path = .ok data →
      source.unmarshal data = .ok parsed →
      ∃ config, Load source path = (some config, none)) := by
  constructor
  · intro config err h
    unfold Load at h
    cases hn : source.notExist path with
    | true => simp [hn] at h
    | false =>
      simp only [hn, Bool.false_eq_true, if_false] at h
      cases hr : source.readFile path with
      | error e => simp [hr] at h
      | ok data =>
        simp only [hr] at h
        cases hu : source.unmarshal data with
        | error e => simp [hu] at h
        | ok parsed =>
          simp only [hu, Prod.mk.injEq, Option.some.injEq] at h
          obtain ⟨hc, he⟩ := h
          refine ⟨data, parsed, rfl, rfl, hu, he.symm, ?_⟩
          subst hc
          by_cases hp : parsed.Server.Port = 0
          · simp [hp]
          · simp [hp]
  · intro data parsed hn hr hu
    unfold Load
    simp [hn, hr, hu]

/-- The example file gives no port: the loaded configuration has port 8080 and
the cluster of the file. -/
theorem Load_port_default_witness :
    ∃ data parsed, exampleSource.notExist "config.yaml" = false ∧
      exampleSource.readFile "config.yaml" = .ok data ∧
      exampleSource.unmarshal data = .ok parsed ∧ (none : Option String) = none ∧
      ({ exampleConfig with Server := ⟨8080⟩ } : Config).Server.Port =
        (if parsed.Server.Port = 0 then 8080 else parsed.Server.Port) ∧
      ({ exampleConfig with Server := ⟨8080⟩ } : Config).Server.Port ≠ 0 ∧
      ({ exampleConfig with Server := ⟨8080⟩ } : Config).Kubernetes = parsed.Kubernetes ∧
      ({ exampleConfig with Server := ⟨8080⟩ } : Config).Messaging = parsed.Messaging ∧
      ({ exampleConfig with Server := ⟨8080⟩ } : Config).OpenClaw = parsed.OpenClaw :=
  (Load_port_default exampleSource "config.yaml").1 { exampleConfig with Server := ⟨8080⟩ } none
    rfl

/-! ## The cluster route of the query API -/

theorem handleGetClusterLoop_eq (s : Server) (name : String) (clusters : List ClusterConfig) :
    s.handleGetClusterLoop name clusters =
      match clusters.find? (fun cluster => cluster.Name = name) with
      | some cluster => ⟨"application/json", 200, .cluster cluster⟩
      | none => ⟨"application/json", 404, .stringMap [("error", "Cluster not found")]⟩ := by
  induction clusters with
  | nil => rfl
  | cons cluster rest ih =>
    unfold Server.handleGetClusterLoop
    by_cases h : cluster.Name = name
    · simp [h, List.find?, Server.respondJSON]
    · simp [h, List.find?, ih]

/-- C27. `GET /api/clusters/` followed by a name answers with status 200 and
the first registered descriptor of that name when there is one, and otherwise
with status 404 and the JSON object whose only member is `error`, with the value
`Cluster not found`. -/
theorem handleGetCluster_spec (s : Server) (name : String) :
    s.handleGetCluster name =
      (match s.k8sManager.GetClusters.find? (fun cluster => cluster.Name = name) with
      | some cluster => ⟨"application/json", 200, .cluster cluster⟩
      | none => ⟨"application/json", 404, .stringMap [("error", "Cluster not found")]⟩) ∧
    ((s.handleGetCluster name).statusCode = 200 ↔
      ∃ cluster ∈ s.k8sManager.GetClusters, cluster.Name = name) ∧
    ((s.handleGetCluster name).statusCode = 404 ↔
      ∀ cluster ∈ s.k8sManager.GetClusters, cluster.Name ≠ name) := by
  have h := handleGetClusterLoop_eq s name s.k8sManager.GetClusters
  unfold Server.handleGetCluster
  rw [h]
  refine ⟨rfl, ?_, ?_⟩
  · cases hf : s.k8sManager.GetClusters.find? (fun cluster => cluster.Name = name) with
    | some cluster =>
      have hm := List.mem_of_find?_eq_some hf
      have hp := List.find?_some hf
      simp only [true_iff]
      exact ⟨cluster, hm, by simpa using hp⟩
    | none =>
      have hn := List.find?_eq_none.mp hf
      simp only [show ((404 : Int) = 200) = False from by decide, false_iff]
      rintro ⟨cluster, hm, hc⟩
      exact absurd (by simpa using hc) (hn cluster hm)
  · cases hf : s.k8sManager.GetClusters.find? (fun cluster => cluster.Name = name) with
    | some cluster =>
      have hm := List.mem_of_find?_eq_some hf
      have hp := List.find?_some hf
      simp only [show ((200 : Int) = 404) = False from by decide, false_iff]
      intro hall
      exact hall cluster hm (by simpa using hp)
    | none =>
      have hn := List.find?_eq_none.mp hf
      simp only [true_iff]
      intro cluster hm hc
      exact absurd (by simpa using hc) (hn cluster hm)

/-! ## The alert store of the legacy manager -/

theorem Monitoring_notify_mgr (env : Env) (call : Call) (failure : String)
    (w : Monitoring.World) :
    (Monitoring.notify env call failure w).mgr = w.mgr ∧
    (Monitoring.notify env call failure w).clock = w.clock := by
  unfold Monitoring.notify
  cases env.send w.calls.length call <;> exact ⟨rfl, rfl⟩

theorem Monitoring_sendAlert_mgr (env : Env) (alert : Alert) (w : Monitoring.World) :
    (Monitoring.sendAlert env alert w).mgr = w.mgr ∧
    (Monitoring.sendAlert env alert w).clock = w.clock := by
  unfold Monitoring.sendAlert
  by_cases hd : w.mgr.dingtalkClient = true <;> by_cases hf : w.mgr.feishuClient = true <;>
    simp [hd, hf, Monitoring_notify_mgr]

theorem Monitoring_raiseAlert_alerts (env : Env)
    (idPrefix clusterName alertType level message : String) (w : Monitoring.World) :
    (Monitoring.raiseAlert env idPrefix clusterName alertType level message w).mgr.alerts =
      mapSet (idPrefix ++ "-" ++ (env.now w.clock).stamp)
        { ID := idPrefix ++ "-" ++ (env.now w.clock).stamp, Cluster := clusterName,
          Type_ := alertType, Level := level, Message := message,
          CreatedAt := env.now (w.clock + 1), Resolved := false } w.mgr.alerts ∧
    (Monitoring.raiseAlert env idPrefix clusterName alertType level message w).clock =
      w.clock + 2 := by
  unfold Monitoring.raiseAlert
  simp only [Monitoring_sendAlert_mgr]
  exact ⟨trivial, trivial⟩

theorem foldl_keeps {α β : Type} (P : α → Prop) (f : α → β → α)
    (h : ∀ a b, P a → P (f a b)) (l : List β) (a : α) (ha : P a) : P (l.foldl f a) := by
  induction l generalizing a with
  | nil => exact ha
  | cons b rest ih => exact ih (f a b) (h a b ha)

/-- A property of the legacy world that every creation of an alert keeps is
kept by a probe of one cluster. -/
theorem Monitoring_checkCluster_keeps (env : Env) (P : Monitoring.World → Prop)
    (hraise : ∀ idPrefix clusterName alertType level message w, P w →
      P (Monitoring.raiseAlert env idPrefix clusterName alertType level message w))
    (clusterName : String) (w : Monitoring.World) (hw : P w) :
    P (Monitoring.checkCluster env clusterName w) := by
  unfold Monitoring.checkCluster
  cases Kubernetes.Manager.GetClient w.mgr.k8sManager clusterName with
  | panic reason => exact hw
  | error err => exact hraise _ _ _ _ _ _ hw
  | ok client =>
    dsimp only
    cases client.listNodes with
    | error err => exact hraise _ _ _ _ _ _ hw
    | ok nodes =>
      dsimp only
      refine foldl_keeps P _ ?_ nodes w hw
      intro w' node hw'
      unfold Monitoring.checkNode
      refine foldl_keeps P _ ?_ node.Conditions w' hw'
      intro w'' condition hw''
      by_cases hc : condition.Type_ = "Ready" ∧ condition.Status ≠ "True"
      · rw [if_pos hc]
        exact hraise _ _ _ _ _ _ hw''
      · rw [if_neg hc]
        exact hw''

theorem Monitoring_checkClusters_keeps (env : Env) (P : Monitoring.World → Prop)
    (hraise : ∀ idPrefix clusterName alertType level message w, P w →
      P (Monitoring.raiseAlert env idPrefix clusterName alertType level message w))
    (w : Monitoring.World) (hw : P w) : P (Monitoring.checkClusters env w) := by
  unfold Monitoring.checkClusters
  cases w.mgr.k8sManager with
  | none => exact hw
  | some k8sManager =>
    exact foldl_keeps P _
      (fun w' cluster hw' => Monitoring_checkCluster_keeps env P hraise cluster.Name w' hw')
      k8sManager.clusters w hw

theorem Monitoring_raiseAlert_wellformed (env : Env)
    (idPrefix clusterName alertType level message : String) (w : Monitoring.World)
    (h : MapWF w.mgr.alerts ∧ AlertsKeyed w.mgr.alerts) :
    MapWF (Monitoring.raiseAlert env idPrefix clusterName alertType level message w).mgr.alerts ∧
    AlertsKeyed
      (Monitoring.raiseAlert env idPrefix clusterName alertType level message w).mgr.alerts := by
  rw [(Monitoring_raiseAlert_alerts env idPrefix clusterName alertType level message w).1]
  exact ⟨MapWF_mapSet _ _ h.1, AlertsKeyed_mapSet rfl h.2⟩

/-- An id that does not end in the second of the clock reading taken for the
new id is left alone by the creation of an alert. -/
theorem Monitoring_raiseAlert_keeps (env : Env)
    (idPrefix clusterName alertType level message id : String) (w : Monitoring.World)
    (h : ¬ EndsInSecond id (env.now w.clock)) :
    mapGet id
        (Monitoring.raiseAlert env idPrefix clusterName alertType level message w).mgr.alerts =
      mapGet id w.mgr.alerts := by
  rw [(Monitoring_raiseAlert_alerts env idPrefix clusterName alertType level message w).1]
  apply mapGet_mapSet_ne
  intro heq
  apply h
  unfold EndsInSecond
  rw [heq]
  simp only [String.data_append]
  exact ⟨idPrefix.data, by simp⟩

theorem Monitoring_ResolveAlert_alerts (env : Env) (alertID : String) (w : Monitoring.World) :
    (Monitoring.ResolveAlert env alertID w).2.mgr.alerts =
      match mapGet alertID w.mgr.alerts with
      | none => w.mgr.alerts
      | some alert => mapSet alertID { alert with Resolved := true } w.mgr.alerts := by
  unfold Monitoring.ResolveAlert
  cases hget : mapGet alertID w.mgr.alerts with
  | none => rfl
  | some alert =>
    simp only
    by_cases hd : w.mgr.dingtalkClient = true <;> by_cases hf : w.mgr.feishuClient = true <;>
      simp [hd, hf, Monitoring_notify_mgr]

/-- C28 (amended). In the store of the legacy manager every alert sits under
its own id and no id occurs twice, and every operation keeps it so.  An alert
that is resolved stays stored and resolved under `ResolveAlert` and the setters,
and under a probe (`checkCluster`, `checkClusters`) provided its id does not end
in the second of a clock reading still to come: a probe stores each alert it
creates under an id ending in the second of its creation, whatever is there. -/
theorem legacy_resolved_stays (env : Env) (w : Monitoring.World) (op : Monitoring.Op)
    (hwf : MapWF w.mgr.alerts) (hk : AlertsKeyed w.mgr.alerts) :
    MapWF (Monitoring.step env w op).mgr.alerts ∧
    AlertsKeyed (Monitoring.step env w op).mgr.alerts ∧
    ∀ id a, mapGet id w.mgr.alerts = some a → a.Resolved = true →
      (op.IsCheck → ∀ j, w.clock ≤ j → ¬ EndsInSecond id (env.now j)) →
      ∃ a', mapGet id (Monitoring.step env w op).mgr.alerts = some a' ∧ a'.Resolved = true := by
  have hraise_wf := fun idPrefix clusterName alertType level message w =>
    Monitoring_raiseAlert_wellformed env idPrefix clusterName alertType level message w
  have hraise_keep : ∀ id, (∀ j, w.clock ≤ j → ¬ EndsInSecond id (env.now j)) →
      ∀ idPrefix clusterName alertType level message (w' : Monitoring.World),
      (w.clock ≤ w'.clock ∧ mapGet id w'.mgr.alerts = mapGet id w.mgr.alerts) →
      (w.clock ≤ (Monitoring.raiseAlert env idPrefix clusterName alertType level message
          w').clock ∧
        mapGet id (Monitoring.raiseAlert env idPrefix clusterName alertType level message
          w').mgr.alerts = mapGet id w.mgr.alerts) := by
    intro id hfresh idPrefix clusterName alertType level message w' hw'
    constructor
    · rw [(Monitoring_raiseAlert_alerts env idPrefix clusterName alertType level message w').2]
      omega
    · rw [Monitoring_raiseAlert_keeps env idPrefix clusterName alertType level message id w'
        (hfresh _ hw'.1)]
      exact hw'.2
  cases op with
  | SetDingTalkClient client => exact ⟨hwf, hk, fun id a hget hres _ => ⟨a, hget, hres⟩⟩
  | SetFeishuClient client => exact ⟨hwf, hk, fun id a hget hres _ => ⟨a, hget, hres⟩⟩
  | checkClusters =>
    have h1 := Monitoring_checkClusters_keeps env
      (fun w' => MapWF w'.mgr.alerts ∧ AlertsKeyed w'.mgr.alerts) hraise_wf w ⟨hwf, hk⟩
    refine ⟨h1.1, h1.2, fun id a hget hres hfresh => ?_⟩
    have h2 := Monitoring_checkClusters_keeps env
      (fun w' => w.clock ≤ w'.clock ∧ mapGet id w'.mgr.alerts = mapGet id w.mgr.alerts)
      (hraise_keep id (hfresh trivial)) w ⟨le_refl _, rfl⟩
    exact ⟨a, by rw [← hget]; exact h2.2, hres⟩
  | checkCluster clusterName =>
    have h1 := Monitoring_checkCluster_keeps env
      (fun w' => MapWF w'.mgr.alerts ∧ AlertsKeyed w'.mgr.alerts) hraise_wf clusterName w
      ⟨hwf, hk⟩
    refine ⟨h1.1, h1.2, fun id a hget hres hfresh => ?_⟩
    have h2 := Monitoring_checkCluster_keeps env
      (fun w' => w.clock ≤ w'.clock ∧ mapGet id w'.mgr.alerts = mapGet id w.mgr.alerts)
      (hraise_keep id (hfresh trivial)) clusterName w ⟨le_refl _, rfl⟩
    exact ⟨a, by rw [← hget]; exact h2.2, hres⟩
  | ResolveAlert alertID =>
    have halerts := Monitoring_ResolveAlert_alerts env alertID w
    show MapWF (Monitoring.ResolveAlert env alertID w).2.mgr.alerts ∧
      AlertsKeyed (Monitoring.ResolveAlert env alertID w).2.mgr.alerts ∧
      ∀ id a, mapGet id w.mgr.alerts = some a → a.Resolved = true → _ →
        ∃ a', mapGet id (Monitoring.ResolveAlert env alertID w).2.mgr.alerts = some a' ∧
          a'.Resolved = true
    rw [halerts]
    cases hget : mapGet alertID w.mgr.alerts with
    | none => exact ⟨hwf, hk, fun id a hget' hres _ => ⟨a, hget', hres⟩⟩
    | some alert =>
      refine ⟨MapWF_mapSet _ _ hwf, AlertsKeyed_mapSet ?_ hk, fun id a hget' hres _ => ?_⟩
      · exact hk _ (mem_of_mapGet hget)
      · by_cases hid : id = alertID
        · subst hid
          exact ⟨_, mapGet_mapSet_same _ _ _, rfl⟩
        · exact ⟨a, by rw [mapGet_mapSet_ne _ _ hid]; exact hget', hres⟩

/-- The store of a fresh legacy manager is well formed (it is empty). -/
theorem legacy_init_wellformed (k8sManager : Option Kubernetes.Manager) :
    MapWF (Monitoring.World.init k8sManager).mgr.alerts ∧
    AlertsKeyed (Monitoring.World.init k8sManager).mgr.alerts := by
  constructor
  · unfold MapWF
    exact List.nodup_nil
  · intro e he
    cases he

/-- The resolved alert `a-20240102030405` of `resolvedWorld` stays resolved
when `a` is probed again ten seconds later. -/
theorem legacy_resolved_stays_witness :
    ∃ a', mapGet "a-20240102030405"
        (Monitoring.step laterEnv Monitoring.resolvedWorld (.checkCluster "a")).mgr.alerts =
          some a' ∧ a'.Resolved = true :=
  (legacy_resolved_stays laterEnv Monitoring.resolvedWorld (.checkCluster "a")
    (by unfold MapWF; decide) (by unfold AlertsKeyed; decide)).2.2
    "a-20240102030405"
    { ID := "a-20240102030405", Cluster := "a", Type_ := "connection", Level := "critical",
      Message := "Failed to connect to cluster: cluster not found: a",
      CreatedAt := ⟨2024, 1, 2, 3, 4, 5, 0⟩, Resolved := true }
    (by decide) rfl
    (fun _ _ _ => (by decide :
      ¬ EndsInSecond "a-20240102030405" (⟨2024, 1, 2, 3, 4, 15, 0⟩ : Time)))

/-- C28 as stated fails: under a clock that stands still, a failed probe of
`a` creates the alert `a-20240102030405`, `ResolveAlert` resolves it, and a second
failed probe stores a new alert under the same id, unresolved. -/
theorem legacy_probe_reopens_resolved_alert :
    (mapGet "a-20240102030405" Monitoring.resolvedWorld.mgr.alerts).map (fun a => a.Resolved) =
      some true ∧
    (mapGet "a-20240102030405"
      (Monitoring.step frozenEnv Monitoring.resolvedWorld (.checkCluster "a")).mgr.alerts).map
        (fun a => a.Resolved) = some false := by
  constructor <;> decide

/-! ## The formatted second determines the second -/

theorem digitChar_value : ∀ d, d < 10 → (Nat.digitChar d).toNat - 48 = d := by decide

theorem digitsValue_append_singleton (digits : List Char) (c : Char) :
    digitsValue (digits ++ [c]) = 10 * digitsValue digits + (c.toNat - 48) := by
  simp [digitsValue, List.foldl_append]

theorem toDigitsCore_value (fuel n : Nat) (acc : List Char) (h : n < fuel) :
    ∃ digits, Nat.toDigitsCore 10 fuel n acc = digits ++ acc ∧ digitsValue digits = n := by
  induction fuel generalizing n acc with
  | zero => omega
  | succ fuel ih =>
    unfold Nat.toDigitsCore
    simp only
    by_cases h0 : n / 10 = 0
    · rw [if_pos h0]
      refine ⟨[Nat.digitChar (n % 10)], rfl, ?_⟩
      have hn : n < 10 := by omega
      have := digitChar_value (n % 10) (Nat.mod_lt _ (by decide))
      simp only [digitsValue, List.foldl_cons, List.foldl_nil, Nat.mul_zero, Nat.zero_add]
      omega
    · rw [if_neg h0]
      obtain ⟨digits, hd, hv⟩ := ih (n / 10) (Nat.digitChar (n % 10) :: acc) (by omega)
      refine ⟨digits ++ [Nat.digitChar (n % 10)], by rw [hd]; simp, ?_⟩
      rw [digitsValue_append_singleton, hv, digitChar_value (n % 10) (Nat.mod_lt _ (by decide))]
      omega

theorem digitsValue_replicate_zero (k : Nat) (digits : List Char) :
    digitsValue (List.replicate k '0' ++ digits) = digitsValue digits := by
  induction k with
  | zero => rfl
  | succ k ih =>
    rw [List.replicate_succ, List.cons_append]
    unfold digitsValue at *
    rw [List.foldl_cons]
    exact ih

/-- Reading back the digits written by `zeroPad` gives the number. -/
theorem digitsValue_zeroPad (width n : Nat) : digitsValue (zeroPad width n) = n := by
  unfold zeroPad
  rw [digitsValue_replicate_zero]
  obtain ⟨digits, hd, hv⟩ := toDigitsCore_value (n + 1) n [] (Nat.lt_succ_self n)
  unfold Nat.toDigits
  rw [hd, List.append_nil, hv]

theorem zeroPad_length (width n : Nat) (hw : 0 < width) (h : n < 10 ^ width) :
    (zeroPad width n).length = width := by
  unfold zeroPad
  have hlen : (Nat.toDigits 10 n).length ≤ width :=
    Nat.toDigitsCore_length 10 (by decide) (n + 1) n width h hw
  rw [List.length_append, List.length_replicate]
  omega

theorem zeroPad_injective {width n m : Nat} (h : zeroPad width n = zeroPad width m) : n = m := by
  rw [← digitsValue_zeroPad width n, ← digitsValue_zeroPad width m, h]

/-- Two readings with four-digit years that format to the same 14 digits show
the same second. -/
theorem stamp_determines_second (t₁ t₂ : Time) (h₁ : t₁.FourDigitYear) (h₂ : t₂.FourDigitYear)
    (h : t₁.stamp = t₂.stamp) : t₁.SameSecond t₂ := by
  obtain ⟨hy₁, hmo₁, hd₁, hh₁, hmi₁, hs₁⟩ := h₁
  obtain ⟨hy₂, hmo₂, hd₂, hh₂, hmi₂, hs₂⟩ := h₂
  have hdata : t₁.stamp.data = t₂.stamp.data := by rw [h]
  simp only [Time.stamp] at hdata
  have len2 : ∀ n, n ≤ 60 → (zeroPad 2 n).length = 2 :=
    fun n hn => zeroPad_length 2 n (by decide) (by omega)
  obtain ⟨hdata, e6⟩ := List.append_inj' hdata (by rw [len2 _ hs₁, len2 _ hs₂])
  obtain ⟨hdata, e5⟩ := List.append_inj' hdata
    (by rw [len2 _ (by omega), len2 _ (by omega)])
  obtain ⟨hdata, e4⟩ := List.append_inj' hdata
    (by rw [len2 _ (by omega), len2 _ (by omega)])
  obtain ⟨hdata, e3⟩ := List.append_inj' hdata
    (by rw [len2 _ (by omega), len2 _ (by omega)])
  obtain ⟨e1, e2⟩ := List.append_inj' hdata
    (by rw [len2 _ (by omega), len2 _ (by omega)])
  exact ⟨zeroPad_injective e1, zeroPad_injective e2, zeroPad_injective e3,
    zeroPad_injective e4, zeroPad_injective e5, zeroPad_injective e6⟩

/-! ## Alert ids keep clusters and types apart -/

theorem AlertType_no_dash {ty : String} (h : AlertType ty) : '-' ∉ ty.data := by
  rcases h with h | h | h <;> subst h <;> decide

theorem IdsDerived_createAlert (env : Env) (clusterName alertType level message : String)
    (w : World) (hty : '-' ∉ alertType.data) (h : IdsDerived w.svc.alerts) :
    IdsDerived (createAlert env clusterName alertType level message w).svc.alerts := by
  rw [createAlert_alerts]
  split
  · exact h
  · intro e he
    rcases mem_mapSet he with he | he
    · rw [he]
      exact ⟨hty, env.now w.clock, rfl⟩
    · exact h e he

theorem IdsDerived_ResolveAlert (env : Env) (id : String) (w : World)
    (h : IdsDerived w.svc.alerts) : IdsDerived (ResolveAlert env id w).2.svc.alerts := by
  rw [ResolveAlert_alerts]
  split
  · exact h
  · rename_i a ha
    intro e he
    rcases mem_mapSet he with he | he
    · rw [he]
      exact h (id, a) (mem_of_mapGet ha)
    · exact h e he

theorem IdsDerived_of_reachable (env : Env) (k8sManager : Manager) (w : World)
    (h : ReachableByTicks env k8sManager w) : IdsDerived w.svc.alerts := by
  induction h with
  | init =>
    intro e he
    simp [World.init, NewService] at he
  | step w op _ hfits hpub ih =>
    cases op with
    | SetDingTalkClient client => exact ih
    | SetFeishuClient client => exact ih
    | collectMetrics =>
      simp only [step, collectMetrics_alerts]
      exact ih
    | sendCharts order =>
      simp only [step, sendCharts_svc]
      exact ih
    | checkAlerts order =>
      simp only [step]
      apply checkAlerts_keeps_of env (fun w => IdsDerived w.svc.alerts) order _ w ih
      intro e _ w' alertType level message hty hw'
      apply IdsDerived_createAlert env e.1 alertType level message w' _ hw'
      rcases hty with hty | hty <;> subst hty <;> decide
    | createAlert clusterName alertType level message => exact absurd hpub id
    | ResolveAlert id => exact IdsDerived_ResolveAlert env id w ih

/-- C29. Ids built from types among `connection`, `node` and `pod` are equal
only if cluster, type and formatted second are equal, whatever dashes the
cluster names hold; readings with four-digit years then show the same second.
So, in a service reached by its ticks, an alert that makes `createAlert` do
nothing has the cluster and the type of the create, and a create for a cluster
and type of which the store holds no alert stores its alert. -/
theorem alert_ids_separate_clusters_and_types :
    (∀ (c₁ c₂ ty₁ ty₂ : String) (t₁ t₂ : Time), AlertType ty₁ → AlertType ty₂ →
      alertID c₁ ty₁ t₁ = alertID c₂ ty₂ t₂ →
      c₁ = c₂ ∧ ty₁ = ty₂ ∧ t₁.stamp = t₂.stamp ∧
        (t₁.FourDigitYear → t₂.FourDigitYear → t₁.SameSecond t₂)) ∧
    (∀ (env : Env) (k8sManager : Manager) (w : World), ReachableByTicks env k8sManager w →
      ∀ c ty level message, AlertType ty →
      (∀ a, mapGet (alertID c ty (env.now w.clock)) w.svc.alerts = some a →
        a.Cluster = c ∧ a.Type_ = ty) ∧
      ((∀ a ∈ GetAlerts w.svc, a.Cluster ≠ c ∨ a.Type_ ≠ ty) →
        mapGet (alertID c ty (env.now w.clock))
            (createAlert env c ty level message w).svc.alerts =
          some (newAlert c ty level message (env.now w.clock) (env.now (w.clock + 1))))) := by
  constructor
  · intro c₁ c₂ ty₁ ty₂ t₁ t₂ h₁ h₂ h
    obtain ⟨hc, hty, hs⟩ := alertID_injective (AlertType_no_dash h₁) (AlertType_no_dash h₂) h
    exact ⟨hc, hty, hs, fun hf₁ hf₂ => stamp_determines_second t₁ t₂ hf₁ hf₂ hs⟩
  · intro env k8sManager w hreach c ty level message hty
    have hder := IdsDerived_of_reachable env k8sManager w hreach
    have hsame : ∀ a, mapGet (alertID c ty (env.now w.clock)) w.svc.alerts = some a →
        a.Cluster = c ∧ a.Type_ = ty := by
      intro a ha
      obtain ⟨hdash, t, hid⟩ := hder _ (mem_of_mapGet ha)
      obtain ⟨hc, hty', _⟩ := alertID_injective (AlertType_no_dash hty) hdash hid
      exact ⟨hc.symm, hty'.symm⟩
    refine ⟨hsame, fun hnone => ?_⟩
    have hfresh : mapGet (alertID c ty (env.now w.clock)) w.svc.alerts = none := by
      cases hget : mapGet (alertID c ty (env.now w.clock)) w.svc.alerts with
      | none => rfl
      | some a =>
        have hmem : a ∈ GetAlerts w.svc :=
          List.mem_map_of_mem Prod.snd (mem_of_mapGet hget)
        obtain ⟨hc, hty'⟩ := hsame a hget
        rcases hnone a hmem with hne | hne
        · exact absurd hc hne
        · exact absurd hty' hne
    rw [createAlert_alerts, hfresh]
    exact mapGet_mapSet_same _ _ _

/-- The ids of a `pod` alert of cluster `a-node` and of a `node` alert of
cluster `a` differ. -/
theorem alert_ids_separate_clusters_and_types_witness :
    alertID "a-node" "pod" ⟨2024, 1, 2, 3, 4, 5, 0⟩ ≠
      alertID "a" "node" ⟨2024, 1, 2, 3, 4, 5, 0⟩ :=
  fun h => absurd
    (alert_ids_separate_clusters_and_types.1 "a-node" "a" "pod" "node"
      ⟨2024, 1, 2, 3, 4, 5, 0⟩ ⟨2024, 1, 2, 3, 4, 5, 0⟩ (by decide) (by decide) h).1
    (by decide)

/-! ## The chart of a cluster -/

theorem foldl_append_eq_join {α : Type} (f : α → String) (xs : List α) (init : String) :
    xs.foldl (fun buf x => buf ++ f x) init = init ++ String.join (xs.map f) := by
  induction xs generalizing init with
  | nil => simp [String.join]
  | cons x rest ih =>
    rw [List.foldl_cons, ih, List.map_cons]
    have hj : ∀ (l : List String) (a : String), l.foldl (fun r s => r ++ s) a =
        a ++ l.foldl (fun r s => r ++ s) "" := by
      intro l
      induction l with
      | nil => intro a; simp
      | cons y ys ihy =>
        intro a
        rw [List.foldl_cons, ihy (a ++ y), List.foldl_cons, ihy ("" ++ y)]
        simp [String.append_assoc]
    unfold String.join
    rw [List.foldl_cons, hj _ ("" ++ f x)]
    simp [String.append_assoc]

set_option maxRecDepth 8000 in
theorem generateBarChart_series (g : Generator) (metrics : ClusterMetrics) (color : String) :
    g.generateBarChart (g.generateCPUMetrics metrics) color = cpuBars ∧
    g.generateBarChart (g.generateMemoryMetrics metrics) color = memoryBars := by
  unfold Generator.generateBarChart Generator.generateCPUMetrics Generator.generateMemoryMetrics
  constructor <;> decide

/-- C30. The chart of a cluster depends on the sample through the cluster's
name only: two samples of the same name, rendered at the same current time
(by any two generators), give the same bytes and no error.  The CPU series is
30, 35, ..., 75 and the memory series 40, 43, ..., 67, whatever the sample, each
point drawn with a bar of `floor(value / 10)` blocks; the whole text is the
title, its underline, the legend, the two series and the ten time labels. -/
theorem GenerateClusterMetricsChart_ignores_sample (g₁ g₂ : Generator) (clock : Nat → Time)
    (m₁ m₂ : ClusterMetrics) (h : m₁.ClusterName = m₂.ClusterName) :
    g₁.GenerateClusterMetricsChart clock m₁ = g₂.GenerateClusterMetricsChart clock m₂ ∧
    g₁.generateCPUMetrics m₁ = cpuSeries.map (fun value => (value, 1)) ∧
    g₁.generateMemoryMetrics m₁ = memorySeries.map (fun value => (value, 1)) ∧
    (∀ color, g₁.generateBarChart (g₁.generateCPUMetrics m₁) color =
      String.join (cpuSeries.map barLine)) ∧
    (∀ color, g₁.generateBarChart (g₁.generateMemoryMetrics m₁) color =
      String.join (memorySeries.map barLine)) ∧
    g₁.GenerateClusterMetricsChart clock m₁ =
      ("\n集群监控 - " ++ m₁.ClusterName ++ "\n" ++
        String.mk (List.replicate ("集群监控 - " ++ m₁.ClusterName).utf8ByteSize '=') ++ "\n" ++
        "\n图例:\n  CPU使用率: #FF6B6B\n  内存使用率: #4ECDC4\n\n" ++
        "使用率 (%)\n====================" ++
        "\nCPU使用率:\n" ++ cpuBars ++ "\n内存使用率:\n" ++ memoryBars ++ "\n" ++
        String.join ((List.range 10).map fun i => padRight 10 (clock (9 - i)).hourMinute) ++
        "\n", none) := by
  have hbars₁ := fun color => generateBarChart_series g₁ m₁ color
  refine ⟨?_, rfl, rfl, fun color => ?_, fun color => ?_, ?_⟩
  · unfold Generator.GenerateClusterMetricsChart Generator.GenerateChart Generator.generateChart
      Generator.generateTimeLabels Generator.generateCPUMetrics
      Generator.generateMemoryMetrics Generator.generateBarChart Generator.generateSeparator
    rw [h]
  · rw [(hbars₁ color).1]
    decide
  · rw [(hbars₁ color).2]
    decide
  · unfold Generator.GenerateClusterMetricsChart Generator.GenerateChart Generator.generateChart
    simp only [if_true, List.foldl_cons, List.foldl_nil, (hbars₁ _).1, (hbars₁ _).2,
      foldl_append_eq_join, Generator.generateTimeLabels, Generator.generateSeparator,
      List.map_map]
    simp only [String.append_assoc, Int.toNat_ofNat, Function.comp_def]
    rfl

/-- Two samples of cluster `a` with different node and pod counts give the
same chart. -/
theorem GenerateClusterMetricsChart_ignores_sample_witness :
    (NewGenerator 80 20).GenerateClusterMetricsChart minuteClock (sampleWith "a" 3 1 0 0) =
      (NewGenerator 80 20).GenerateClusterMetricsChart minuteClock (sampleWith "a" 5 0 2 11) :=
  (GenerateClusterMetricsChart_ignores_sample (NewGenerator 80 20) (NewGenerator 80 20)
    minuteClock (sampleWith "a" 3 1 0 0) (sampleWith "a" 5 0 2 11) rfl).1

end Klaw
